import Mathlib

/-!
# Xvisor: VCPU state machine and per-CPU scheduler control

A shallow embedding of `core/vmm_scheduler.c`.  Pointers to VCPUs are natural
numbers indexing a heap `vcpus`, a null pointer is `none`, per-CPU data is a
function of the host CPU index.  Calls into collaborators whose effect lies
outside the scheduler (architecture switch, timer events, IPIs) are recorded,
in order, in the `trace` of the system state.  A `vmm_panic` is the result
`none`.  Unsigned 64-bit counters are natural numbers reduced modulo `2^64`.
-/

namespace Xvisor

/-! ## Definitions -/

/-- Modelled from the spec: the error codes of section 6 (`vmm_error.h` is absent).
Only their distinctness is used; `VMM_OK` is the one code that is false in `if (rc)`. -/
inductive Rc
  | VMM_OK
  | VMM_EFAIL
  | VMM_EINVALID
  | VMM_ENOTAVAIL
  | VMM_ENOMEM
  | VMM_EAGAIN
  deriving DecidableEq, Repr

/-- Modelled from the spec: the six VCPU states of section 4.2.1 (`vmm_manager.h`,
which declares the constants, is absent). -/
inductive vmm_vcpu_state
  | VMM_VCPU_STATE_UNKNOWN
  | VMM_VCPU_STATE_RESET
  | VMM_VCPU_STATE_READY
  | VMM_VCPU_STATE_RUNNING
  | VMM_VCPU_STATE_PAUSED
  | VMM_VCPU_STATE_HALTED
  deriving DecidableEq, Repr

open Rc vmm_vcpu_state

/-- Modelled from the spec: `SAVEABLE = {READY, RUNNING}` (section 4.2.1); the value is the
truth of the source test `state & VMM_VCPU_STATE_SAVEABLE`. -/
def VMM_VCPU_STATE_SAVEABLE (st : vmm_vcpu_state) : Bool :=
  st = VMM_VCPU_STATE_READY || st = VMM_VCPU_STATE_RUNNING

/-- Modelled from the spec: `INTERRUPTIBLE = {READY, RUNNING, PAUSED}` (section 4.2.1); the
value is the truth of the source test `state & VMM_VCPU_STATE_INTERRUPTIBLE`. -/
def VMM_VCPU_STATE_INTERRUPTIBLE (st : vmm_vcpu_state) : Bool :=
  st = VMM_VCPU_STATE_READY || st = VMM_VCPU_STATE_RUNNING || st = VMM_VCPU_STATE_PAUSED

/-- Addition of two `u64` values. -/
def u64_add (a b : Nat) : Nat := (a + b) % 2 ^ 64

/-- Subtraction of two `u64` values, wrapping around below zero. -/
def u64_sub (a b : Nat) : Nat := (a + (2 ^ 64 - b % 2 ^ 64)) % 2 ^ 64

/-- The scheduler-visible fields of `struct vmm_vcpu`.  The counters `state_*_nsecs`,
`state_tstamp` and `reset_tstamp` are `u64`; `resume_count` is a signed counter, kept as an
unbounded integer (signed overflow is not modelled); `reset_count` is kept modulo `2^64`. -/
structure vmm_vcpu where
  is_normal : Bool
  priority : Nat
  time_slice : Nat
  hcpu : Nat
  cpu_affinity : List Nat
  state : vmm_vcpu_state
  state_tstamp : Nat
  state_ready_nsecs : Nat
  state_running_nsecs : Nat
  state_paused_nsecs : Nat
  state_halted_nsecs : Nat
  reset_count : Nat
  reset_tstamp : Nat
  preempt_count : Nat
  resume_count : Int
  deriving DecidableEq

/-- Modelled from the spec: the ready queue of section 4.1 (the `vmm_schedalgo_*` code is
absent): one FIFO of VCPU pointers per priority level. -/
abbrev Rq := Nat → List Nat

/-- Modelled from the spec: `enqueue(rq, vcpu)` of section 4.1 places `vcpu` at the tail of
its priority band; no failure is specified. -/
def vmm_schedalgo_rq_enqueue (rq : Rq) (vcpu : Nat) (v : vmm_vcpu) : Rc × Rq :=
  (VMM_OK, Function.update rq v.priority (rq v.priority ++ [vcpu]))

/-- Modelled from the spec: `detach(rq, vcpu)` of section 4.1 removes `vcpu` from its band and
fails if it is absent; the failure is reported as `VMM_EFAIL`. -/
def vmm_schedalgo_rq_detach (rq : Rq) (vcpu : Nat) (v : vmm_vcpu) : Rc × Rq :=
  if vcpu ∈ rq v.priority then
    (VMM_OK, Function.update rq v.priority ((rq v.priority).erase vcpu))
  else (VMM_EFAIL, rq)

/-- The highest non-empty band among the priorities `0 .. p`. -/
def highest_band (rq : Rq) : Nat → Option Nat
  | 0 => if rq 0 = [] then none else some 0
  | p + 1 => if rq (p + 1) = [] then highest_band rq p else some (p + 1)

/-- Modelled from the spec: `dequeue(rq, &out_vcpu, &out_time_slice)` of section 4.1 returns
the head VCPU of the highest non-empty priority band and its configured time slice; `none`
stands for a non-zero return code (every band empty). -/
def vmm_schedalgo_rq_dequeue (maxprio : Nat) (rq : Rq) (vcpus : Nat → vmm_vcpu) :
    Option (Nat × Nat × Rq) :=
  match highest_band rq maxprio with
  | none => none
  | some p =>
    match rq p with
    | [] => none
    | next :: rest => some (next, (vcpus next).time_slice, Function.update rq p rest)

/-- Modelled from the spec: `length(rq, priority)` of section 4.1, the count in a band. -/
def vmm_schedalgo_rq_length (rq : Rq) (priority : Nat) : Nat := (rq priority).length

/-- Compile-time configuration and the one ready-queue operation the spec leaves open
(`preempt_needed`, Open Question 1), taken as parameters. -/
structure Config where
  CONFIG_CPU_COUNT : Nat
  VMM_VCPU_MAX_PRIORITY : Nat
  vmm_schedalgo_rq_prempt_needed : Rq → Option vmm_vcpu → Bool

/-- Results of the collaborators consulted during one call: the two readings of
`vmm_timer_timestamp` (in the call itself and in a scheduler switch it triggers) and the
return codes of the VCPU set-up hooks. -/
structure Ext where
  tstamp : Nat
  tstamp_next : Nat
  vmm_schedalgo_vcpu_cleanup : Rc
  vmm_schedalgo_vcpu_setup : Rc
  arch_vcpu_init : Rc
  vmm_vcpu_irq_init : Rc

/-- Calls into collaborators, recorded in the order they are made. -/
inductive Call
  | arch_vcpu_switch (tcurrent : Option Nat) (next : Nat) (regs : Option Nat)
  | vmm_timer_event_start (cpu : Nat) (nsecs : Nat)
  | vmm_timer_event_restart (cpu : Nat)
  | ipi_resched (hcpu : Nat)
  | ipi_migrate_vcpu (old_hcpu : Nat) (vcpu : Nat) (new_hcpu : Nat)
  | arch_vcpu_preempt_orphan (cpu : Nat)
  | vmm_vcpu_irq_process (vcpu : Nat) (regs : Option Nat)
  deriving DecidableEq, Repr

/-- The fields of `struct vmm_scheduler_ctrl` used by the switch and state-change paths. -/
structure vmm_scheduler_ctrl where
  rq : Rq
  current_vcpu_irq_ns : Nat
  current_vcpu : Option Nat
  idle_vcpu : Option Nat
  irq_context : Bool
  irq_regs : Option Nat
  irq_enter_tstamp : Nat
  irq_process_ns : Nat
  yield_on_irq_exit : Bool

/-- The whole scheduler state: the VCPU heap, the per-CPU control blocks, the online map and
the trace of collaborator calls. -/
structure System where
  vcpus : Nat → vmm_vcpu
  sched : Nat → vmm_scheduler_ctrl
  cpu_online : Nat → Bool
  trace : List Call

/-- Store `x` at VCPU pointer `vcpu`. -/
def set_vcpu (s : System) (vcpu : Nat) (x : vmm_vcpu) : System :=
  { s with vcpus := Function.update s.vcpus vcpu x }

/-- Store `c` as the control block of host CPU `cpu`. -/
def set_sched (s : System) (cpu : Nat) (c : vmm_scheduler_ctrl) : System :=
  { s with sched := Function.update s.sched cpu c }

/-- Record a collaborator call. -/
def emit (s : System) (c : Call) : System :=
  { s with trace := s.trace ++ [c] }

/-- `rq_dequeue` on the control block of `cpu`. -/
def rq_dequeue (cfg : Config) (s : System) (cpu : Nat) : Option (Nat × Nat × System) :=
  match vmm_schedalgo_rq_dequeue cfg.VMM_VCPU_MAX_PRIORITY (s.sched cpu).rq s.vcpus with
  | none => none
  | some (next, next_time_slice, rq) =>
    some (next, next_time_slice, set_sched s cpu { s.sched cpu with rq := rq })

/-- `rq_enqueue` on the control block of `cpu`. -/
def rq_enqueue (s : System) (cpu : Nat) (vcpu : Nat) : Rc × System :=
  let r := vmm_schedalgo_rq_enqueue (s.sched cpu).rq vcpu (s.vcpus vcpu)
  (r.1, set_sched s cpu { s.sched cpu with rq := r.2 })

/-- `rq_detach` on the control block of `cpu`. -/
def rq_detach (s : System) (cpu : Nat) (vcpu : Nat) : Rc × System :=
  let r := vmm_schedalgo_rq_detach (s.sched cpu).rq vcpu (s.vcpus vcpu)
  (r.1, set_sched s cpu { s.sched cpu with rq := r.2 })

/-- `rq_prempt_needed` on the control block of `cpu`. -/
def rq_prempt_needed (cfg : Config) (s : System) (cpu : Nat) : Bool :=
  cfg.vmm_schedalgo_rq_prempt_needed (s.sched cpu).rq
    ((s.sched cpu).current_vcpu.map s.vcpus)

/-- `rq_length` on the control block of `cpu`. -/
def rq_length (s : System) (cpu : Nat) (priority : Nat) : Nat :=
  vmm_schedalgo_rq_length (s.sched cpu).rq priority

/-- The tail shared by both branches of `vmm_scheduler_next`: account the ready time of
`next`, mark it RUNNING, install it as current and program the tick for its time slice. -/
def install_next (s : System) (cpu next next_time_slice tstamp : Nat) : System :=
  let n := s.vcpus next
  let s1 := set_vcpu s next
    { n with
      state_ready_nsecs := u64_add n.state_ready_nsecs (u64_sub tstamp n.state_tstamp)
      state := VMM_VCPU_STATE_RUNNING
      state_tstamp := tstamp }
  let s2 := set_sched s1 cpu
    { s1.sched cpu with
      current_vcpu := some next
      current_vcpu_irq_ns := (s1.sched cpu).irq_process_ns }
  emit s2 (Call.vmm_timer_event_start cpu next_time_slice)

/-- The part of `vmm_scheduler_next` that saves a current VCPU: when it is RUNNING its running
time (less the IRQ time of the slice) is accounted, it becomes READY and is enqueued again.
Returns the new state and `tcurrent`. -/
def save_current (s : System) (cpu current tstamp : Nat) : System × Option Nat :=
  let c := s.vcpus current
  if VMM_VCPU_STATE_SAVEABLE c.state then
    if c.state = VMM_VCPU_STATE_RUNNING then
      let sp := s.sched cpu
      let s1 := set_vcpu s current
        { c with
          state_running_nsecs :=
            u64_sub (u64_add c.state_running_nsecs (u64_sub tstamp c.state_tstamp))
              (u64_sub sp.irq_process_ns sp.current_vcpu_irq_ns)
          state := VMM_VCPU_STATE_READY
          state_tstamp := tstamp }
      let s2 := set_sched s1 cpu { s1.sched cpu with current_vcpu_irq_ns := sp.irq_process_ns }
      ((rq_enqueue s2 cpu current).2, some current)
    else (s, some current)
  else (s, none)

/-- `vmm_scheduler_next` run on host CPU `cpu` at time `tstamp`; `none` is the panic on a
failed dequeue. -/
def vmm_scheduler_next (cfg : Config) (s : System) (cpu : Nat) (regs : Option Nat)
    (tstamp : Nat) : Option System :=
  match (s.sched cpu).current_vcpu with
  | none =>
    match rq_dequeue cfg s cpu with
    | none => none
    | some (next, next_time_slice, s1) =>
      some (install_next (emit s1 (Call.arch_vcpu_switch none next regs))
        cpu next next_time_slice tstamp)
  | some current =>
    let sv := save_current s cpu current tstamp
    match rq_dequeue cfg sv.1 cpu with
    | none => none
    | some (next, next_time_slice, s1) =>
      let s2 := if next ≠ current then emit s1 (Call.arch_vcpu_switch sv.2 next regs) else s1
      some (install_next s2 cpu next next_time_slice tstamp)

/-- `vmm_scheduler_switch`; `none` is a panic (null `regs`, or a failed dequeue). -/
def vmm_scheduler_switch (cfg : Config) (s : System) (cpu : Nat) (regs : Option Nat)
    (tstamp : Nat) : Option System :=
  match regs with
  | none => none
  | some _ =>
    match (s.sched cpu).current_vcpu with
    | some vcpu =>
      if (s.vcpus vcpu).preempt_count = 0 then vmm_scheduler_next cfg s cpu regs tstamp
      else some (emit s (Call.vmm_timer_event_restart cpu))
    | none => vmm_scheduler_next cfg s cpu regs tstamp

/-- `scheduler_timer_event`, the tick handler, run on host CPU `cpu`. -/
def scheduler_timer_event (cfg : Config) (s : System) (cpu : Nat) (tstamp : Nat) :
    Option System :=
  match (s.sched cpu).irq_regs with
  | some r => vmm_scheduler_switch cfg s cpu (some r) tstamp
  | none => some s

/-- `vmm_scheduler_preempt_orphan` run on host CPU `cpu`. -/
def vmm_scheduler_preempt_orphan (cfg : Config) (s : System) (cpu : Nat) (regs : Option Nat)
    (tstamp : Nat) : Option System :=
  vmm_scheduler_switch cfg s cpu regs tstamp

/-- `vmm_scheduler_force_resched`. -/
def vmm_scheduler_force_resched (cfg : Config) (s : System) (hcpu : Nat) : Rc × System :=
  if cfg.CONFIG_CPU_COUNT ≤ hcpu then (VMM_EINVALID, s)
  else if !s.cpu_online hcpu then (VMM_ENOTAVAIL, s)
  else (VMM_OK, emit s (Call.ipi_resched hcpu))

/-- Outcome of the `switch (new_state)` statement of `vmm_scheduler_state_change`: the return
code so far, the `preempt` flag, whether control jumped to `skip_state_change`, and the
state. -/
structure SwitchResult where
  rc : Rc
  preempt : Bool
  skip : Bool
  s : System

/-- The body shared by `case VMM_VCPU_STATE_PAUSED` (after its resume-count test falls
through) and `case VMM_VCPU_STATE_HALTED`. -/
def state_change_halted (s : System) (vcpu : Nat) (vhcpu : Nat)
    (current_state : vmm_vcpu_state) : SwitchResult :=
  if current_state = VMM_VCPU_STATE_READY ∨ current_state = VMM_VCPU_STATE_RUNNING then
    if (s.sched vhcpu).current_vcpu = some vcpu then ⟨VMM_OK, true, false, s⟩
    else if current_state = VMM_VCPU_STATE_READY then
      let d := rq_detach s vhcpu vcpu
      ⟨d.1, false, false, d.2⟩
    else ⟨VMM_OK, false, false, s⟩
  else ⟨VMM_EINVALID, false, false, s⟩

/-- The test "make sure VCPU is not in a ready queue" of the RESET case: a READY VCPU that is
not the current VCPU of its host CPU is detached. -/
def state_change_reset_detach (s : System) (vcpu : Nat) (vhcpu : Nat)
    (current_state : vmm_vcpu_state) : Rc × System :=
  if (s.sched vhcpu).current_vcpu ≠ some vcpu ∧ current_state = VMM_VCPU_STATE_READY
  then rq_detach s vhcpu vcpu else (VMM_OK, s)

/-- The branch "existing VCPU" of `case VMM_VCPU_STATE_RESET`: zero the resume count, detach
from the ready queue, mark the current VCPU for preemption, count the reset and run the two
initialisation hooks; each failure leaves the `switch` at once. -/
def state_change_reset (s : System) (vcpu : Nat) (vhcpu : Nat)
    (current_state : vmm_vcpu_state) (ext : Ext) : SwitchResult :=
  let d := state_change_reset_detach
    (set_vcpu s vcpu { s.vcpus vcpu with resume_count := 0 }) vcpu vhcpu current_state
  if d.1 ≠ VMM_OK then ⟨d.1, false, false, d.2⟩
  else
    ⟨if ext.arch_vcpu_init ≠ VMM_OK then ext.arch_vcpu_init
      else if ext.vmm_vcpu_irq_init ≠ VMM_OK then ext.vmm_vcpu_irq_init else VMM_OK,
     decide ((d.2.sched vhcpu).current_vcpu = some vcpu ∧
       current_state = VMM_VCPU_STATE_RUNNING),
     false,
     set_vcpu d.2 vcpu
       { d.2.vcpus vcpu with reset_count := ((d.2.vcpus vcpu).reset_count + 1) % 2 ^ 64 }⟩

/-- The `switch (new_state)` statement of `vmm_scheduler_state_change`. -/
def state_change_switch (cfg : Config) (s : System) (vcpu : Nat) (new_state : vmm_vcpu_state)
    (ext : Ext) : SwitchResult :=
  let v := s.vcpus vcpu
  let vhcpu := v.hcpu
  let current_state := v.state
  match new_state with
  | VMM_VCPU_STATE_UNKNOWN => ⟨ext.vmm_schedalgo_vcpu_cleanup, false, false, s⟩
  | VMM_VCPU_STATE_RESET =>
    if current_state = VMM_VCPU_STATE_UNKNOWN then
      ⟨ext.vmm_schedalgo_vcpu_setup, false, false, s⟩
    else if current_state ≠ VMM_VCPU_STATE_RESET then
      state_change_reset s vcpu vhcpu current_state ext
    else ⟨VMM_EINVALID, false, false, s⟩
  | VMM_VCPU_STATE_READY =>
    let s1 :=
      if VMM_VCPU_STATE_INTERRUPTIBLE current_state then
        set_vcpu s vcpu { v with resume_count := v.resume_count + 1 }
      else s
    if VMM_VCPU_STATE_INTERRUPTIBLE current_state ∧ (s1.vcpus vcpu).resume_count < 0 then
      ⟨VMM_EAGAIN, false, true, s1⟩
    else if current_state = VMM_VCPU_STATE_READY ∨ current_state = VMM_VCPU_STATE_RUNNING then
      ⟨VMM_OK, false, true, s1⟩
    else if current_state = VMM_VCPU_STATE_RESET ∨ current_state = VMM_VCPU_STATE_PAUSED then
      let e := rq_enqueue s1 vhcpu vcpu
      let preempt : Bool :=
        if e.1 = VMM_OK ∧ (e.2.sched vhcpu).current_vcpu ≠ some vcpu
        then rq_prempt_needed cfg e.2 vhcpu else false
      ⟨e.1, preempt, false, e.2⟩
    else ⟨VMM_EINVALID, false, false, s1⟩
  | VMM_VCPU_STATE_RUNNING => ⟨VMM_EINVALID, false, false, s⟩
  | VMM_VCPU_STATE_PAUSED =>
    let s1 :=
      if VMM_VCPU_STATE_INTERRUPTIBLE current_state then
        set_vcpu s vcpu { v with resume_count := v.resume_count - 1 }
      else s
    if VMM_VCPU_STATE_INTERRUPTIBLE current_state ∧ (s1.vcpus vcpu).resume_count > 0 then
      ⟨VMM_EAGAIN, false, true, s1⟩
    else if VMM_VCPU_STATE_INTERRUPTIBLE current_state ∧ (s1.vcpus vcpu).resume_count = 0 then
      ⟨VMM_OK, false, true, s1⟩
    else state_change_halted s1 vcpu vhcpu current_state
  | VMM_VCPU_STATE_HALTED => state_change_halted s vcpu vhcpu current_state

/-- The accounting block `if (rc == VMM_OK) { ... }` of `vmm_scheduler_state_change`: the
bucket of the previous state grows by `tstamp - state_tstamp`, a RESET zeroes the buckets, and
the new state and its time stamp are written. -/
def state_change_account (s : System) (vcpu : Nat) (current_state new_state : vmm_vcpu_state)
    (tstamp : Nat) : System :=
  let v := s.vcpus vcpu
  let d := u64_sub tstamp v.state_tstamp
  let v1 : vmm_vcpu :=
    match current_state with
    | VMM_VCPU_STATE_READY => { v with state_ready_nsecs := u64_add v.state_ready_nsecs d }
    | VMM_VCPU_STATE_RUNNING => { v with state_running_nsecs := u64_add v.state_running_nsecs d }
    | VMM_VCPU_STATE_PAUSED => { v with state_paused_nsecs := u64_add v.state_paused_nsecs d }
    | VMM_VCPU_STATE_HALTED => { v with state_halted_nsecs := u64_add v.state_halted_nsecs d }
    | _ => v
  let v2 : vmm_vcpu :=
    if new_state = VMM_VCPU_STATE_RESET then
      { v1 with
        state_ready_nsecs := 0
        state_running_nsecs := 0
        state_paused_nsecs := 0
        state_halted_nsecs := 0
        reset_tstamp := tstamp }
    else v1
  set_vcpu s vcpu { v2 with state := new_state, state_tstamp := tstamp }

/-- Modelled from the spec: `arch_vcpu_preempt_orphan()` (section 4.5; the architecture code
is absent) synchronously yields the orphan VCPU that calls it outside IRQ context.  The call
of the hook is recorded in the trace and the scheduler switch of the host CPU runs at once,
inside the call: `vmm_scheduler_preempt_orphan` on the register frame saved by the hook (its
address is not tracked and stands as `0`), reading the clock at `tstamp`.  The result is the
state that this switch leaves, `none` when it panics.  The hook gives control back to its
caller only when the orphan is dispatched again, after whatever else runs in between. -/
def arch_vcpu_preempt_orphan (cfg : Config) (s : System) (cpu : Nat) (tstamp : Nat) :
    Option System :=
  vmm_scheduler_preempt_orphan cfg (emit s (Call.arch_vcpu_preempt_orphan cpu)) cpu (some 0)
    tstamp

/-- The post-transition preemption of `vmm_scheduler_state_change` (after the VCPU lock is
released), entered when `preempt` is set and the VCPU's host CPU has a current VCPU.  A local
call with a guest VCPU current sets the yield flag; a local call with an orphan current runs a
scheduler switch inside the call, `vmm_scheduler_preempt_orphan(schedp->irq_regs)` in IRQ
context and `arch_vcpu_preempt_orphan()` outside it; a remote call sends the reschedule IPI,
whose return code replaces `rc`. -/
def state_change_preempt (cfg : Config) (s : System) (chcpu vhcpu : Nat) (current : Nat)
    (rc : Rc) (ext : Ext) : Option (Rc × System) :=
  if chcpu = vhcpu then
    if (s.vcpus current).is_normal then
      some (rc, set_sched s vhcpu { s.sched vhcpu with yield_on_irq_exit := true })
    else if (s.sched vhcpu).irq_context then
      match vmm_scheduler_preempt_orphan cfg s vhcpu (s.sched vhcpu).irq_regs ext.tstamp_next with
      | none => none
      | some s1 => some (rc, s1)
    else
      match arch_vcpu_preempt_orphan cfg s chcpu ext.tstamp_next with
      | none => none
      | some s1 => some (rc, s1)
  else some (vmm_scheduler_force_resched cfg s vhcpu)

/-- The part of `vmm_scheduler_state_change` that runs with the VCPU's `sched_lock` held, up
to the label `skip_state_change`: the `switch`, then the accounting block unless control
jumped to the label or the return code is an error. -/
def state_change_locked (cfg : Config) (s : System) (vcpu : Nat) (new_state : vmm_vcpu_state)
    (ext : Ext) : SwitchResult :=
  let r := state_change_switch cfg s vcpu new_state ext
  if !r.skip && decide (r.rc = VMM_OK) then
    { r with s := state_change_account r.s vcpu (s.vcpus vcpu).state new_state ext.tstamp }
  else r

/-- A preemption raised by a state change of a VCPU owned by host CPU `vhcpu`, called on host
CPU `chcpu`, is deferred, that is, delivered without a scheduler switch inside the call:
`vhcpu` has no current VCPU (nothing is delivered), or the call is local and the current VCPU
is a guest VCPU (the yield flag is set), or the call is remote and `vhcpu` is a valid online
CPU (the reschedule IPI is sent).  A local call with an orphan current is not deferred: the
switch runs inside the call, in IRQ context and outside it. -/
def preempt_deferred (cfg : Config) (s : System) (chcpu vhcpu : Nat) : Bool :=
  match (s.sched vhcpu).current_vcpu with
  | none => true
  | some c =>
    if chcpu = vhcpu then (s.vcpus c).is_normal
    else decide (vhcpu < cfg.CONFIG_CPU_COUNT) && s.cpu_online vhcpu

/-- The state `s1` agrees with `s` on what decides how a preemption is delivered and where a
VCPU queues: the kind, owner CPU and priority of every VCPU, the current VCPU and IRQ-context
flag of every host CPU, and the online map. -/
def same_delivery (s s1 : System) : Prop :=
  (∀ w, (s1.vcpus w).is_normal = (s.vcpus w).is_normal ∧ (s1.vcpus w).hcpu = (s.vcpus w).hcpu
      ∧ (s1.vcpus w).priority = (s.vcpus w).priority)
    ∧ (∀ cpu, (s1.sched cpu).current_vcpu = (s.sched cpu).current_vcpu
      ∧ (s1.sched cpu).irq_context = (s.sched cpu).irq_context)
    ∧ s1.cpu_online = s.cpu_online

/-- `vmm_scheduler_state_change(vcpu, new_state, lock_held)` called on host CPU `chcpu`.  The
result is the return code and the new state, or `none` when a scheduler switch made inside the
call panics. -/
def vmm_scheduler_state_change (cfg : Config) (s : System) (chcpu : Nat) (vcpu : Option Nat)
    (new_state : vmm_vcpu_state) (ext : Ext) : Option (Rc × System) :=
  match vcpu with
  | none => some (VMM_EFAIL, s)
  | some vcpu =>
    let vhcpu := (s.vcpus vcpu).hcpu
    let r := state_change_locked cfg s vcpu new_state ext
    match (if r.preempt then (r.s.sched vhcpu).current_vcpu else none) with
    | some current => state_change_preempt cfg r.s chcpu vhcpu current r.rc ext
    | none => some (r.rc, r.s)

/-- One scheduler entry point together with its inputs. -/
inductive Event
  | state_change (chcpu : Nat) (vcpu : Nat) (new_state : vmm_vcpu_state) (ext : Ext)
  | tick (cpu : Nat) (tstamp : Nat)
  | preempt_orphan (cpu : Nat) (regs : Option Nat) (tstamp : Nat)

/-- Run one event. -/
def step (cfg : Config) (s : System) : Event → Option System
  | Event.state_change chcpu vcpu new_state ext =>
    (vmm_scheduler_state_change cfg s chcpu (some vcpu) new_state ext).map Prod.snd
  | Event.tick cpu tstamp => scheduler_timer_event cfg s cpu tstamp
  | Event.preempt_orphan cpu regs tstamp => vmm_scheduler_preempt_orphan cfg s cpu regs tstamp

/-- Run a sequence of events one after another. -/
def run (cfg : Config) : System → List Event → Option System
  | s, [] => some s
  | s, e :: es =>
    match step cfg s e with
    | none => none
    | some s1 => run cfg s1 es

/-- The (current, requested) pairs listed as rejected: any state to RUNNING, RESET to RESET,
UNKNOWN to READY/PAUSED/HALTED, RESET to PAUSED/HALTED, HALTED to READY/PAUSED/HALTED and
PAUSED to HALTED. -/
def rejected_transition : vmm_vcpu_state → vmm_vcpu_state → Bool
  | _, VMM_VCPU_STATE_RUNNING => true
  | VMM_VCPU_STATE_RESET, VMM_VCPU_STATE_RESET => true
  | VMM_VCPU_STATE_UNKNOWN, VMM_VCPU_STATE_READY => true
  | VMM_VCPU_STATE_UNKNOWN, VMM_VCPU_STATE_PAUSED => true
  | VMM_VCPU_STATE_UNKNOWN, VMM_VCPU_STATE_HALTED => true
  | VMM_VCPU_STATE_RESET, VMM_VCPU_STATE_PAUSED => true
  | VMM_VCPU_STATE_RESET, VMM_VCPU_STATE_HALTED => true
  | VMM_VCPU_STATE_HALTED, VMM_VCPU_STATE_READY => true
  | VMM_VCPU_STATE_HALTED, VMM_VCPU_STATE_PAUSED => true
  | VMM_VCPU_STATE_HALTED, VMM_VCPU_STATE_HALTED => true
  | VMM_VCPU_STATE_PAUSED, VMM_VCPU_STATE_HALTED => true
  | _, _ => false

/-- The state `s1` differs from `s`, on each VCPU, at most as a scheduler switch allows: the
resume count is kept, and the state is kept or becomes READY or RUNNING. -/
def switched_only (s s1 : System) : Prop :=
  ∀ w, (s1.vcpus w).resume_count = (s.vcpus w).resume_count
    ∧ ((s1.vcpus w).state = (s.vcpus w).state ∨ (s1.vcpus w).state = VMM_VCPU_STATE_READY
      ∨ (s1.vcpus w).state = VMM_VCPU_STATE_RUNNING)

/-- The event is not a destroy request (a state change to UNKNOWN) for the VCPU `v`. -/
def no_destroy (v : Nat) : Event → Bool
  | Event.state_change _ w n _ => !(decide (w = v) && decide (n = VMM_VCPU_STATE_UNKNOWN))
  | _ => true

/-- The events of a sequence of pause (`true`) and resume (`false`) requests for the VCPU
`vcpu`, each given with the host CPU it is called on and its collaborator results. -/
def pause_resume_requests (vcpu : Nat) (rs : List (Bool × Nat × Ext)) : List Event :=
  rs.map fun r =>
    Event.state_change r.2.1 vcpu
      (if r.1 then VMM_VCPU_STATE_PAUSED else VMM_VCPU_STATE_READY) r.2.2

/-- The request may raise a preemption: a PAUSED request (`pause = true`) sets `preempt` only
when `vcpu` is the current VCPU of its host CPU, a READY request only when it is not. -/
def request_may_preempt (s : System) (vcpu : Nat) (pause : Bool) : Bool :=
  if pause then decide ((s.sched (s.vcpus vcpu).hcpu).current_vcpu = some vcpu)
  else decide ((s.sched (s.vcpus vcpu).hcpu).current_vcpu ≠ some vcpu)

/-- Some pause request (`true`) of the sequence takes effect on a VCPU whose resume count is
`k` before the sequence: it finds the count at zero or below, each earlier pause being
balanced by an earlier resume request (`false`). -/
def pause_takes_effect : Int → List Bool → Bool
  | _, [] => false
  | k, true :: ps => decide (k ≤ 0) || pause_takes_effect (k - 1) ps
  | k, false :: ps => pause_takes_effect (k + 1) ps

/-- The state in which a VCPU that is in state `st` with resume count 0 is left by a sequence
of as many pause (`true`) as resume (`false`) requests: a RUNNING VCPU stays RUNNING when no
pause takes effect and ends READY otherwise, a PAUSED one ends READY once a request was made,
and every other state is kept. -/
def pairing_final_state (st : vmm_vcpu_state) (ps : List Bool) : vmm_vcpu_state :=
  match st with
  | VMM_VCPU_STATE_RUNNING =>
    if pause_takes_effect 0 ps then VMM_VCPU_STATE_READY else VMM_VCPU_STATE_RUNNING
  | VMM_VCPU_STATE_PAUSED => if ps.isEmpty then VMM_VCPU_STATE_PAUSED else VMM_VCPU_STATE_READY
  | st => st

/-- The call `vmm_scheduler_state_change(vcpu, new_state)` made on host CPU `chcpu` ends in
`arch_vcpu_preempt_orphan()`: its locked part sets `preempt`, the call is local, and the
current VCPU of the host CPU is an orphan outside IRQ context.  The caller is then switched
out and the call returns only when the caller is dispatched again. -/
def state_change_yields (cfg : Config) (s : System) (chcpu vcpu : Nat)
    (new_state : vmm_vcpu_state) (ext : Ext) : Bool :=
  let r := state_change_locked cfg s vcpu new_state ext
  let vhcpu := (s.vcpus vcpu).hcpu
  r.preempt &&
    match (r.s.sched vhcpu).current_vcpu with
    | none => false
    | some current =>
      decide (chcpu = vhcpu) && !(r.s.vcpus current).is_normal
        && !(r.s.sched vhcpu).irq_context

/-! ### Concrete inputs -/

/-- A guest VCPU of priority 5 owned by host CPU 0, in state `st` with resume count `rc`. -/
def ex_vcpu (st : vmm_vcpu_state) (rc : Int) : vmm_vcpu :=
  ⟨true, 5, 100000000, 0, [0], st, 0, 0, 0, 0, 0, 0, 0, 0, rc⟩

/-- An orphan VCPU of priority 0 owned by host CPU 0, in state `st`. -/
def ex_orphan (st : vmm_vcpu_state) : vmm_vcpu :=
  ⟨false, 0, 1000000000, 0, [0], st, 0, 0, 0, 0, 0, 0, 0, 0, 0⟩

/-- A ready queue holding `band` at priority 5 and the idle orphan, VCPU 0, at priority 0. -/
def ex_rq (band : List Nat) : Rq := fun p => if p = 5 then band else if p = 0 then [0] else []

/-- The control block of a host CPU with ready queue `rq` and current VCPU `cur`, outside IRQ
context, with no IRQ time accumulated. -/
def ex_ctrl (rq : Rq) (cur : Option Nat) : vmm_scheduler_ctrl :=
  ⟨rq, 0, cur, some 0, false, none, 0, 0, false⟩

/-- The system `s` with every host CPU handling an IRQ, its saved registers at address 0. -/
def ex_in_irq (s : System) : System :=
  { s with sched := fun c => { s.sched c with irq_context := true, irq_regs := some 0 } }

/-- A two-CPU system in which VCPU 1 is `a`, VCPU 0 is the READY idle orphan of host CPU 0 and
every other VCPU is UNKNOWN; host CPU 0 has the ready queue `rq` and the current VCPU `cur`,
outside IRQ context; the other host CPUs have an empty ready queue and no current VCPU. -/
def ex_system (a : vmm_vcpu) (rq : Rq) (cur : Option Nat) : System :=
  { vcpus := fun i =>
      if i = 1 then a
      else if i = 0 then ex_orphan VMM_VCPU_STATE_READY
      else ex_orphan VMM_VCPU_STATE_UNKNOWN
    sched := fun c => if c = 0 then ex_ctrl rq cur else ex_ctrl (fun _ => []) none
    cpu_online := fun c => decide (c < 2)
    trace := [] }

/-- VCPU 1 is READY with resume count 0 on the ready queue of host CPU 0; no current VCPU. -/
def ex_ready : System := ex_system (ex_vcpu VMM_VCPU_STATE_READY 0) (ex_rq [1]) none

/-- VCPU 1 is RUNNING with resume count 0 and current on host CPU 0; the idle orphan waits on
the ready queue. -/
def ex_running : System := ex_system (ex_vcpu VMM_VCPU_STATE_RUNNING 0) (ex_rq []) (some 1)

/-- VCPU 1 is PAUSED with resume count -1, on no ready queue; no current VCPU. -/
def ex_paused : System := ex_system (ex_vcpu VMM_VCPU_STATE_PAUSED (-1)) (ex_rq []) none

/-- VCPU 1 is PAUSED with resume count 0, on no ready queue; no current VCPU. -/
def ex_paused_zero : System := ex_system (ex_vcpu VMM_VCPU_STATE_PAUSED 0) (ex_rq []) none

/-- VCPU 1 is HALTED, on no ready queue; no current VCPU. -/
def ex_halted : System := ex_system (ex_vcpu VMM_VCPU_STATE_HALTED 0) (ex_rq []) none

/-- VCPU 1 is RUNNING and current with `preempt_count = 2`, the idle orphan waits on the
ready queue, and the host CPUs are handling an IRQ. -/
def ex_tick_blocked : System :=
  ex_in_irq (ex_system { ex_vcpu VMM_VCPU_STATE_RUNNING 0 with preempt_count := 2 } (ex_rq [])
    (some 1))

/-- The system before any VCPU is set up: VCPU 1 is a guest VCPU, the others are orphans, all
UNKNOWN; every ready queue is empty and no host CPU has a current VCPU. -/
def ex_init : System :=
  { vcpus := fun i =>
      if i = 1 then ex_vcpu VMM_VCPU_STATE_UNKNOWN 0 else ex_orphan VMM_VCPU_STATE_UNKNOWN
    sched := fun _ => ⟨fun _ => [], 0, none, none, false, none, 0, 0, false⟩
    cpu_online := fun c => decide (c < 2)
    trace := [] }

/-- Two host CPUs, priorities 0 to 7, and `preempt_needed` read as plain "some band of
strictly greater priority than the current VCPU is non-empty". -/
def ex_config : Config :=
  { CONFIG_CPU_COUNT := 2
    VMM_VCPU_MAX_PRIORITY := 7
    vmm_schedalgo_rq_prempt_needed := fun rq cur =>
      match cur with
      | none => false
      | some c => (List.range 8).any (fun p => decide (c.priority < p) && !(rq p).isEmpty) }

/-- Collaborator results at time `t`: every hook succeeds. -/
def ex_ext (t : Nat) : Ext := ⟨t, t, VMM_OK, VMM_OK, VMM_OK, VMM_OK⟩

/-- Two pause requests followed by two resume requests, all made on host CPU 0. -/
def ex_requests : List (Bool × Nat × Ext) :=
  [(true, 0, ex_ext 10), (true, 0, ex_ext 20), (false, 0, ex_ext 30), (false, 0, ex_ext 40)]

/-- A fresh VCPU 1 is set up, kicked, resumed once more and reset again. -/
def ex_reset_events : List Event :=
  [Event.state_change 0 1 VMM_VCPU_STATE_RESET (ex_ext 10),
   Event.state_change 0 1 VMM_VCPU_STATE_READY (ex_ext 20),
   Event.state_change 0 1 VMM_VCPU_STATE_READY (ex_ext 30),
   Event.state_change 0 1 VMM_VCPU_STATE_RESET (ex_ext 40)]

/-- The state reached from `ex_init` by `ex_reset_events`. -/
def ex_reset_final : System := (run ex_config ex_init ex_reset_events).getD ex_init

/-- The guest VCPU 1 is set up and kicked, the tick on host CPU 0 makes it the current VCPU,
and, before the next scheduler switch, it is paused and resumed by two state changes made on
host CPU 0: it is then READY, current, and on the ready queue. -/
def ex_resumed_while_current : List Event :=
  [Event.state_change 0 1 VMM_VCPU_STATE_RESET (ex_ext 10),
   Event.state_change 0 1 VMM_VCPU_STATE_READY (ex_ext 20),
   Event.tick 0 30,
   Event.state_change 0 1 VMM_VCPU_STATE_PAUSED (ex_ext 40),
   Event.state_change 0 1 VMM_VCPU_STATE_READY (ex_ext 50)]

/-! ### Migration and the IRQ bracket -/

/-- `vmm_scheduler_set_hcpu(vcpu, hcpu)`.  The affinity test `vmm_cpumask_test_cpu` is
membership in `cpu_affinity`; the asynchronous IPI carrying `(vcpu, hcpu)` to the old host CPU
is recorded in the trace. -/
def vmm_scheduler_set_hcpu (s : System) (vcpu : Option Nat) (hcpu : Nat) : Rc × System :=
  match vcpu with
  | none => (VMM_EFAIL, s)
  | some vcpu =>
    let v := s.vcpus vcpu
    let old_hcpu := v.hcpu
    if old_hcpu = hcpu then (VMM_OK, s)
    else if hcpu ∉ v.cpu_affinity then (VMM_EINVALID, s)
    else if v.state = VMM_VCPU_STATE_READY ∨ v.state = VMM_VCPU_STATE_RUNNING then
      (VMM_OK, emit s (Call.ipi_migrate_vcpu old_hcpu vcpu hcpu))
    else (VMM_OK, set_vcpu s vcpu { v with hcpu := hcpu })

/-- `scheduler_ipi_migrate_vcpu(vcpu, new_hcpu)`, the migration IPI handler, run on the host
CPU `old_hcpu`.  The return codes of the two queue operations and of the forced reschedule
are ignored, as in the source. -/
def scheduler_ipi_migrate_vcpu (cfg : Config) (s : System) (old_hcpu : Nat) (vcpu : Nat)
    (new_hcpu : Nat) : System :=
  let v := s.vcpus vcpu
  if v.state ≠ VMM_VCPU_STATE_READY ∨ v.hcpu ≠ old_hcpu ∨ v.hcpu = new_hcpu then s
  else
    let s1 := (rq_detach s old_hcpu vcpu).2
    let s2 := set_vcpu s1 vcpu { s1.vcpus vcpu with hcpu := new_hcpu }
    let s3 := (rq_enqueue s2 new_hcpu vcpu).2
    (vmm_scheduler_force_resched cfg s3 new_hcpu).2

/-- `vmm_scheduler_irq_enter(regs, vcpu_context)` on host CPU `cpu` at time `tstamp`. -/
def vmm_scheduler_irq_enter (s : System) (cpu : Nat) (regs : Option Nat) (vcpu_context : Bool)
    (tstamp : Nat) : System :=
  let sp := s.sched cpu
  let sp1 : vmm_scheduler_ctrl :=
    if vcpu_context then { sp with irq_context := false }
    else { sp with irq_context := true, irq_enter_tstamp := tstamp }
  set_sched s cpu { sp1 with irq_regs := regs, yield_on_irq_exit := false }

/-- The context switch of `vmm_scheduler_irq_exit`, made when the current VCPU `vcpu` is not
RUNNING or a yield was requested; it also clears the yield flag. -/
def irq_exit_switch (cfg : Config) (s : System) (cpu vcpu : Nat) (tstamp_next : Nat) :
    Option System :=
  if (s.vcpus vcpu).state ≠ VMM_VCPU_STATE_RUNNING ∨ (s.sched cpu).yield_on_irq_exit = true then
    match vmm_scheduler_next cfg s cpu (s.sched cpu).irq_regs tstamp_next with
    | none => none
    | some s1 => some (set_sched s1 cpu { s1.sched cpu with yield_on_irq_exit := false })
  else some s

/-- The end of `vmm_scheduler_irq_exit`: hand `regs` to the VCPU IRQ processing of `vcpu`,
account the time of a hardware trap and leave IRQ context. -/
def irq_exit_close (s : System) (cpu vcpu : Nat) (regs : Option Nat) (tstamp : Nat) : System :=
  let s1 := emit s (Call.vmm_vcpu_irq_process vcpu regs)
  let sp := s1.sched cpu
  let sp1 : vmm_scheduler_ctrl :=
    if sp.irq_context then
      { sp with irq_process_ns := u64_add sp.irq_process_ns (u64_sub tstamp sp.irq_enter_tstamp) }
    else sp
  set_sched s1 cpu { sp1 with irq_context := false, irq_regs := none }

/-- `vmm_scheduler_irq_exit(regs)` on host CPU `cpu`; `tstamp_next` is the time read by the
context switch it may make, `tstamp` the time read when it leaves; `none` is a panic of that
switch. -/
def vmm_scheduler_irq_exit (cfg : Config) (s : System) (cpu : Nat) (regs : Option Nat)
    (tstamp_next tstamp : Nat) : Option System :=
  match (s.sched cpu).current_vcpu with
  | none => some s
  | some vcpu =>
    match irq_exit_switch cfg s cpu vcpu tstamp_next with
    | none => none
    | some s1 => some (irq_exit_close s1 cpu vcpu regs tstamp)

/-- VCPU 1 is RUNNING and current on host CPU 0 with preemption enabled, the idle orphan is
the only VCPU on the ready queue, and the host CPUs are handling an IRQ. -/
def ex_slice_expired : System := ex_in_irq ex_running

/-- The state `s1` has, on every host CPU, the IRQ-context flag, the IRQ entry time stamp and
the accumulated IRQ time of `s`. -/
def same_irq_clock (s s1 : System) : Prop :=
  ∀ c, (s1.sched c).irq_context = (s.sched c).irq_context
    ∧ (s1.sched c).irq_enter_tstamp = (s.sched c).irq_enter_tstamp
    ∧ (s1.sched c).irq_process_ns = (s.sched c).irq_process_ns

/-- VCPU 1 is READY on the ready queue of host CPU 0 and may run on host CPUs 0 and 1. -/
def ex_migratable : System :=
  ex_system { ex_vcpu VMM_VCPU_STATE_READY 0 with cpu_affinity := [0, 1] } (ex_rq [1]) none

/-- VCPU 1 is RUNNING and current on host CPU 0, which is handling a hardware trap entered at
time 40 with 7 ns of IRQ time accumulated before. -/
def ex_in_trap : System :=
  { ex_running with
    sched := fun c =>
      { ex_running.sched c with
        irq_context := true, irq_regs := some 0, irq_enter_tstamp := 40, irq_process_ns := 7 } }

/-! ### Host IRQ layer: `core/vmm_host_irq.c` and the lookup of `core/vmm_host_extended_irq.c`

IRQ objects live in a heap indexed by IRQ number (a native IRQ `n` is `hirqctrl.irq[n]`, an
extended child is stored under the number it was initialised with).  A call of a chip
operation is recorded in `chip_trace`; the call of a null function pointer, the use of a
pointer read from a table slot that was never written or from beyond the table, and a write
beyond the table have no result (`none`). -/

/-- Subtraction of two `u32` values, wrapping around below zero. -/
def u32_sub (a b : Nat) : Nat := (a + (2 ^ 32 - b % 2 ^ 32)) % 2 ^ 32

/-- The `u32` operation `x & ~m`. -/
def u32_clear (x m : Nat) : Nat := x &&& (0xFFFFFFFF ^^^ m)

/-- Compile-time constants of the host IRQ layer.  The values of the type and state masks are
declared in `vmm_host_irq.h`, which is absent, and are taken as parameters. -/
structure IrqConfig where
  CONFIG_HOST_IRQ_COUNT : Nat
  CONFIG_CPU_COUNT : Nat
  CONFIG_EXTENDED_IRQ_NB : Nat
  CONFIG_EXTENDED_IRQ_GROUP_NB : Nat
  VMM_IRQ_TYPE_NONE : Nat
  VMM_IRQ_TYPE_LEVEL_MASK : Nat
  VMM_IRQ_TYPE_SENSE_MASK : Nat
  VMM_IRQ_STATE_TRIGGER_MASK : Nat
  VMM_IRQ_STATE_PER_CPU : Nat
  VMM_IRQ_STATE_AFFINITY_SET : Nat
  VMM_IRQ_STATE_LEVEL : Nat
  VMM_IRQ_STATE_GUEST_ROUTED : Nat
  VMM_IRQ_STATE_DISABLED : Nat
  VMM_IRQ_STATE_MASKED : Nat
  VMM_IRQ_STATE_INPROGRESS : Nat

/-- The operations of `struct vmm_host_irq_chip`: for each one whether the function pointer
is set, and for the two operations that return a code the code they return (for `irq_set_type`
as a function of the requested type). -/
structure vmm_host_irq_chip where
  irq_enable : Bool
  irq_disable : Bool
  irq_ack : Bool
  irq_mask : Bool
  irq_unmask : Bool
  irq_mask_ack : Bool
  irq_eoi : Bool
  irq_raise : Bool
  irq_set_type : Option (Nat → Rc)
  irq_set_affinity : Option Rc

/-- A call of a chip operation on the IRQ object `num`. -/
inductive ChipCall
  | irq_enable (num : Nat)
  | irq_disable (num : Nat)
  | irq_ack (num : Nat)
  | irq_mask (num : Nat)
  | irq_unmask (num : Nat)
  | irq_mask_ack (num : Nat)
  | irq_eoi (num : Nat)
  | irq_raise (num : Nat)
  | irq_set_type (num : Nat) (type : Nat)
  | irq_set_affinity (num : Nat)
  deriving DecidableEq, Repr

/-- An entry of an action list: `struct vmm_host_irq_action`, with the handler function and
the device cookie as pointers. -/
structure vmm_host_irq_action where
  func : Nat
  dev : Nat
  deriving DecidableEq, Repr

/-- The fields of `struct vmm_host_irq`; `count` and `action_list` are indexed by host CPU. -/
structure vmm_host_irq where
  num : Nat
  name : Option String
  state : Nat
  count : Nat → Nat
  chip : Option vmm_host_irq_chip
  chip_data : Option Nat
  handler : Option Nat
  handler_data : Option Nat
  action_list : Nat → List vmm_host_irq_action

/-- The fields of `struct vmm_host_extirqs`, one group of extended IRQs. -/
structure vmm_host_extirqs where
  base : Nat
  count : Nat
  hwirq : Nat
  dev : Nat

/-- The fields of `struct vmm_host_extirqs_ctrl`.  The table `irqs`, which
`vmm_host_extirq_init` allocates, has `CONFIG_EXTENDED_IRQ_NB` slots: for
`i < CONFIG_EXTENDED_IRQ_NB`, `irqs i` is the content of slot `i`, the IRQ number of the child
published there or `none` while the slot has never been written.  A larger index is no slot
of the table; the table is read and written through `extirq_table_load` and
`extirq_table_store` only, which keep to its slots. -/
structure vmm_host_extirqs_ctrl where
  count : Nat
  base : Nat
  irqs : Nat → Option Nat
  groups : Nat → vmm_host_extirqs

/-- The state of the host IRQ layer: the IRQ objects by number, the extended-IRQ control
block and the trace of chip operations. -/
structure HostIrqs where
  irq : Nat → vmm_host_irq
  extirqctrl : vmm_host_extirqs_ctrl
  chip_trace : List ChipCall

/-- The result of an IRQ lookup: the null pointer, a pointer to the IRQ object of the given
number, or what a read gives that finds no pointer stored: the content of a table slot that was
never written, or of the memory beyond the last slot of the table. -/
inductive irq_ptr
  | null
  | obj (num : Nat)
  | wild
  deriving DecidableEq, Repr

/-- The read `extirqctrl.irqs[k]`: the pointer stored in slot `k` of the table of
`CONFIG_EXTENDED_IRQ_NB` slots; for a slot that was never written, and for an index beyond the
last slot, the read finds no stored pointer. -/
def extirq_table_load (cfg : IrqConfig) (x : vmm_host_extirqs_ctrl) (k : Nat) : irq_ptr :=
  if k < cfg.CONFIG_EXTENDED_IRQ_NB then
    match x.irqs k with
    | some n => irq_ptr.obj n
    | none => irq_ptr.wild
  else irq_ptr.wild

/-- The write `extirqctrl.irqs[k] = irq`, with `n` the number of the IRQ object `irq`, into the
table of `CONFIG_EXTENDED_IRQ_NB` slots.  A write beyond the last slot lands outside the
allocated memory and has no defined result (`none`). -/
def extirq_table_store (cfg : IrqConfig) (x : vmm_host_extirqs_ctrl) (k n : Nat) :
    Option vmm_host_extirqs_ctrl :=
  if k < cfg.CONFIG_EXTENDED_IRQ_NB then
    some { x with irqs := Function.update x.irqs k (some n) }
  else none

/-- `vmm_host_extirq_get(eirq_num)`. -/
def vmm_host_extirq_get (cfg : IrqConfig) (x : vmm_host_extirqs_ctrl) (eirq_num : Nat) :
    irq_ptr :=
  let irq_num := u32_sub eirq_num cfg.CONFIG_HOST_IRQ_COUNT
  if irq_num > x.base then irq_ptr.null
  else extirq_table_load cfg x irq_num

/-- `vmm_host_irq_get(hirq_num)`. -/
def vmm_host_irq_get (cfg : IrqConfig) (h : HostIrqs) (hirq_num : Nat) : irq_ptr :=
  if hirq_num < cfg.CONFIG_HOST_IRQ_COUNT then irq_ptr.obj hirq_num
  else vmm_host_extirq_get cfg h.extirqctrl hirq_num

/-- Store `x` as the IRQ object of number `n`. -/
def set_irq (h : HostIrqs) (n : Nat) (x : vmm_host_irq) : HostIrqs :=
  { h with irq := Function.update h.irq n x }

/-- Record the call of a chip operation. -/
def chip_emit (h : HostIrqs) (c : ChipCall) : HostIrqs :=
  { h with chip_trace := h.chip_trace ++ [c] }

/-- Call the chip operation `c` through a function pointer that is set iff `present`. -/
def chip_call (h : HostIrqs) (present : Bool) (c : ChipCall) : Option HostIrqs :=
  if present then some (chip_emit h c) else none

/-- The common prologue `if (NULL == (irq = vmm_host_irq_get(hirq_num))) return notfound;`
followed by the body `f` run on the IRQ object found. -/
def with_irq (cfg : IrqConfig) (h : HostIrqs) (hirq_num : Nat) (notfound : Rc)
    (f : Nat → Option (Rc × HostIrqs)) : Option (Rc × HostIrqs) :=
  match vmm_host_irq_get cfg h hirq_num with
  | irq_ptr.null => some (notfound, h)
  | irq_ptr.wild => none
  | irq_ptr.obj n => f n

/-- `vmm_host_irq_set_chip`. -/
def vmm_host_irq_set_chip (cfg : IrqConfig) (h : HostIrqs) (hirq_num : Nat)
    (chip : Option vmm_host_irq_chip) : Option (Rc × HostIrqs) :=
  with_irq cfg h hirq_num VMM_EFAIL fun n =>
    some (VMM_OK, set_irq h n { h.irq n with chip := chip })

/-- `vmm_host_irq_set_chip_data`. -/
def vmm_host_irq_set_chip_data (cfg : IrqConfig) (h : HostIrqs) (hirq_num : Nat)
    (chip_data : Option Nat) : Option (Rc × HostIrqs) :=
  with_irq cfg h hirq_num VMM_EFAIL fun n =>
    some (VMM_OK, set_irq h n { h.irq n with chip_data := chip_data })

/-- `vmm_host_irq_set_handler`. -/
def vmm_host_irq_set_handler (cfg : IrqConfig) (h : HostIrqs) (hirq_num : Nat)
    (handler : Option Nat) : Option (Rc × HostIrqs) :=
  with_irq cfg h hirq_num VMM_EFAIL fun n =>
    some (VMM_OK, set_irq h n { h.irq n with handler := handler })

/-- `vmm_host_irq_set_handler_data`. -/
def vmm_host_irq_set_handler_data (cfg : IrqConfig) (h : HostIrqs) (hirq_num : Nat)
    (data : Option Nat) : Option (Rc × HostIrqs) :=
  with_irq cfg h hirq_num VMM_EFAIL fun n =>
    some (VMM_OK, set_irq h n { h.irq n with handler_data := data })

/-- `vmm_host_irq_set_affinity`. -/
def vmm_host_irq_set_affinity (cfg : IrqConfig) (h : HostIrqs) (hirq_num : Nat) :
    Option (Rc × HostIrqs) :=
  with_irq cfg h hirq_num VMM_ENOTAVAIL fun n =>
    let irq := h.irq n
    match irq.chip with
    | none => some (VMM_EFAIL, h)
    | some chip =>
      match chip.irq_set_affinity with
      | none => some (VMM_EFAIL, h)
      | some rc =>
        let h1 := set_irq h n { irq with state := irq.state ||| cfg.VMM_IRQ_STATE_AFFINITY_SET }
        some (rc, chip_emit h1 (ChipCall.irq_set_affinity n))

/-- `vmm_host_irq_set_type`. -/
def vmm_host_irq_set_type (cfg : IrqConfig) (h : HostIrqs) (hirq_num : Nat) (type : Nat) :
    Option (Rc × HostIrqs) :=
  with_irq cfg h hirq_num VMM_ENOTAVAIL fun n =>
    let irq := h.irq n
    let type := type &&& cfg.VMM_IRQ_TYPE_SENSE_MASK
    if type = cfg.VMM_IRQ_TYPE_NONE then some (VMM_OK, h)
    else
      match irq.chip.bind (fun chip => chip.irq_set_type) with
      | none => some (VMM_OK, h)
      | some set_type =>
        let rc := set_type type
        let h1 := chip_emit h (ChipCall.irq_set_type n type)
        if rc = VMM_OK then
          let st1 := u32_clear irq.state cfg.VMM_IRQ_STATE_TRIGGER_MASK ||| type
          let st2 :=
            if type &&& cfg.VMM_IRQ_TYPE_LEVEL_MASK ≠ 0 then st1 ||| cfg.VMM_IRQ_STATE_LEVEL
            else u32_clear st1 cfg.VMM_IRQ_STATE_LEVEL
          some (rc, set_irq h1 n { irq with state := st2 })
        else some (rc, h1)

/-- `vmm_host_irq_mark_per_cpu`. -/
def vmm_host_irq_mark_per_cpu (cfg : IrqConfig) (h : HostIrqs) (hirq_num : Nat) :
    Option (Rc × HostIrqs) :=
  with_irq cfg h hirq_num VMM_ENOTAVAIL fun n =>
    some (VMM_OK,
      set_irq h n { h.irq n with state := (h.irq n).state ||| cfg.VMM_IRQ_STATE_PER_CPU })

/-- `vmm_host_irq_unmark_per_cpu`. -/
def vmm_host_irq_unmark_per_cpu (cfg : IrqConfig) (h : HostIrqs) (hirq_num : Nat) :
    Option (Rc × HostIrqs) :=
  with_irq cfg h hirq_num VMM_ENOTAVAIL fun n =>
    some (VMM_OK,
      set_irq h n { h.irq n with state := u32_clear (h.irq n).state cfg.VMM_IRQ_STATE_PER_CPU })

/-- `vmm_host_irq_mark_guest_routed`. -/
def vmm_host_irq_mark_guest_routed (cfg : IrqConfig) (h : HostIrqs) (hirq_num : Nat) :
    Option (Rc × HostIrqs) :=
  with_irq cfg h hirq_num VMM_ENOTAVAIL fun n =>
    some (VMM_OK,
      set_irq h n { h.irq n with state := (h.irq n).state ||| cfg.VMM_IRQ_STATE_GUEST_ROUTED })

/-- `vmm_host_irq_unmark_guest_routed`. -/
def vmm_host_irq_unmark_guest_routed (cfg : IrqConfig) (h : HostIrqs) (hirq_num : Nat) :
    Option (Rc × HostIrqs) :=
  with_irq cfg h hirq_num VMM_ENOTAVAIL fun n =>
    some (VMM_OK,
      set_irq h n
        { h.irq n with state := u32_clear (h.irq n).state cfg.VMM_IRQ_STATE_GUEST_ROUTED })

/-- `vmm_host_irq_enable`. -/
def vmm_host_irq_enable (cfg : IrqConfig) (h : HostIrqs) (hirq_num : Nat) :
    Option (Rc × HostIrqs) :=
  with_irq cfg h hirq_num VMM_ENOTAVAIL fun n =>
    let irq := h.irq n
    let h1 := set_irq h n { irq with state := u32_clear irq.state cfg.VMM_IRQ_STATE_DISABLED }
    match irq.chip with
    | some chip =>
      let r :=
        if chip.irq_enable then chip_call h1 true (ChipCall.irq_enable n)
        else chip_call h1 chip.irq_unmask (ChipCall.irq_unmask n)
      r.map fun h2 => (VMM_OK, h2)
    | none => some (VMM_ENOTAVAIL, h1)

/-- `vmm_host_irq_disable`. -/
def vmm_host_irq_disable (cfg : IrqConfig) (h : HostIrqs) (hirq_num : Nat) :
    Option (Rc × HostIrqs) :=
  with_irq cfg h hirq_num VMM_ENOTAVAIL fun n =>
    let irq := h.irq n
    let h1 := set_irq h n { irq with state := irq.state ||| cfg.VMM_IRQ_STATE_DISABLED }
    let r : Option HostIrqs :=
      match irq.chip with
      | some chip =>
        if chip.irq_disable then chip_call h1 true (ChipCall.irq_disable n)
        else chip_call h1 chip.irq_mask (ChipCall.irq_mask n)
      | none => some h1
    r.map fun h2 =>
      (VMM_OK,
        set_irq h2 n { h2.irq n with state := (h2.irq n).state ||| cfg.VMM_IRQ_STATE_MASKED })

/-- `vmm_host_irq_unmask`.  The operation probed is `irq_unmask`, the operation called is
`irq_mask`, as in the source. -/
def vmm_host_irq_unmask (cfg : IrqConfig) (h : HostIrqs) (hirq_num : Nat) :
    Option (Rc × HostIrqs) :=
  with_irq cfg h hirq_num VMM_ENOTAVAIL fun n =>
    let irq := h.irq n
    match irq.chip with
    | some chip =>
      if chip.irq_unmask then
        (chip_call h chip.irq_mask (ChipCall.irq_mask n)).map fun h1 =>
          (VMM_OK,
            set_irq h1 n
              { h1.irq n with state := u32_clear (h1.irq n).state cfg.VMM_IRQ_STATE_MASKED })
      else some (VMM_OK, h)
    | none => some (VMM_OK, h)

/-- `vmm_host_irq_mask`. -/
def vmm_host_irq_mask (cfg : IrqConfig) (h : HostIrqs) (hirq_num : Nat) :
    Option (Rc × HostIrqs) :=
  with_irq cfg h hirq_num VMM_ENOTAVAIL fun n =>
    let irq := h.irq n
    match irq.chip with
    | some chip =>
      if chip.irq_mask then
        (chip_call h true (ChipCall.irq_mask n)).map fun h1 =>
          (VMM_OK,
            set_irq h1 n { h1.irq n with state := (h1.irq n).state ||| cfg.VMM_IRQ_STATE_MASKED })
      else some (VMM_OK, h)
    | none => some (VMM_OK, h)

/-- `vmm_host_irq_raise`. -/
def vmm_host_irq_raise (cfg : IrqConfig) (h : HostIrqs) (hirq_num : Nat) :
    Option (Rc × HostIrqs) :=
  with_irq cfg h hirq_num VMM_ENOTAVAIL fun n =>
    match (h.irq n).chip with
    | some chip =>
      if chip.irq_raise then some (VMM_OK, chip_emit h (ChipCall.irq_raise n))
      else some (VMM_OK, h)
    | none => some (VMM_OK, h)

/-- Modelled from the spec: `vmm_host_irq_is_per_cpu(irq)` (declared in the absent
`vmm_host_irq.h`) tests the `PER_CPU` flag of the state bitset of section 3, as
`vmm_host_generic_irq_exec` does in place with `irq->state & VMM_IRQ_STATE_PER_CPU`. -/
def vmm_host_irq_is_per_cpu (cfg : IrqConfig) (irq : vmm_host_irq) : Bool :=
  irq.state &&& cfg.VMM_IRQ_STATE_PER_CPU != 0

/-- `host_irq_register(irq, name, func, dev, cpu)` on the IRQ object `n`; `alloc_ok` tells
whether `vmm_zalloc` returns memory. -/
def host_irq_register (h : HostIrqs) (n : Nat) (name : Option String) (func dev cpu : Nat)
    (alloc_ok : Bool) : Rc × HostIrqs :=
  let irq := h.irq n
  if (irq.action_list cpu).any (fun act => act.dev == dev) then (VMM_EFAIL, h)
  else
    let irq1 := { irq with name := name }
    if alloc_ok then
      (VMM_OK,
        set_irq h n
          { irq1 with
            action_list :=
              Function.update irq1.action_list cpu (irq1.action_list cpu ++ [⟨func, dev⟩]) })
    else (VMM_ENOMEM, set_irq h n irq1)

/-- The loop `for (cpu = 0; cpu < CONFIG_CPU_COUNT; cpu++)` of `vmm_host_irq_register`, run
over the CPUs still to visit; it returns at the first call that fails. -/
def host_irq_register_cpus (n : Nat) (name : Option String) (func dev : Nat)
    (alloc : Nat → Bool) : List Nat → HostIrqs → Rc × HostIrqs
  | [], h => (VMM_OK, h)
  | cpu :: cpus, h =>
    let r := host_irq_register h n name func dev cpu (alloc cpu)
    if r.1 ≠ VMM_OK then r else host_irq_register_cpus n name func dev alloc cpus r.2

/-- `vmm_host_irq_register(hirq_num, name, func, dev)` called on host CPU `cur_cpu`
(`vmm_smp_processor_id()`); `alloc cpu` tells whether the allocation made for `cpu`
succeeds. -/
def vmm_host_irq_register (cfg : IrqConfig) (h : HostIrqs) (hirq_num : Nat)
    (name : Option String) (func dev cur_cpu : Nat) (alloc : Nat → Bool) :
    Option (Rc × HostIrqs) :=
  with_irq cfg h hirq_num VMM_ENOTAVAIL fun n =>
    let r :=
      if vmm_host_irq_is_per_cpu cfg (h.irq n) then
        host_irq_register h n name func dev cur_cpu (alloc cur_cpu)
      else
        host_irq_register_cpus n name func dev alloc (List.range cfg.CONFIG_CPU_COUNT) h
    if r.1 ≠ VMM_OK then some r else vmm_host_irq_enable cfg r.2 hirq_num

/-- `host_irq_unregister(irq, dev, cpu, &disable)` on the IRQ object `n`; the third component
of the result is the value of `disable` afterwards. -/
def host_irq_unregister (h : HostIrqs) (n dev cpu : Nat) (disable : Bool) :
    Rc × HostIrqs × Bool :=
  let irq := h.irq n
  if (irq.action_list cpu).any (fun act => act.dev == dev) then
    let l := (irq.action_list cpu).eraseP (fun act => act.dev == dev)
    (VMM_OK, set_irq h n { irq with action_list := Function.update irq.action_list cpu l },
      if l.isEmpty then true else disable)
  else (VMM_EFAIL, h, disable)

/-- The loop `for (cpu = 0; cpu < CONFIG_CPU_COUNT; cpu++)` of `vmm_host_irq_unregister`, run
over the CPUs still to visit; it returns at the first call that fails. -/
def host_irq_unregister_cpus (n dev : Nat) : List Nat → HostIrqs → Bool → Rc × HostIrqs × Bool
  | [], h, disable => (VMM_OK, h, disable)
  | cpu :: cpus, h, disable =>
    let r := host_irq_unregister h n dev cpu disable
    if r.1 ≠ VMM_OK then r else host_irq_unregister_cpus n dev cpus r.2.1 r.2.2

/-- `vmm_host_irq_unregister(hirq_num, dev)` called on host CPU `cur_cpu`. -/
def vmm_host_irq_unregister (cfg : IrqConfig) (h : HostIrqs) (hirq_num : Nat)
    (dev cur_cpu : Nat) : Option (Rc × HostIrqs) :=
  with_irq cfg h hirq_num VMM_ENOTAVAIL fun n =>
    let r :=
      if vmm_host_irq_is_per_cpu cfg (h.irq n) then host_irq_unregister h n dev cur_cpu false
      else host_irq_unregister_cpus n dev (List.range cfg.CONFIG_CPU_COUNT) h false
    if r.1 ≠ VMM_OK then some (r.1, r.2.1)
    else if r.2.2 then vmm_host_irq_disable cfg r.2.1 hirq_num
    else some (VMM_OK, r.2.1)

/-- `host_irq_init_irq(irq, num)`: the freshly initialised IRQ object of number `num`. -/
def host_irq_init_irq (cfg : IrqConfig) (num : Nat) : vmm_host_irq :=
  { num := num
    name := none
    state := cfg.VMM_IRQ_TYPE_NONE ||| cfg.VMM_IRQ_STATE_DISABLED ||| cfg.VMM_IRQ_STATE_MASKED
    count := fun _ => 0
    chip := none
    chip_data := none
    handler := none
    handler_data := none
    action_list := fun _ => [] }

/-- A call of the registration interface, made on host CPU `cpu`. -/
inductive IrqEvent
  | register (hirq_num : Nat) (name : Option String) (func dev cpu : Nat) (alloc : Nat → Bool)
  | unregister (hirq_num dev cpu : Nat)
  | mark_per_cpu (hirq_num : Nat)
  | unmark_per_cpu (hirq_num : Nat)

/-- The state after one call of the registration interface; the return code is dropped. -/
def irq_step (cfg : IrqConfig) (h : HostIrqs) : IrqEvent → Option HostIrqs
  | IrqEvent.register hirq_num name func dev cpu alloc =>
    (vmm_host_irq_register cfg h hirq_num name func dev cpu alloc).map Prod.snd
  | IrqEvent.unregister hirq_num dev cpu =>
    (vmm_host_irq_unregister cfg h hirq_num dev cpu).map Prod.snd
  | IrqEvent.mark_per_cpu hirq_num => (vmm_host_irq_mark_per_cpu cfg h hirq_num).map Prod.snd
  | IrqEvent.unmark_per_cpu hirq_num =>
    (vmm_host_irq_unmark_per_cpu cfg h hirq_num).map Prod.snd

/-- The state after a finite sequence of calls of the registration interface. -/
def irq_run (cfg : IrqConfig) (h : HostIrqs) : List IrqEvent → Option HostIrqs
  | [] => some h
  | ev :: evs =>
    match irq_step cfg h ev with
    | none => none
    | some h1 => irq_run cfg h1 evs

/-- No action list of `h` holds two actions with the same `dev`. -/
def one_action_per_dev (h : HostIrqs) : Prop :=
  ∀ n cpu, (((h.irq n).action_list cpu).map fun act => act.dev).Nodup

/-- Every IRQ object of `h` whose `PER_CPU` flag is clear has the same action list on all
`CONFIG_CPU_COUNT` host CPUs. -/
def replicated (cfg : IrqConfig) (h : HostIrqs) : Prop :=
  ∀ n, vmm_host_irq_is_per_cpu cfg (h.irq n) = false →
    ∀ cpu, cpu < cfg.CONFIG_CPU_COUNT → (h.irq n).action_list cpu = (h.irq n).action_list 0

/-- The sequence holds no `unmark_per_cpu` call and every allocation of its `register` calls
succeeds. -/
def no_unmark_no_alloc_failure : List IrqEvent → Prop
  | [] => True
  | IrqEvent.register _ _ _ _ _ alloc :: evs => (∀ cpu, alloc cpu = true) ∧ no_unmark_no_alloc_failure evs
  | IrqEvent.unmark_per_cpu _ :: _ => False
  | _ :: evs => no_unmark_no_alloc_failure evs

/-- Example constants: four native IRQs, two host CPUs, the sense bits in the low nibble of
the state and one bit for each flag. -/
def ex_irq_config : IrqConfig :=
  { CONFIG_HOST_IRQ_COUNT := 4
    CONFIG_CPU_COUNT := 2
    CONFIG_EXTENDED_IRQ_NB := 8
    CONFIG_EXTENDED_IRQ_GROUP_NB := 2
    VMM_IRQ_TYPE_NONE := 0x0
    VMM_IRQ_TYPE_LEVEL_MASK := 0xc
    VMM_IRQ_TYPE_SENSE_MASK := 0xf
    VMM_IRQ_STATE_TRIGGER_MASK := 0xf
    VMM_IRQ_STATE_PER_CPU := 0x800
    VMM_IRQ_STATE_AFFINITY_SET := 0x1000
    VMM_IRQ_STATE_LEVEL := 0x2000
    VMM_IRQ_STATE_GUEST_ROUTED := 0x4000
    VMM_IRQ_STATE_DISABLED := 0x10000
    VMM_IRQ_STATE_MASKED := 0x20000
    VMM_IRQ_STATE_INPROGRESS := 0x40000 }

/-- Example chip that provides every operation; `irq_set_type` accepts every type but the
value `3` and `irq_set_affinity` succeeds. -/
def ex_chip : vmm_host_irq_chip :=
  { irq_enable := true
    irq_disable := true
    irq_ack := true
    irq_mask := true
    irq_unmask := true
    irq_mask_ack := true
    irq_eoi := true
    irq_raise := true
    irq_set_type := some fun type => if type = 3 then VMM_EINVALID else VMM_OK
    irq_set_affinity := some VMM_OK }

/-- Example state: the native IRQs as `host_irq_init_irq` leaves them, each then given the
chip `ex_chip`; no extended IRQ published, `extirqctrl.base == CONFIG_HOST_IRQ_COUNT`. -/
def ex_host_irqs : HostIrqs :=
  { irq := fun n => { host_irq_init_irq ex_irq_config n with chip := some ex_chip }
    extirqctrl :=
      { count := 0, base := 4, irqs := fun _ => none, groups := fun _ => ⟨0, 0, 0, 0⟩ }
    chip_trace := [] }

/-- Example calls: a registration on the shared IRQ 1, a registration made on CPU 1 on IRQ 2
while it is marked `PER_CPU`, and a registration on the shared IRQ 3 that is removed again. -/
def ex_irq_events : List IrqEvent :=
  [IrqEvent.register 1 (some "uart") 7 9 0 (fun _ => true),
    IrqEvent.mark_per_cpu 2,
    IrqEvent.register 2 (some "timer") 3 5 1 (fun _ => true),
    IrqEvent.register 3 (some "eth") 11 13 0 (fun _ => true),
    IrqEvent.unregister 3 13 0]

/-- The state that `ex_irq_events` reaches from `ex_host_irqs`. -/
def ex_registered : HostIrqs :=
  (irq_run ex_irq_config ex_host_irqs ex_irq_events).getD ex_host_irqs

/-- Example calls: IRQ 1 is marked `PER_CPU`, registered on CPU 0 and unmarked again. -/
def ex_unmark_events : List IrqEvent :=
  [IrqEvent.mark_per_cpu 1,
    IrqEvent.register 1 (some "uart") 7 9 0 (fun _ => true),
    IrqEvent.unmark_per_cpu 1]

/-- The state that `ex_unmark_events` reaches from `ex_host_irqs`. -/
def ex_unmarked : HostIrqs :=
  (irq_run ex_irq_config ex_host_irqs ex_unmark_events).getD ex_host_irqs

/-- Example call: a registration on the shared IRQ 1 whose allocation succeeds for CPU 0 and
fails for CPU 1. -/
def ex_enomem_events : List IrqEvent :=
  [IrqEvent.register 1 (some "uart") 7 9 0 (fun cpu => cpu == 0)]

/-- The state that `ex_enomem_events` reaches from `ex_host_irqs`. -/
def ex_enomem : HostIrqs :=
  (irq_run ex_irq_config ex_host_irqs ex_enomem_events).getD ex_host_irqs

/-! ### Flow handlers -/

/-- Modelled from the spec: what an action returns, `HANDLED` or not (`vmm_irq_return_t` is
declared in the absent `vmm_host_irq.h`). -/
inductive vmm_irq_return_t
  | VMM_IRQ_NONE
  | VMM_IRQ_HANDLED
  deriving DecidableEq, Repr

open vmm_irq_return_t

/-- A call made by a flow handler: a chip operation on the IRQ object, or the function of an
action, called as `func(num, dev)`. -/
inductive FlowCall
  | chip (c : ChipCall)
  | action (func num dev : Nat)
  deriving DecidableEq, Repr

/-- The walk `list_for_each_entry(act, &irq->action_list[cpu], head)` of both flow handlers:
each action is called in list order and the walk stops after the first one that returns
`VMM_IRQ_HANDLED`; `ret func num dev` is what the call `func(num, dev)` returns. -/
def call_actions (ret : Nat → Nat → Nat → vmm_irq_return_t) (num : Nat) :
    List vmm_host_irq_action → List FlowCall
  | [] => []
  | act :: rest =>
    FlowCall.action act.func num act.dev ::
      (if ret act.func num act.dev = VMM_IRQ_HANDLED then [] else call_actions ret num rest)

/-- The guarded call `if (chip->op) chip->op(irq)`. -/
def chip_probe (present : Bool) (c : ChipCall) : List FlowCall :=
  if present then [FlowCall.chip c] else []

/-- `vmm_handle_fast_eoi(irq, cpu, data)`: the calls it makes, in order. -/
def vmm_handle_fast_eoi (irq : vmm_host_irq) (cpu : Nat)
    (ret : Nat → Nat → Nat → vmm_irq_return_t) : List FlowCall :=
  call_actions ret irq.num (irq.action_list cpu)
    ++ (match irq.chip with
        | some chip => chip_probe chip.irq_eoi (ChipCall.irq_eoi irq.num)
        | none => [])

/-- `vmm_handle_level_irq(irq, cpu, data)`: the calls it makes, in order. -/
def vmm_handle_level_irq (irq : vmm_host_irq) (cpu : Nat)
    (ret : Nat → Nat → Nat → vmm_irq_return_t) : List FlowCall :=
  (match irq.chip with
    | some chip =>
      if chip.irq_mask_ack then [FlowCall.chip (ChipCall.irq_mask_ack irq.num)]
      else
        chip_probe chip.irq_mask (ChipCall.irq_mask irq.num)
          ++ chip_probe chip.irq_ack (ChipCall.irq_ack irq.num)
    | none => [])
    ++ call_actions ret irq.num (irq.action_list cpu)
    ++ (match irq.chip with
        | some chip => chip_probe chip.irq_unmask (ChipCall.irq_unmask irq.num)
        | none => [])

/-- The number of actions a walk calls, in the words of the specification: the position (counted from
one) of the first action that returns `VMM_IRQ_HANDLED`, or the length of the list when none
does. -/
def walk_length (ret : Nat → Nat → Nat → vmm_irq_return_t) (num : Nat)
    (acts : List vmm_host_irq_action) : Nat :=
  min (acts.findIdx (fun act => decide (ret act.func num act.dev = VMM_IRQ_HANDLED)) + 1)
    acts.length

/-! ### Extended IRQs: `core/vmm_host_extended_irq.c` -/

/-- `vmm_host_extirq_get_irq(group, offset)`.  The function returns a `u32`; the value
`VMM_ENOTAVAIL` it returns for a refused offset is kept apart from an IRQ number. -/
def vmm_host_extirq_get_irq (group : vmm_host_extirqs) (offset : Nat) : Except Rc Nat :=
  if offset > group.count then Except.error VMM_ENOTAVAIL
  else Except.ok ((group.base + offset) % 2 ^ 32)

/-- `vmm_host_extirqs_get_offset(group, irq)`. -/
def vmm_host_extirqs_get_offset (group : vmm_host_extirqs) (irq : Nat) : Nat :=
  u32_sub irq group.base

/-- `vmm_host_extirq_init()`: the control block is zeroed, the allocator starts at
`CONFIG_HOST_IRQ_COUNT` and the table is allocated with no slot written. -/
def vmm_host_extirq_init (cfg : IrqConfig) (h : HostIrqs) : Rc × HostIrqs :=
  (VMM_OK,
    { h with
      extirqctrl :=
        { count := 0
          base := cfg.CONFIG_HOST_IRQ_COUNT
          irqs := fun _ => none
          groups := fun _ => ⟨0, 0, 0, 0⟩ } })

/-- The string `vmm_snprintf(name, len, "%s.%d", basename, d)` leaves in `name`: the text
`<basename>.<d>` cut to `len - 1` characters. -/
def extirq_name (len : Nat) (basename : String) (d : Nat) : String :=
  String.mk ((basename.data ++ '.' :: Nat.toDigits 10 d).take (len - 1))

/-- One iteration of the loop `for (i = 0; i < size; ++i)` of `vmm_host_extirq_map`, for the
child of index `i`.  The child is initialised with the current base as its number, given its
name, chip and chip data, published in the table slot `base - CONFIG_HOST_IRQ_COUNT`, and the
base is advanced.  The child object is kept in the heap under its number.  The source does
not compare the slot index with `CONFIG_EXTENDED_IRQ_NB`: when the write falls outside the
table the iteration has no defined result. -/
def extirq_map_child (cfg : IrqConfig) (basename : String) (len : Nat)
    (chip : Option vmm_host_irq_chip) (chip_data : Option Nat) (i : Nat) (h : HostIrqs) :
    Option HostIrqs :=
  let base := h.extirqctrl.base
  let irq : vmm_host_irq :=
    { host_irq_init_irq cfg base with
      name := some (extirq_name len basename (i + 1))
      chip := chip
      chip_data := chip_data }
  let h1 := set_irq h base irq
  (extirq_table_store cfg h1.extirqctrl (u32_sub base cfg.CONFIG_HOST_IRQ_COUNT) base).map
    fun x => { h1 with extirqctrl := { x with base := (base + 1) % 2 ^ 32 } }

/-- The loop `for (i = 0; i < size; ++i)` of `vmm_host_extirq_map`, with `k` children still to
make and `i` the index of the next one; `none` as soon as an iteration has no defined
result. -/
def extirq_map_children (cfg : IrqConfig) (basename : String) (len : Nat)
    (chip : Option vmm_host_irq_chip) (chip_data : Option Nat) :
    Nat → Nat → HostIrqs → Option HostIrqs
  | 0, _, h => some h
  | k + 1, i, h =>
    match extirq_map_child cfg basename len chip chip_data i h with
    | none => none
    | some h1 => extirq_map_children cfg basename len chip chip_data k (i + 1) h1

/-- The IRQ object behind a pointer that is dereferenced; `none` for the null pointer and for
a read that found no stored pointer. -/
def irq_deref (h : HostIrqs) : irq_ptr → Option vmm_host_irq
  | irq_ptr.obj n => some (h.irq n)
  | _ => none

/-- The part of `vmm_host_extirq_map` that runs once its checks have passed, with the chip
`c` and the chip data `cd` settled: the group slot `groups[count]` is filled, the children are
made and published, and the group count is advanced; `none` when a child is written outside
the table. -/
def extirq_map_commit (cfg : IrqConfig) (h : HostIrqs) (hwirq : Nat) (basename : String)
    (size : Nat) (c : vmm_host_irq_chip) (cd : Option Nat) (dev : Nat) : Option HostIrqs :=
  let h1 : HostIrqs :=
    { h with
      extirqctrl :=
        { h.extirqctrl with
          groups :=
            Function.update h.extirqctrl.groups h.extirqctrl.count
              ⟨h.extirqctrl.base, size, hwirq, dev⟩ } }
  (extirq_map_children cfg basename (basename.length + 5) (some c) cd size 0 h1).map
    fun h2 =>
      { h2 with extirqctrl := { h2.extirqctrl with count := (h2.extirqctrl.count + 1) % 2 ^ 32 } }

/-- `vmm_host_extirq_map(hwirq, basename, size, chip, chip_data, dev, &group)`.  The result
holds the return code, the new state and the index in `extirqctrl.groups` of the group stored
through `group`.  The parent is read only where the source reads it (for a null `chip` or a
null `chip_data`); `alloc_ok` tells whether `vmm_malloc` returns memory, which the source does
not test before writing to it.  There is no result (`none`) when a pointer that was never
stored is dereferenced, when memory that was not allocated is written, and when a child is
published outside the table of `CONFIG_EXTENDED_IRQ_NB` slots. -/
def vmm_host_extirq_map (cfg : IrqConfig) (h : HostIrqs) (hwirq : Nat) (basename : String)
    (size : Nat) (chip : Option vmm_host_irq_chip) (chip_data : Option Nat) (dev : Nat)
    (alloc_ok : Bool) : Option (Rc × HostIrqs × Option Nat) :=
  if size > 999 then some (VMM_ENOTAVAIL, h, none)
  else
    match vmm_host_irq_get cfg h hwirq with
    | irq_ptr.null => some (VMM_EFAIL, h, none)
    | parent =>
      match (match chip with
             | some c => some (some c)
             | none => (irq_deref h parent).map fun (irq : vmm_host_irq) => irq.chip) with
      | none => none
      | some none => some (VMM_EFAIL, h, none)
      | some (some c) =>
        match (match chip_data with
               | some d => some (some d)
               | none => (irq_deref h parent).map fun (irq : vmm_host_irq) => irq.chip_data) with
        | none => none
        | some cd =>
          if cfg.CONFIG_EXTENDED_IRQ_GROUP_NB ≤ h.extirqctrl.count then
            some (VMM_ENOTAVAIL, h, none)
          else if size ≠ 0 ∧ alloc_ok = false then none
          else
            (extirq_map_commit cfg h hwirq basename size c cd dev).map fun h1 =>
              (VMM_OK, h1, some h.extirqctrl.count)

/-- Example chip of scenario 5: `irq_mask`, `irq_unmask` and `irq_ack`, no `irq_mask_ack`. -/
def ex_level_chip : vmm_host_irq_chip :=
  { irq_enable := false
    irq_disable := false
    irq_ack := true
    irq_mask := true
    irq_unmask := true
    irq_mask_ack := false
    irq_eoi := false
    irq_raise := false
    irq_set_type := none
    irq_set_affinity := none }

/-- Example IRQ object: number 1 with the chip `ex_level_chip` and, on CPU 0, three actions
registered in the order `dev = 11, 12, 13`. -/
def ex_level_irq : vmm_host_irq :=
  { host_irq_init_irq ex_irq_config 1 with
    chip := some ex_level_chip
    action_list := fun cpu => if cpu = 0 then [⟨21, 11⟩, ⟨22, 12⟩, ⟨23, 13⟩] else [] }

/-- Example action results: only the action of `dev = 12` claims the interrupt. -/
def ex_ret : Nat → Nat → Nat → vmm_irq_return_t :=
  fun _ _ dev => if dev = 12 then VMM_IRQ_HANDLED else VMM_IRQ_NONE

/-- Example state: `ex_host_irqs` after `vmm_host_extirq_init`. -/
def ex_extirq_init : HostIrqs := (vmm_host_extirq_init ex_irq_config ex_host_irqs).2

/-- Example state: scenario 6 run on `ex_extirq_init`, four children named after `"uart"` on
the parent IRQ 2, chip and chip data inherited from the parent. -/
def ex_uart_mapped : HostIrqs :=
  match vmm_host_extirq_map ex_irq_config ex_extirq_init 2 "uart" 4 none none 7 true with
  | some r => r.2.1
  | none => ex_extirq_init

/-- Example chip that provides `irq_ack` and nothing else. -/
def ex_ack_only_chip : vmm_host_irq_chip :=
  { irq_enable := false
    irq_disable := false
    irq_ack := true
    irq_mask := false
    irq_unmask := false
    irq_mask_ack := false
    irq_eoi := false
    irq_raise := false
    irq_set_type := none
    irq_set_affinity := none }

/-- Example state: `ex_host_irqs` with the chip of IRQ 1 replaced by `chip`. -/
def ex_with_chip (chip : vmm_host_irq_chip) : HostIrqs :=
  set_irq ex_host_irqs 1 { ex_host_irqs.irq 1 with chip := some chip }

/-- Example state: the native IRQs as `host_irq_init_irq` leaves them, without a chip. -/
def ex_chipless_irqs : HostIrqs :=
  { ex_host_irqs with irq := fun n => host_irq_init_irq ex_irq_config n }

/-! ### Switches at IRQ exit, state-time accounting and the switch postcondition -/

/-- Example state: the guest VCPU 1 is the current VCPU of host CPU 0 with
`preempt_count = 2` and has been paused (state PAUSED, resume count -1); the idle orphan waits
on the ready queue and the host CPUs are handling an IRQ. -/
def ex_paused_current : System :=
  ex_in_irq
    (ex_system { ex_vcpu VMM_VCPU_STATE_PAUSED (-1) with preempt_count := 2 } (ex_rq [])
      (some 1))

/-- Example state: the guest VCPU 1 is RUNNING and current on host CPU 0 with
`preempt_count = 2`; the guest VCPU 2, READY with the same priority, waits on the ready queue
with the idle orphan; the host CPUs are handling an IRQ and `yield_on_irq_exit` is set on
host CPU 0. -/
def ex_yield_requested : System :=
  let s :=
    set_vcpu
      (ex_in_irq
        (ex_system { ex_vcpu VMM_VCPU_STATE_RUNNING 0 with preempt_count := 2 } (ex_rq [2])
          (some 1)))
      2 (ex_vcpu VMM_VCPU_STATE_READY 0)
  set_sched s 0 { s.sched 0 with yield_on_irq_exit := true }

/-- The accounting block of `vmm_scheduler_state_change` runs: the `switch` statement neither
jumps to `skip_state_change` nor leaves an error code (the test used in
`state_change_locked`). -/
def state_change_accounts (cfg : Config) (s : System) (vcpu : Nat)
    (new_state : vmm_vcpu_state) (ext : Ext) : Bool :=
  !(state_change_switch cfg s vcpu new_state ext).skip
    && decide ((state_change_switch cfg s vcpu new_state ext).rc = VMM_OK)

/-- Example state: the idle orphan, VCPU 0, is RUNNING and current on host CPU 0, whose ready
queue is empty; the guest VCPU 1 is PAUSED with resume count -1; the host CPUs are handling an
IRQ. -/
def ex_idle_running : System :=
  set_vcpu
    (ex_in_irq (ex_system (ex_vcpu VMM_VCPU_STATE_PAUSED (-1)) (fun _ => []) (some 0)))
    0 (ex_orphan VMM_VCPU_STATE_RUNNING)

/-- Collaborator results of a call made at time 100 whose scheduler switch reads the clock at
time 130. -/
def ex_ext_late : Ext := ⟨100, 130, VMM_OK, VMM_OK, VMM_OK, VMM_OK⟩

/-- The ready queue of host CPU `cpu` as `vmm_scheduler_next` dequeues from it, in the words
of the specification: the queue obtained by appending the current VCPU `c` to the tail of its band if
`c` is RUNNING. -/
def rq_with_current (s : System) (cpu c : Nat) : Rq :=
  if (s.vcpus c).state = VMM_VCPU_STATE_RUNNING then
    (vmm_schedalgo_rq_enqueue (s.sched cpu).rq c (s.vcpus c)).2
  else (s.sched cpu).rq

/-- No VCPU is on the ready queue twice: no band holds a VCPU twice and no VCPU is in two
bands. -/
def rq_no_duplicate (rq : Rq) : Prop :=
  (∀ q, (rq q).Nodup) ∧ ∀ q q1 w, w ∈ rq q → w ∈ rq q1 → q = q1

/-- Example calls: the current VCPU 1 is paused and resumed twice, by four state changes made
on host CPU 0 before any scheduler switch. -/
def ex_enqueued_twice : List Event :=
  [Event.state_change 0 1 VMM_VCPU_STATE_PAUSED (ex_ext 40),
    Event.state_change 0 1 VMM_VCPU_STATE_READY (ex_ext 50),
    Event.state_change 0 1 VMM_VCPU_STATE_PAUSED (ex_ext 60),
    Event.state_change 0 1 VMM_VCPU_STATE_READY (ex_ext 70)]

/-- The VCPU records `a` and `b` agree on the state and on every field of the state-time
accounting. -/
def same_accounting (a b : vmm_vcpu) : Prop :=
  a.state = b.state ∧ a.state_tstamp = b.state_tstamp
    ∧ a.state_ready_nsecs = b.state_ready_nsecs
    ∧ a.state_running_nsecs = b.state_running_nsecs
    ∧ a.state_paused_nsecs = b.state_paused_nsecs
    ∧ a.state_halted_nsecs = b.state_halted_nsecs
    ∧ a.reset_tstamp = b.reset_tstamp

/-- The state that `ex_enqueued_twice` reaches from `ex_running` with the host CPUs handling
an IRQ. -/
def ex_twice_queued : System :=
  (run ex_config (ex_in_irq ex_running) ex_enqueued_twice).getD ex_init

/-! ## Theorems -/

/-! ### Projections of the state updates -/

theorem set_vcpu_vcpus (s : System) (v w : Nat) (x : vmm_vcpu) :
    (set_vcpu s v x).vcpus w = if w = v then x else s.vcpus w := by
  simp [set_vcpu, Function.update_apply]

theorem set_vcpu_self (s : System) (v : Nat) : set_vcpu s v (s.vcpus v) = s := by
  simp [set_vcpu]

theorem set_sched_self (s : System) (cpu : Nat) : set_sched s cpu (s.sched cpu) = s := by
  simp [set_sched]

/-! ### C1: requesting the state a saveable VCPU already has -/

/-- C1 (as stated, refuted): on a READY VCPU with resume count 0 the call
`state_change(v, v.state)` returns OK but raises `resume_count` to 1, and on a RUNNING VCPU it
returns `VMM_EINVALID` instead of OK. -/
theorem state_change_same_state_counterexample :
    ((ex_ready.vcpus 1).state = VMM_VCPU_STATE_READY ∧ (ex_ready.vcpus 1).resume_count = 0
        ∧ ∃ s1, vmm_scheduler_state_change ex_config ex_ready 0 (some 1)
            (ex_ready.vcpus 1).state (ex_ext 10) = some (VMM_OK, s1)
          ∧ (s1.vcpus 1).resume_count = 1)
      ∧ ((ex_running.vcpus 1).state = VMM_VCPU_STATE_RUNNING
        ∧ vmm_scheduler_state_change ex_config ex_running 0 (some 1)
            (ex_running.vcpus 1).state (ex_ext 10) = some (VMM_EINVALID, ex_running)) := by
  refine ⟨⟨rfl, rfl, _, rfl, by decide⟩, rfl, rfl⟩

/-- C1 (amended): for a VCPU that is READY or RUNNING, a READY request with
`resume_count ≥ -1` returns OK and changes nothing but `resume_count`, which grows by one
(state, accounting buckets, time stamps, ready queues and trace are as before), and a RUNNING
request returns `VMM_EINVALID` and changes nothing at all. -/
theorem state_change_saveable_idempotent (cfg : Config) (s : System) (chcpu v : Nat) (ext : Ext)
    (hst : (s.vcpus v).state = VMM_VCPU_STATE_READY ∨
      (s.vcpus v).state = VMM_VCPU_STATE_RUNNING)
    (hrc : -1 ≤ (s.vcpus v).resume_count) :
    vmm_scheduler_state_change cfg s chcpu (some v) VMM_VCPU_STATE_READY ext =
        some (VMM_OK,
          set_vcpu s v { s.vcpus v with resume_count := (s.vcpus v).resume_count + 1 })
      ∧ vmm_scheduler_state_change cfg s chcpu (some v) VMM_VCPU_STATE_RUNNING ext =
        some (VMM_EINVALID, s) := by
  constructor
  · have h0 : ¬ ((s.vcpus v).resume_count + 1 < 0) := by omega
    rcases hst with h | h <;>
      simp [vmm_scheduler_state_change, state_change_locked, state_change_switch,
        VMM_VCPU_STATE_INTERRUPTIBLE, h, set_vcpu, h0]
  · simp [vmm_scheduler_state_change, state_change_locked, state_change_switch]

/-- Witness of `state_change_saveable_idempotent`: a READY VCPU with resume count 0. -/
theorem state_change_saveable_idempotent_witness :
    vmm_scheduler_state_change ex_config ex_ready 0 (some 1) VMM_VCPU_STATE_READY (ex_ext 10) =
        some (VMM_OK, set_vcpu ex_ready 1
          { ex_ready.vcpus 1 with resume_count := (ex_ready.vcpus 1).resume_count + 1 })
      ∧ vmm_scheduler_state_change ex_config ex_ready 0 (some 1) VMM_VCPU_STATE_RUNNING
        (ex_ext 10) = some (VMM_EINVALID, ex_ready) :=
  state_change_saveable_idempotent ex_config ex_ready 0 1 (ex_ext 10) (Or.inl rfl) (by decide)

/-! ### C5: rejected transitions -/

/-- C5: for every pair (current state, requested state) that is not a row of the transition
table, `vmm_scheduler_state_change` returns `VMM_EINVALID` and leaves the whole system, in
particular `v.state`, as it was. -/
theorem state_change_rejected (cfg : Config) (s : System) (chcpu v : Nat)
    (n : vmm_vcpu_state) (ext : Ext)
    (hrej : rejected_transition (s.vcpus v).state n = true) :
    vmm_scheduler_state_change cfg s chcpu (some v) n ext = some (VMM_EINVALID, s) := by
  generalize hcs : (s.vcpus v).state = cs at hrej
  cases cs <;> cases n <;> simp [rejected_transition] at hrej <;>
    simp [vmm_scheduler_state_change, state_change_locked, state_change_switch,
      state_change_halted, VMM_VCPU_STATE_INTERRUPTIBLE, hcs]

/-- Witness of `state_change_rejected`: a HALTED VCPU asked to become READY. -/
theorem state_change_rejected_witness :
    rejected_transition (ex_halted.vcpus 1).state VMM_VCPU_STATE_READY = true
      ∧ vmm_scheduler_state_change ex_config ex_halted 0 (some 1) VMM_VCPU_STATE_READY
        (ex_ext 10) = some (VMM_EINVALID, ex_halted) :=
  ⟨by decide, state_change_rejected ex_config ex_halted 0 1 VMM_VCPU_STATE_READY (ex_ext 10)
    (by decide)⟩

/-! ### C10: the tick while preemption is disabled -/

/-- C10: when the current VCPU of a host CPU has `preempt_count > 0`, the scheduler tick
returns, leaves every VCPU, every control block (current VCPU and ready queue included) and
the online map unchanged, and its only effect is the restart of the tick event, made when the
tick runs with saved IRQ registers (that is, when it calls `vmm_scheduler_switch`). -/
theorem tick_blocked_by_preempt_count (cfg : Config) (s : System) (cpu tstamp c : Nat)
    (hcur : (s.sched cpu).current_vcpu = some c)
    (hpc : 0 < (s.vcpus c).preempt_count) :
    ∃ s1, scheduler_timer_event cfg s cpu tstamp = some s1
      ∧ s1.vcpus = s.vcpus ∧ s1.sched = s.sched ∧ s1.cpu_online = s.cpu_online
      ∧ s1.trace = s.trace ++
          (if (s.sched cpu).irq_regs = none then [] else [Call.vmm_timer_event_restart cpu]) := by
  have hne : (s.vcpus c).preempt_count ≠ 0 := by omega
  cases hr : (s.sched cpu).irq_regs with
  | none => exact ⟨s, by simp [scheduler_timer_event, hr], rfl, rfl, rfl, by simp⟩
  | some r =>
    exact ⟨emit s (Call.vmm_timer_event_restart cpu),
      by simp [scheduler_timer_event, vmm_scheduler_switch, hr, hcur, hne], rfl, rfl, rfl,
      by simp [emit]⟩

/-- Witness of `tick_blocked_by_preempt_count`: VCPU 1 is current on CPU 0 with
`preempt_count = 2` while the CPU handles an IRQ; the tick only restarts the event. -/
theorem tick_blocked_by_preempt_count_witness :
    (ex_tick_blocked.sched 0).current_vcpu = some 1
      ∧ 0 < (ex_tick_blocked.vcpus 1).preempt_count
      ∧ ∃ s1, scheduler_timer_event ex_config ex_tick_blocked 0 50 = some s1
        ∧ s1.vcpus = ex_tick_blocked.vcpus ∧ s1.sched = ex_tick_blocked.sched
        ∧ s1.cpu_online = ex_tick_blocked.cpu_online
        ∧ s1.trace = ex_tick_blocked.trace ++
            (if (ex_tick_blocked.sched 0).irq_regs = none then []
             else [Call.vmm_timer_event_restart 0]) :=
  ⟨rfl, by decide, tick_blocked_by_preempt_count ex_config ex_tick_blocked 0 50 1 rfl
    (by decide)⟩

/-! ### State changes whose preemption is deferred -/

theorem same_delivery_refl (s : System) : same_delivery s s :=
  ⟨fun _ => ⟨rfl, rfl, rfl⟩, fun _ => ⟨rfl, rfl⟩, rfl⟩

theorem same_delivery_trans {s s1 s2 : System} (h1 : same_delivery s s1)
    (h2 : same_delivery s1 s2) : same_delivery s s2 := by
  obtain ⟨a1, b1, c1⟩ := h1
  obtain ⟨a2, b2, c2⟩ := h2
  refine ⟨fun w => ?_, fun cpu => ?_, c2.trans c1⟩
  · exact ⟨(a2 w).1.trans (a1 w).1, (a2 w).2.1.trans (a1 w).2.1, (a2 w).2.2.trans (a1 w).2.2⟩
  · exact ⟨(b2 cpu).1.trans (b1 cpu).1, (b2 cpu).2.trans (b1 cpu).2⟩

theorem preempt_deferred_congr (cfg : Config) {s s1 : System} (h : same_delivery s s1)
    (chcpu vhcpu : Nat) :
    preempt_deferred cfg s1 chcpu vhcpu = preempt_deferred cfg s chcpu vhcpu := by
  obtain ⟨a, b, c⟩ := h
  unfold preempt_deferred
  rw [(b vhcpu).1, c]
  cases (s.sched vhcpu).current_vcpu with
  | none => rfl
  | some x => simp only [(a x).1]

theorem request_may_preempt_congr {s s1 : System} (h : same_delivery s s1) (v : Nat)
    (p : Bool) : request_may_preempt s1 v p = request_may_preempt s v p := by
  obtain ⟨a, b, _⟩ := h
  unfold request_may_preempt
  rw [(a v).2.1, (b _).1]

theorem same_delivery_set_vcpu {s t : System} (h : same_delivery s t) (v : Nat) (x : vmm_vcpu)
    (h1 : x.is_normal = (t.vcpus v).is_normal) (h2 : x.hcpu = (t.vcpus v).hcpu)
    (h3 : x.priority = (t.vcpus v).priority) : same_delivery s (set_vcpu t v x) := by
  refine same_delivery_trans h ⟨fun w => ?_, fun _ => ⟨rfl, rfl⟩, rfl⟩
  rw [set_vcpu_vcpus]
  split
  · next h => subst h; exact ⟨h1, h2, h3⟩
  · exact ⟨rfl, rfl, rfl⟩

theorem same_delivery_rq_enqueue {s t : System} (h : same_delivery s t) (cpu v : Nat) :
    same_delivery s (rq_enqueue t cpu v).2 := by
  refine same_delivery_trans h ⟨fun _ => ⟨rfl, rfl, rfl⟩, fun c => ?_, rfl⟩
  by_cases h : c = cpu <;> simp [rq_enqueue, set_sched, Function.update_apply, h]

theorem same_delivery_rq_detach {s t : System} (h : same_delivery s t) (cpu v : Nat) :
    same_delivery s (rq_detach t cpu v).2 := by
  refine same_delivery_trans h ⟨fun _ => ⟨rfl, rfl, rfl⟩, fun c => ?_, rfl⟩
  by_cases h : c = cpu <;> simp [rq_detach, set_sched, Function.update_apply, h]

theorem same_delivery_halted {s t : System} (h : same_delivery s t) (v vhcpu : Nat)
    (cs : vmm_vcpu_state) : same_delivery s (state_change_halted t v vhcpu cs).s := by
  unfold state_change_halted
  repeat' first
    | exact h
    | refine same_delivery_rq_detach ?_ _ _
    | split

theorem same_delivery_account {s t : System} (h : same_delivery s t) (v : Nat)
    (cs n : vmm_vcpu_state) (tstamp : Nat) :
    same_delivery s (state_change_account t v cs n tstamp) := by
  unfold state_change_account
  refine same_delivery_set_vcpu h v _ ?_ ?_ ?_
  all_goals (cases cs <;> simp <;> split <;> rfl)

theorem same_delivery_reset (s : System) (v vhcpu : Nat) (cs : vmm_vcpu_state) (ext : Ext) :
    same_delivery s (state_change_reset s v vhcpu cs ext).s := by
  unfold state_change_reset state_change_reset_detach
  dsimp only
  repeat' first
    | exact same_delivery_refl s
    | refine same_delivery_set_vcpu ?_ _ _ rfl rfl rfl
    | refine same_delivery_rq_detach ?_ _ _
    | split

theorem same_delivery_switch (cfg : Config) (s : System) (v : Nat) (n : vmm_vcpu_state)
    (ext : Ext) : same_delivery s (state_change_switch cfg s v n ext).s := by
  cases n <;> simp only [state_change_switch] <;>
  repeat' first
    | exact same_delivery_refl s
    | exact same_delivery_reset s v _ _ ext
    | refine same_delivery_halted ?_ _ _ _
    | refine same_delivery_set_vcpu ?_ _ _ rfl rfl rfl
    | refine same_delivery_rq_enqueue ?_ _ _
    | split

theorem same_delivery_locked (cfg : Config) (s : System) (v : Nat) (n : vmm_vcpu_state)
    (ext : Ext) : same_delivery s (state_change_locked cfg s v n ext).s := by
  unfold state_change_locked
  dsimp only
  split
  · exact same_delivery_account (same_delivery_switch cfg s v n ext) _ _ _ _
  · exact same_delivery_switch cfg s v n ext

theorem state_change_preempt_deferred (cfg : Config) (s : System) (chcpu vhcpu c : Nat)
    (rc : Rc) (ext : Ext) (hc : (s.sched vhcpu).current_vcpu = some c)
    (hd : preempt_deferred cfg s chcpu vhcpu = true) :
    ∃ s1, state_change_preempt cfg s chcpu vhcpu c rc ext
        = some (if chcpu = vhcpu then rc else VMM_OK, s1)
      ∧ s1.vcpus = s.vcpus ∧ same_delivery s s1
      ∧ ∀ cpu, (s1.sched cpu).rq = (s.sched cpu).rq := by
  unfold preempt_deferred at hd
  rw [hc] at hd
  unfold state_change_preempt
  by_cases hcpu : chcpu = vhcpu
  · simp only [hcpu, if_true] at hd ⊢
    refine ⟨set_sched s vhcpu { s.sched vhcpu with yield_on_irq_exit := true },
      by simp only [hd, if_true], rfl,
      ⟨fun _ => ⟨rfl, rfl, rfl⟩, fun cpu => ?_, rfl⟩, fun cpu => ?_⟩ <;>
    by_cases h : cpu = vhcpu <;> simp [set_sched, Function.update_apply, h]
  · simp only [hcpu, if_false] at hd ⊢
    have h1 : ¬ cfg.CONFIG_CPU_COUNT ≤ vhcpu := by
      have := hd; simp at this; omega
    have h2 : s.cpu_online vhcpu = true := by
      have := hd; simp at this; exact this.2
    exact ⟨emit s (Call.ipi_resched vhcpu), by simp [vmm_scheduler_force_resched, h1, h2], rfl,
      ⟨fun _ => ⟨rfl, rfl, rfl⟩, fun _ => ⟨rfl, rfl⟩, rfl⟩, fun _ => rfl⟩

/-- A state change that raises no preemption, or whose preemption is deferred, returns; its
final state carries the VCPUs and ready queues left by the locked part, and its return code is
that of the locked part unless a remote preemption replaced it by the OK of the IPI. -/
theorem state_change_of_deferred (cfg : Config) (s : System) (chcpu v : Nat)
    (n : vmm_vcpu_state) (ext : Ext)
    (hd : (state_change_locked cfg s v n ext).preempt = true →
      preempt_deferred cfg s chcpu (s.vcpus v).hcpu = true) :
    ∃ rc s1, vmm_scheduler_state_change cfg s chcpu (some v) n ext = some (rc, s1)
      ∧ s1.vcpus = (state_change_locked cfg s v n ext).s.vcpus
      ∧ same_delivery s s1
      ∧ (∀ cpu, (s1.sched cpu).rq = ((state_change_locked cfg s v n ext).s.sched cpu).rq)
      ∧ (rc = (state_change_locked cfg s v n ext).rc
        ∨ ((state_change_locked cfg s v n ext).preempt = true ∧ rc = VMM_OK)) := by
  have hsd := same_delivery_locked cfg s v n ext
  unfold vmm_scheduler_state_change
  dsimp only
  by_cases hp : (state_change_locked cfg s v n ext).preempt = true
  · have hd1 := (preempt_deferred_congr cfg hsd chcpu (s.vcpus v).hcpu).trans (hd hp)
    cases hc : ((state_change_locked cfg s v n ext).s.sched (s.vcpus v).hcpu).current_vcpu with
    | none =>
      simp only [hp, if_true, hc]
      exact ⟨_, _, rfl, rfl, hsd, fun _ => rfl, Or.inl rfl⟩
    | some c =>
      simp only [hp, if_true, hc]
      obtain ⟨s1, h1, h2, h3, h4⟩ := state_change_preempt_deferred cfg _ chcpu _ c
        (state_change_locked cfg s v n ext).rc ext hc hd1
      refine ⟨_, s1, h1, h2, same_delivery_trans hsd h3, h4, ?_⟩
      by_cases hcpu : chcpu = (s.vcpus v).hcpu
      · left; simp [hcpu]
      · right; simp [hcpu, hp]
  · simp only [hp]
    exact ⟨_, _, rfl, rfl, hsd, fun _ => rfl, Or.inl rfl⟩

/-! ### The locked part of pause and resume requests -/

theorem rq_detach_vcpus (s : System) (cpu v : Nat) : (rq_detach s cpu v).2.vcpus = s.vcpus := rfl

theorem rq_enqueue_vcpus (s : System) (cpu v : Nat) : (rq_enqueue s cpu v).2.vcpus = s.vcpus :=
  rfl

theorem rq_enqueue_fst (s : System) (cpu v : Nat) : (rq_enqueue s cpu v).1 = VMM_OK := rfl

theorem rq_detach_fst (s : System) (cpu v : Nat) :
    (rq_detach s cpu v).1 =
      if v ∈ (s.sched cpu).rq (s.vcpus v).priority then VMM_OK else VMM_EFAIL := by
  unfold rq_detach vmm_schedalgo_rq_detach
  dsimp only
  split <;> rfl

theorem account_state (s : System) (v : Nat) (cs n : vmm_vcpu_state) (t : Nat) :
    ((state_change_account s v cs n t).vcpus v).state = n := by
  simp [state_change_account, set_vcpu]

theorem account_resume_count (s : System) (v : Nat) (cs n : vmm_vcpu_state) (t : Nat) :
    ((state_change_account s v cs n t).vcpus v).resume_count = (s.vcpus v).resume_count := by
  unfold state_change_account
  cases cs <;> simp [set_vcpu] <;> split <;> rfl

theorem account_sched (s : System) (v : Nat) (cs n : vmm_vcpu_state) (t : Nat) :
    (state_change_account s v cs n t).sched = s.sched := rfl

/-- A PAUSED request on a PAUSED VCPU whose resume count is not positive: the count is
decremented, then the transition is rejected with `VMM_EINVALID`. -/
theorem locked_pause_on_paused (cfg : Config) (s : System) (v : Nat) (ext : Ext)
    (hst : (s.vcpus v).state = VMM_VCPU_STATE_PAUSED) (hrc : (s.vcpus v).resume_count ≤ 0) :
    state_change_locked cfg s v VMM_VCPU_STATE_PAUSED ext =
      ⟨VMM_EINVALID, false, false,
        set_vcpu s v { s.vcpus v with resume_count := (s.vcpus v).resume_count - 1 }⟩ := by
  have h1 : ¬ (0 < (s.vcpus v).resume_count - 1) := by omega
  have h2 : ¬ ((s.vcpus v).resume_count - 1 = 0) := by omega
  simp [state_change_locked, state_change_switch, state_change_halted,
    VMM_VCPU_STATE_INTERRUPTIBLE, hst, set_vcpu, h1, h2]

/-- A READY request on a PAUSED VCPU whose resume count stays negative: the count is
incremented and the request is skipped with `VMM_EAGAIN`. -/
theorem locked_ready_on_paused_again (cfg : Config) (s : System) (v : Nat) (ext : Ext)
    (hst : (s.vcpus v).state = VMM_VCPU_STATE_PAUSED)
    (hrc : (s.vcpus v).resume_count + 1 < 0) :
    state_change_locked cfg s v VMM_VCPU_STATE_READY ext =
      ⟨VMM_EAGAIN, false, true,
        set_vcpu s v { s.vcpus v with resume_count := (s.vcpus v).resume_count + 1 }⟩ := by
  simp [state_change_locked, state_change_switch, VMM_VCPU_STATE_INTERRUPTIBLE, hst, set_vcpu,
    hrc]

/-- A READY request on a PAUSED VCPU whose resume count reaches zero or more: the VCPU is
enqueued at the tail of its band on its host CPU and becomes READY. -/
theorem locked_ready_on_paused (cfg : Config) (s : System) (v : Nat) (ext : Ext)
    (hst : (s.vcpus v).state = VMM_VCPU_STATE_PAUSED)
    (hrc : 0 ≤ (s.vcpus v).resume_count + 1) :
    (state_change_locked cfg s v VMM_VCPU_STATE_READY ext).rc = VMM_OK
      ∧ ((state_change_locked cfg s v VMM_VCPU_STATE_READY ext).s.vcpus v).state
        = VMM_VCPU_STATE_READY
      ∧ ((state_change_locked cfg s v VMM_VCPU_STATE_READY ext).s.vcpus v).resume_count
        = (s.vcpus v).resume_count + 1
      ∧ ((state_change_locked cfg s v VMM_VCPU_STATE_READY ext).s.sched
          (s.vcpus v).hcpu).rq (s.vcpus v).priority
        = ((s.sched (s.vcpus v).hcpu).rq (s.vcpus v).priority) ++ [v] := by
  have h1 : ¬ ((s.vcpus v).resume_count + 1 < 0) := by omega
  simp [state_change_locked, state_change_switch, VMM_VCPU_STATE_INTERRUPTIBLE, hst, h1,
    rq_enqueue, vmm_schedalgo_rq_enqueue, state_change_account, set_vcpu, set_sched]

/-- A PAUSED request on a READY or RUNNING VCPU whose resume count is not positive, when the
VCPU is current on its host CPU, or RUNNING, or on its band of the ready queue: the count is
decremented and the VCPU becomes PAUSED. -/
theorem locked_pause_on_saveable (cfg : Config) (s : System) (v : Nat) (ext : Ext)
    (hst : (s.vcpus v).state = VMM_VCPU_STATE_READY ∨
      (s.vcpus v).state = VMM_VCPU_STATE_RUNNING)
    (hrc : (s.vcpus v).resume_count ≤ 0)
    (hq : (s.sched (s.vcpus v).hcpu).current_vcpu = some v
      ∨ (s.vcpus v).state = VMM_VCPU_STATE_RUNNING
      ∨ v ∈ (s.sched (s.vcpus v).hcpu).rq (s.vcpus v).priority) :
    (state_change_locked cfg s v VMM_VCPU_STATE_PAUSED ext).rc = VMM_OK
      ∧ ((state_change_locked cfg s v VMM_VCPU_STATE_PAUSED ext).s.vcpus v).state
        = VMM_VCPU_STATE_PAUSED
      ∧ ((state_change_locked cfg s v VMM_VCPU_STATE_PAUSED ext).s.vcpus v).resume_count
        = (s.vcpus v).resume_count - 1 := by
  have h1 : ¬ (0 < (s.vcpus v).resume_count - 1) := by omega
  have h2 : ¬ ((s.vcpus v).resume_count - 1 = 0) := by omega
  by_cases hc : (s.sched (s.vcpus v).hcpu).current_vcpu = some v
  · rcases hst with h | h <;>
      simp [state_change_locked, state_change_switch, state_change_halted,
        VMM_VCPU_STATE_INTERRUPTIBLE, h, h1, h2, hc, state_change_account, set_vcpu]
  · rcases hst with h | h
    · have hm : v ∈ (s.sched (s.vcpus v).hcpu).rq (s.vcpus v).priority := by
        rcases hq with hq | hq | hq
        · exact absurd hq hc
        · rw [h] at hq; exact absurd hq (by decide)
        · exact hq
      simp [state_change_locked, state_change_switch, state_change_halted,
        VMM_VCPU_STATE_INTERRUPTIBLE, h, h1, h2, hc, state_change_account, set_vcpu,
        rq_detach, vmm_schedalgo_rq_detach, hm, set_sched]
    · simp [state_change_locked, state_change_switch, state_change_halted,
        VMM_VCPU_STATE_INTERRUPTIBLE, h, h1, h2, hc, state_change_account, set_vcpu]

theorem state_change_no_preempt (cfg : Config) (s : System) (chcpu v : Nat)
    (n : vmm_vcpu_state) (ext : Ext)
    (hp : (state_change_locked cfg s v n ext).preempt = false) :
    vmm_scheduler_state_change cfg s chcpu (some v) n ext =
      some ((state_change_locked cfg s v n ext).rc, (state_change_locked cfg s v n ext).s) := by
  simp [vmm_scheduler_state_change, hp]

theorem locked_preempt (cfg : Config) (s : System) (v : Nat) (n : vmm_vcpu_state) (ext : Ext) :
    (state_change_locked cfg s v n ext).preempt = (state_change_switch cfg s v n ext).preempt := by
  unfold state_change_locked
  dsimp only
  split <;> rfl

theorem halted_preempt (t : System) (v vhcpu : Nat) (cs : vmm_vcpu_state)
    (h : (state_change_halted t v vhcpu cs).preempt = true) :
    (t.sched vhcpu).current_vcpu = some v := by
  unfold state_change_halted at h
  split at h
  · split at h
    · assumption
    · split at h <;> simp at h
  · simp at h

theorem rq_enqueue_current (s : System) (cpu v c : Nat) :
    ((rq_enqueue s cpu v).2.sched c).current_vcpu = (s.sched c).current_vcpu := by
  by_cases h : c = cpu <;> simp [rq_enqueue, set_sched, Function.update_apply, h]

/-- A PAUSED request sets `preempt` only on the current VCPU of its host CPU. -/
theorem locked_pause_preempt (cfg : Config) (s : System) (v : Nat) (ext : Ext)
    (h : (state_change_locked cfg s v VMM_VCPU_STATE_PAUSED ext).preempt = true) :
    (s.sched (s.vcpus v).hcpu).current_vcpu = some v := by
  rw [locked_preempt] at h
  simp only [state_change_switch] at h
  have hs : (if VMM_VCPU_STATE_INTERRUPTIBLE (s.vcpus v).state = true then
      set_vcpu s v { s.vcpus v with resume_count := (s.vcpus v).resume_count - 1 }
      else s).sched = s.sched := by
    split <;> rfl
  generalize (if VMM_VCPU_STATE_INTERRUPTIBLE (s.vcpus v).state = true then
    set_vcpu s v { s.vcpus v with resume_count := (s.vcpus v).resume_count - 1 }
    else s) = s1 at h hs
  split at h
  · simp at h
  · split at h
    · simp at h
    · have := halted_preempt _ _ _ _ h
      rw [hs] at this
      exact this

/-- A READY request sets `preempt` only on a VCPU that is not the current VCPU of its host
CPU. -/
theorem locked_ready_preempt (cfg : Config) (s : System) (v : Nat) (ext : Ext)
    (h : (state_change_locked cfg s v VMM_VCPU_STATE_READY ext).preempt = true) :
    (s.sched (s.vcpus v).hcpu).current_vcpu ≠ some v := by
  rw [locked_preempt] at h
  simp only [state_change_switch] at h
  have hs : (if VMM_VCPU_STATE_INTERRUPTIBLE (s.vcpus v).state = true then
      set_vcpu s v { s.vcpus v with resume_count := (s.vcpus v).resume_count + 1 }
      else s).sched = s.sched := by
    split <;> rfl
  generalize (if VMM_VCPU_STATE_INTERRUPTIBLE (s.vcpus v).state = true then
    set_vcpu s v { s.vcpus v with resume_count := (s.vcpus v).resume_count + 1 }
    else s) = s1 at h hs
  split at h
  · simp at h
  · split at h
    · simp at h
    · split at h
      · dsimp only at h
        split at h
        · next hc =>
          have := hc.2
          rw [rq_enqueue_current, hs] at this
          exact this
        · simp at h
      · simp at h

/-- A pause or resume request raises a preemption only when `request_may_preempt` holds. -/
theorem locked_request_preempt (cfg : Config) (s : System) (v : Nat) (ext : Ext) (p : Bool)
    (h : (state_change_locked cfg s v
      (if p then VMM_VCPU_STATE_PAUSED else VMM_VCPU_STATE_READY) ext).preempt = true) :
    request_may_preempt s v p = true := by
  cases p
  · rw [if_neg (by decide)] at h
    simp [request_may_preempt, locked_ready_preempt cfg s v ext h]
  · rw [if_pos rfl] at h
    simp [request_may_preempt, locked_pause_preempt cfg s v ext h]

/-- One pause or resume request keeps the VCPU READY or PAUSED, PAUSED only with a negative
resume count, and moves the resume count by one. -/
theorem locked_pause_resume_inv (cfg : Config) (s : System) (v : Nat) (ext : Ext) (p : Bool)
    (hinv : (s.vcpus v).state = VMM_VCPU_STATE_READY ∨
      ((s.vcpus v).state = VMM_VCPU_STATE_PAUSED ∧ (s.vcpus v).resume_count < 0)) :
    (((state_change_locked cfg s v
          (if p then VMM_VCPU_STATE_PAUSED else VMM_VCPU_STATE_READY) ext).s.vcpus v).state
          = VMM_VCPU_STATE_READY
        ∨ (((state_change_locked cfg s v
          (if p then VMM_VCPU_STATE_PAUSED else VMM_VCPU_STATE_READY) ext).s.vcpus v).state
          = VMM_VCPU_STATE_PAUSED
          ∧ ((state_change_locked cfg s v
          (if p then VMM_VCPU_STATE_PAUSED else VMM_VCPU_STATE_READY) ext).s.vcpus
            v).resume_count < 0))
      ∧ ((state_change_locked cfg s v
          (if p then VMM_VCPU_STATE_PAUSED else VMM_VCPU_STATE_READY) ext).s.vcpus
            v).resume_count = (s.vcpus v).resume_count + (if p then -1 else 1) := by
  cases p
  · -- resume
    rcases hinv with h | ⟨h, hneg⟩
    · by_cases h0 : (s.vcpus v).resume_count + 1 < 0 <;>
        simp [state_change_locked, state_change_switch, VMM_VCPU_STATE_INTERRUPTIBLE, h,
          set_vcpu, h0]
    · by_cases h0 : (s.vcpus v).resume_count + 1 < 0
      · rw [if_neg (by decide), locked_ready_on_paused_again cfg s v ext h h0]
        simp [set_vcpu, h, h0]
      · obtain ⟨_, h2, h3, _⟩ := locked_ready_on_paused cfg s v ext h (by omega)
        rw [if_neg (by decide)]
        exact ⟨Or.inl h2, by simpa using h3⟩
  · -- pause
    rcases hinv with h | ⟨h, hneg⟩
    · by_cases h1 : 0 < (s.vcpus v).resume_count - 1
      · simp [state_change_locked, state_change_switch, VMM_VCPU_STATE_INTERRUPTIBLE, h,
          set_vcpu, h1]
        omega
      · by_cases h2 : (s.vcpus v).resume_count - 1 = 0
        · simp [state_change_locked, state_change_switch, VMM_VCPU_STATE_INTERRUPTIBLE, h,
            set_vcpu, h1, h2]
          omega
        · by_cases hq : (s.sched (s.vcpus v).hcpu).current_vcpu = some v
            ∨ v ∈ (s.sched (s.vcpus v).hcpu).rq (s.vcpus v).priority
          · obtain ⟨_, h4, h5⟩ := locked_pause_on_saveable cfg s v ext (Or.inl h) (by omega)
              (by rcases hq with hq | hq
                  · exact Or.inl hq
                  · exact Or.inr (Or.inr hq))
            rw [if_pos rfl]
            refine ⟨Or.inr ⟨h4, ?_⟩, ?_⟩
            · rw [h5]; omega
            · rw [h5]; simp; omega
          · have hq1 : ¬ (s.sched (s.vcpus v).hcpu).current_vcpu = some v := fun hh =>
              hq (Or.inl hh)
            have hq2 : v ∉ (s.sched (s.vcpus v).hcpu).rq (s.vcpus v).priority := fun hh =>
              hq (Or.inr hh)
            simp [state_change_locked, state_change_switch, state_change_halted,
              VMM_VCPU_STATE_INTERRUPTIBLE, h, set_vcpu, h1, h2, hq1, hq2, rq_detach,
              vmm_schedalgo_rq_detach, set_sched]
            omega
    · rw [if_pos rfl, locked_pause_on_paused cfg s v ext h (by omega)]
      simp [set_vcpu, h]
      constructor <;> omega

/-- The hypothesis "every request that may raise a preemption has it deferred" is carried
from a state to any state that delivers preemptions alike. -/
theorem requests_deferred_congr (cfg : Config) {s s1 : System} (h : same_delivery s s1)
    (A : Nat) (rs : List (Bool × Nat × Ext))
    (hd : ∀ r ∈ rs, request_may_preempt s A r.1 = true →
      preempt_deferred cfg s r.2.1 (s.vcpus A).hcpu = true) :
    ∀ r ∈ rs, request_may_preempt s1 A r.1 = true →
      preempt_deferred cfg s1 r.2.1 (s1.vcpus A).hcpu = true := by
  intro r hr hm
  rw [request_may_preempt_congr h] at hm
  rw [(h.1 A).2.1, preempt_deferred_congr cfg h]
  exact hd r hr hm

/-- One pause or resume request that raises no preemption, or a deferred one, returns, and
its final state carries the VCPUs left by the locked part. -/
theorem request_of_deferred (cfg : Config) (s : System) (A : Nat) (r : Bool × Nat × Ext)
    (hd : request_may_preempt s A r.1 = true →
      preempt_deferred cfg s r.2.1 (s.vcpus A).hcpu = true) :
    ∃ s1, step cfg s (Event.state_change r.2.1 A
          (if r.1 then VMM_VCPU_STATE_PAUSED else VMM_VCPU_STATE_READY) r.2.2) = some s1
      ∧ s1.vcpus = (state_change_locked cfg s A
          (if r.1 then VMM_VCPU_STATE_PAUSED else VMM_VCPU_STATE_READY) r.2.2).s.vcpus
      ∧ same_delivery s s1 := by
  obtain ⟨rc, s1, hcall, hv, hsd, _, _⟩ := state_change_of_deferred cfg s r.2.1 A
    (if r.1 then VMM_VCPU_STATE_PAUSED else VMM_VCPU_STATE_READY) r.2.2
    (fun hp => hd (locked_request_preempt cfg s A r.2.2 r.1 hp))
  exact ⟨s1, by simp only [step, hcall, Option.map_some'], hv, hsd⟩

/-- Any sequence of pause and resume requests, each raising no preemption or a deferred one,
on a VCPU that is READY, or PAUSED with a negative resume count, runs to the end, keeps that
alternative, and leaves the resume count at its initial value plus the resumes minus the
pauses. -/
theorem run_pause_resume (cfg : Config) (A : Nat) (rs : List (Bool × Nat × Ext)) :
    ∀ s : System,
      ((s.vcpus A).state = VMM_VCPU_STATE_READY ∨
        ((s.vcpus A).state = VMM_VCPU_STATE_PAUSED ∧ (s.vcpus A).resume_count < 0)) →
      (∀ r ∈ rs, request_may_preempt s A r.1 = true →
        preempt_deferred cfg s r.2.1 (s.vcpus A).hcpu = true) →
      ∃ s1, run cfg s (pause_resume_requests A rs) = some s1
        ∧ ((s1.vcpus A).state = VMM_VCPU_STATE_READY ∨
          ((s1.vcpus A).state = VMM_VCPU_STATE_PAUSED ∧ (s1.vcpus A).resume_count < 0))
        ∧ (s1.vcpus A).resume_count + (rs.countP (fun r => r.1) : Int)
          = (s.vcpus A).resume_count + (rs.countP (fun r => !r.1) : Int) := by
  induction rs with
  | nil =>
    intro s hinv _
    exact ⟨s, rfl, hinv, by simp⟩
  | cons r rs ih =>
    intro s hinv hd
    obtain ⟨s1, hstep, hv, hsd⟩ := request_of_deferred cfg s A r (hd r (List.mem_cons_self _ _))
    obtain ⟨hinv1, hrc1⟩ := locked_pause_resume_inv cfg s A r.2.2 r.1 hinv
    rw [← hv] at hinv1 hrc1
    obtain ⟨s2, hrun, hinv2, hrc2⟩ := ih s1 hinv1
      (requests_deferred_congr cfg hsd A rs (fun q hq => hd q (List.mem_cons_of_mem _ hq)))
    refine ⟨s2, ?_, hinv2, ?_⟩
    · simp only [pause_resume_requests, List.map_cons, run, hstep]
      exact hrun
    · rw [List.countP_cons, List.countP_cons]
      cases hb : r.1 <;> simp [hb] at hrc1 ⊢ <;> omega

/-- A READY request on a RUNNING VCPU whose resume count is not negative, and a PAUSED request
on one whose resume count is positive: the request is skipped, only the count moves. -/
theorem locked_request_on_running (cfg : Config) (s : System) (v : Nat) (ext : Ext) (p : Bool)
    (hst : (s.vcpus v).state = VMM_VCPU_STATE_RUNNING)
    (hrc : if p then 0 < (s.vcpus v).resume_count else 0 ≤ (s.vcpus v).resume_count) :
    (state_change_locked cfg s v
        (if p then VMM_VCPU_STATE_PAUSED else VMM_VCPU_STATE_READY) ext).preempt = false
      ∧ ((state_change_locked cfg s v
          (if p then VMM_VCPU_STATE_PAUSED else VMM_VCPU_STATE_READY) ext).s.vcpus v).state
        = VMM_VCPU_STATE_RUNNING
      ∧ ((state_change_locked cfg s v
          (if p then VMM_VCPU_STATE_PAUSED else VMM_VCPU_STATE_READY) ext).s.vcpus
            v).resume_count = (s.vcpus v).resume_count + (if p then -1 else 1) := by
  cases p
  · simp only [Bool.false_eq_true, if_false] at hrc ⊢
    have h0 : ¬ ((s.vcpus v).resume_count + 1 < 0) := by omega
    simp [state_change_locked, state_change_switch, VMM_VCPU_STATE_INTERRUPTIBLE, hst, set_vcpu,
      h0]
  · simp only [if_true] at hrc ⊢
    by_cases h1 : 0 < (s.vcpus v).resume_count - 1
    · simp [state_change_locked, state_change_switch, VMM_VCPU_STATE_INTERRUPTIBLE, hst,
        set_vcpu, h1]
      omega
    · have h2 : (s.vcpus v).resume_count - 1 = 0 := by omega
      simp [state_change_locked, state_change_switch, VMM_VCPU_STATE_INTERRUPTIBLE, hst,
        set_vcpu, h2]
      omega

/-- Any sequence of pause and resume requests, each raising no preemption or a deferred one,
on a RUNNING VCPU whose resume count `k` is not negative runs to the end and moves the resume
count by the resumes minus the pauses; the VCPU stays RUNNING when no pause takes effect, and
is otherwise READY, or PAUSED with a negative resume count. -/
theorem run_pause_resume_running (cfg : Config) (A : Nat) (rs : List (Bool × Nat × Ext)) :
    ∀ (s : System) (k : Int),
      (s.vcpus A).state = VMM_VCPU_STATE_RUNNING → (s.vcpus A).resume_count = k → 0 ≤ k →
      (∀ r ∈ rs, request_may_preempt s A r.1 = true →
        preempt_deferred cfg s r.2.1 (s.vcpus A).hcpu = true) →
      ∃ s1, run cfg s (pause_resume_requests A rs) = some s1
        ∧ (s1.vcpus A).resume_count + (rs.countP (fun r => r.1) : Int)
          = k + (rs.countP (fun r => !r.1) : Int)
        ∧ (if pause_takes_effect k (rs.map fun r => r.1) then
            ((s1.vcpus A).state = VMM_VCPU_STATE_READY ∨
              ((s1.vcpus A).state = VMM_VCPU_STATE_PAUSED ∧ (s1.vcpus A).resume_count < 0))
          else (s1.vcpus A).state = VMM_VCPU_STATE_RUNNING) := by
  induction rs with
  | nil =>
    intro s k hst hrc _ _
    exact ⟨s, rfl, by simpa using hrc, by simpa [pause_takes_effect] using hst⟩
  | cons r rs ih =>
    intro s k hst hrc hk hd
    obtain ⟨s1, hstep, hv, hsd⟩ := request_of_deferred cfg s A r (hd r (List.mem_cons_self _ _))
    have hd1 := requests_deferred_congr cfg hsd A rs
      (fun q hq => hd q (List.mem_cons_of_mem _ hq))
    by_cases heff : r.1 = true ∧ k ≤ 0
    · -- the pause takes effect
      obtain ⟨hp, hk0⟩ := heff
      obtain ⟨_, h2, h3⟩ := locked_pause_on_saveable cfg s A r.2.2 (Or.inr hst) (by omega)
        (Or.inr (Or.inl hst))
      rw [hp, if_pos rfl] at hv
      rw [← hv] at h2 h3
      obtain ⟨s2, hrun, hinv2, hrc2⟩ := run_pause_resume cfg A rs s1
        (Or.inr ⟨h2, by omega⟩) hd1
      refine ⟨s2, ?_, ?_, ?_⟩
      · simp only [pause_resume_requests, List.map_cons, run, hstep]
        exact hrun
      · rw [List.countP_cons, List.countP_cons]
        simp only [hp, Bool.not_true, Bool.false_eq_true, if_false, if_true]
        push_cast
        omega
      · simp only [List.map_cons, hp, pause_takes_effect, hk0, decide_True, Bool.true_or,
          if_true]
        exact hinv2
    · -- the request is skipped
      have hcond : if r.1 then 0 < (s.vcpus A).resume_count
          else 0 ≤ (s.vcpus A).resume_count := by
        cases hb : r.1
        · simp only [Bool.false_eq_true, if_false]; omega
        · simp only [if_true]
          have : ¬ k ≤ 0 := fun h => heff ⟨hb, h⟩
          omega
      obtain ⟨_, h2, h3⟩ := locked_request_on_running cfg s A r.2.2 r.1 hst hcond
      rw [← hv] at h2 h3
      have hk1 : 0 ≤ k + (if r.1 then -1 else 1) := by
        cases hb : r.1
        · simp; omega
        · simp
          have : ¬ k ≤ 0 := fun h => heff ⟨hb, h⟩
          omega
      obtain ⟨s2, hrun, hrc2, hst2⟩ := ih s1 (k + (if r.1 then -1 else 1)) h2
        (by rw [h3, hrc]) hk1 hd1
      refine ⟨s2, ?_, ?_, ?_⟩
      · simp only [pause_resume_requests, List.map_cons, run, hstep]
        exact hrun
      · rw [List.countP_cons, List.countP_cons]
        cases hb : r.1 <;> simp [hb] at hrc2 ⊢ <;> omega
      · cases hb : r.1
        · simp only [hb, Bool.false_eq_true, if_false] at hst2
          simpa only [List.map_cons, hb, pause_takes_effect] using hst2
        · have hk0 : ¬ k ≤ 0 := fun h => heff ⟨hb, h⟩
          simp only [hb, if_true] at hst2
          have hsub : k + -1 = k - 1 := by omega
          rw [hsub] at hst2
          simpa only [List.map_cons, hb, pause_takes_effect, hk0, decide_False,
            Bool.false_or] using hst2

/-! ### C2: two pause requests in a row -/

/-- C2 (as stated, refuted): on the READY VCPU 1 with resume count 0 the first pause returns OK
and leaves it PAUSED with count -1, but the second pause returns `VMM_EINVALID`, not
`VMM_EAGAIN`, and lowers the count to -2. -/
theorem pause_twice_counterexample :
    ∃ s1 s2, vmm_scheduler_state_change ex_config ex_ready 0 (some 1) VMM_VCPU_STATE_PAUSED
          (ex_ext 10) = some (VMM_OK, s1)
      ∧ (s1.vcpus 1).state = VMM_VCPU_STATE_PAUSED ∧ (s1.vcpus 1).resume_count = -1
      ∧ vmm_scheduler_state_change ex_config s1 0 (some 1) VMM_VCPU_STATE_PAUSED (ex_ext 20)
          = some (VMM_EINVALID, s2)
      ∧ (s2.vcpus 1).state = VMM_VCPU_STATE_PAUSED ∧ (s2.vcpus 1).resume_count = -2 := by
  refine ⟨_, _, rfl, by decide, by decide, rfl, by decide, by decide⟩

/-- C2 (amended): for a VCPU `A` that is READY or RUNNING with resume count 0 (on its band of
the ready queue when it is READY and not current), when no scheduler switch runs inside the
first call (`A` is not the current VCPU of its host CPU, so that no preemption is raised, or
the preemption is deferred: `A` is a guest VCPU paused from its own host CPU, or the call is
made on another host CPU and the IPI can be sent), the first PAUSED request returns OK and
leaves `A` PAUSED with resume count -1; the second PAUSED request, from any host CPU, returns
`VMM_EINVALID` and leaves `A` PAUSED with resume count -2. -/
theorem pause_twice (cfg : Config) (s : System) (chcpu chcpu2 A : Nat) (ext ext2 : Ext)
    (hst : (s.vcpus A).state = VMM_VCPU_STATE_READY ∨
      (s.vcpus A).state = VMM_VCPU_STATE_RUNNING)
    (hrc : (s.vcpus A).resume_count = 0)
    (hq : (s.sched (s.vcpus A).hcpu).current_vcpu = some A
      ∨ (s.vcpus A).state = VMM_VCPU_STATE_RUNNING
      ∨ A ∈ (s.sched (s.vcpus A).hcpu).rq (s.vcpus A).priority)
    (hd : (s.sched (s.vcpus A).hcpu).current_vcpu = some A →
      preempt_deferred cfg s chcpu (s.vcpus A).hcpu = true) :
    ∃ s1 s2, vmm_scheduler_state_change cfg s chcpu (some A) VMM_VCPU_STATE_PAUSED ext
          = some (VMM_OK, s1)
      ∧ (s1.vcpus A).state = VMM_VCPU_STATE_PAUSED ∧ (s1.vcpus A).resume_count = -1
      ∧ vmm_scheduler_state_change cfg s1 chcpu2 (some A) VMM_VCPU_STATE_PAUSED ext2
          = some (VMM_EINVALID, s2)
      ∧ (s2.vcpus A).state = VMM_VCPU_STATE_PAUSED ∧ (s2.vcpus A).resume_count = -2 := by
  obtain ⟨rc, s1, hcall, hv, _, _, hrc1⟩ :=
    state_change_of_deferred cfg s chcpu A VMM_VCPU_STATE_PAUSED ext
      (fun hp => hd (locked_pause_preempt cfg s A ext hp))
  obtain ⟨h1, h2, h3⟩ := locked_pause_on_saveable cfg s A ext hst (by omega) hq
  have hok : rc = VMM_OK := by
    rcases hrc1 with h | h
    · rw [h, h1]
    · exact h.2
  subst hok
  rw [← hv] at h2 h3
  have h3a : (s1.vcpus A).resume_count = -1 := by rw [h3, hrc]; rfl
  have hl := locked_pause_on_paused cfg s1 A ext2 h2 (by omega)
  have hcall2 := state_change_no_preempt cfg s1 chcpu2 A VMM_VCPU_STATE_PAUSED ext2
    (by rw [hl])
  rw [hl] at hcall2
  refine ⟨s1, _, hcall, h2, h3a, hcall2, ?_, ?_⟩
  · simp [set_vcpu, h2]
  · simp [set_vcpu, h3a]

/-- Witness of `pause_twice`: the READY VCPU 1 of `ex_ready`, on the ready queue with no
current VCPU, paused twice; and the RUNNING guest VCPU 1 of `ex_running`, current on host
CPU 0 and paused from that CPU, whose preemption is deferred to the IRQ exit. -/
theorem pause_twice_witness :
    (∃ s1 s2, vmm_scheduler_state_change ex_config ex_ready 0 (some 1) VMM_VCPU_STATE_PAUSED
          (ex_ext 10) = some (VMM_OK, s1)
      ∧ (s1.vcpus 1).state = VMM_VCPU_STATE_PAUSED ∧ (s1.vcpus 1).resume_count = -1
      ∧ vmm_scheduler_state_change ex_config s1 1 (some 1) VMM_VCPU_STATE_PAUSED (ex_ext 20)
          = some (VMM_EINVALID, s2)
      ∧ (s2.vcpus 1).state = VMM_VCPU_STATE_PAUSED ∧ (s2.vcpus 1).resume_count = -2)
    ∧ (ex_running.sched (ex_running.vcpus 1).hcpu).current_vcpu = some 1
    ∧ preempt_deferred ex_config ex_running 0 (ex_running.vcpus 1).hcpu = true
    ∧ (∃ s1 s2, vmm_scheduler_state_change ex_config ex_running 0 (some 1)
          VMM_VCPU_STATE_PAUSED (ex_ext 10) = some (VMM_OK, s1)
      ∧ (s1.vcpus 1).state = VMM_VCPU_STATE_PAUSED ∧ (s1.vcpus 1).resume_count = -1
      ∧ vmm_scheduler_state_change ex_config s1 0 (some 1) VMM_VCPU_STATE_PAUSED (ex_ext 20)
          = some (VMM_EINVALID, s2)
      ∧ (s2.vcpus 1).state = VMM_VCPU_STATE_PAUSED ∧ (s2.vcpus 1).resume_count = -2) :=
  ⟨pause_twice ex_config ex_ready 0 1 1 (ex_ext 10) (ex_ext 20) (Or.inl rfl) rfl
      (Or.inr (Or.inr (by decide))) (by decide),
    rfl, by decide,
    pause_twice ex_config ex_running 0 0 1 (ex_ext 10) (ex_ext 20) (Or.inr rfl) rfl
      (Or.inl rfl) (fun _ => by decide)⟩

/-! ### C3: two pause requests, then two resume requests -/

/-- C3 (as stated, refuted): after two pause requests on the READY VCPU 1 (resume count 0), the
first READY request returns `VMM_EAGAIN`, not OK; the VCPU stays PAUSED until the second READY
request, which returns OK and enqueues it. -/
theorem pause_twice_resume_twice_counterexample :
    ∃ s1 s2 s3, vmm_scheduler_state_change ex_config ex_ready 0 (some 1)
          VMM_VCPU_STATE_PAUSED (ex_ext 10) = some (VMM_OK, s1)
      ∧ vmm_scheduler_state_change ex_config s1 0 (some 1) VMM_VCPU_STATE_PAUSED (ex_ext 20)
          = some (VMM_EINVALID, s2)
      ∧ vmm_scheduler_state_change ex_config s2 0 (some 1) VMM_VCPU_STATE_READY (ex_ext 30)
          = some (VMM_EAGAIN, s3)
      ∧ (s3.vcpus 1).state = VMM_VCPU_STATE_PAUSED := by
  refine ⟨_, _, _, rfl, rfl, rfl, by decide⟩

/-- C3 (amended): for a VCPU `A` that is READY or RUNNING with resume count 0 (on its band of
the ready queue when READY and not current), when no scheduler switch runs inside the first
and the last call (the first call raises a preemption only if `A` is the current VCPU of its
host CPU, the last one only if it is not, and a preemption that may be raised is deferred), in
the sequence PAUSED, PAUSED, READY, READY the first READY request returns `VMM_EAGAIN` and
leaves `A` PAUSED, and the second READY request returns OK and takes effect: `A` is READY with
resume count 0 and is on its band of the ready queue of its host CPU. -/
theorem pause_twice_resume_twice (cfg : Config) (s : System) (c1 c2 c3 c4 A : Nat)
    (e1 e2 e3 e4 : Ext)
    (hst : (s.vcpus A).state = VMM_VCPU_STATE_READY ∨
      (s.vcpus A).state = VMM_VCPU_STATE_RUNNING)
    (hrc : (s.vcpus A).resume_count = 0)
    (hq : (s.sched (s.vcpus A).hcpu).current_vcpu = some A
      ∨ (s.vcpus A).state = VMM_VCPU_STATE_RUNNING
      ∨ A ∈ (s.sched (s.vcpus A).hcpu).rq (s.vcpus A).priority)
    (hd1 : (s.sched (s.vcpus A).hcpu).current_vcpu = some A →
      preempt_deferred cfg s c1 (s.vcpus A).hcpu = true)
    (hd4 : (s.sched (s.vcpus A).hcpu).current_vcpu ≠ some A →
      preempt_deferred cfg s c4 (s.vcpus A).hcpu = true) :
    ∃ s1 s2 s3 s4,
      vmm_scheduler_state_change cfg s c1 (some A) VMM_VCPU_STATE_PAUSED e1 = some (VMM_OK, s1)
      ∧ vmm_scheduler_state_change cfg s1 c2 (some A) VMM_VCPU_STATE_PAUSED e2
          = some (VMM_EINVALID, s2)
      ∧ vmm_scheduler_state_change cfg s2 c3 (some A) VMM_VCPU_STATE_READY e3
          = some (VMM_EAGAIN, s3)
      ∧ (s3.vcpus A).state = VMM_VCPU_STATE_PAUSED
      ∧ vmm_scheduler_state_change cfg s3 c4 (some A) VMM_VCPU_STATE_READY e4
          = some (VMM_OK, s4)
      ∧ (s4.vcpus A).state = VMM_VCPU_STATE_READY ∧ (s4.vcpus A).resume_count = 0
      ∧ A ∈ (s4.sched (s.vcpus A).hcpu).rq (s.vcpus A).priority := by
  -- first pause
  obtain ⟨rc, s1, hcall1, hv1, hsd1, _, hrc1⟩ :=
    state_change_of_deferred cfg s c1 A VMM_VCPU_STATE_PAUSED e1
      (fun hp => hd1 (locked_pause_preempt cfg s A e1 hp))
  obtain ⟨h1, h2, h3⟩ := locked_pause_on_saveable cfg s A e1 hst (by omega) hq
  have hok : rc = VMM_OK := by
    rcases hrc1 with h | h
    · rw [h, h1]
    · exact h.2
  subst hok
  rw [← hv1] at h2 h3
  have h3a : (s1.vcpus A).resume_count = -1 := by rw [h3, hrc]; rfl
  -- second pause
  have hl2 := locked_pause_on_paused cfg s1 A e2 h2 (by omega)
  have hcall2 := state_change_no_preempt cfg s1 c2 A VMM_VCPU_STATE_PAUSED e2 (by rw [hl2])
  rw [hl2] at hcall2
  have hsd2 : same_delivery s
      (set_vcpu s1 A { s1.vcpus A with resume_count := (s1.vcpus A).resume_count - 1 }) :=
    same_delivery_set_vcpu hsd1 A _ rfl rfl rfl
  have hs2st : ((set_vcpu s1 A { s1.vcpus A with
      resume_count := (s1.vcpus A).resume_count - 1 }).vcpus A).state
      = VMM_VCPU_STATE_PAUSED := by simp [set_vcpu, h2]
  have hs2rc : ((set_vcpu s1 A { s1.vcpus A with
      resume_count := (s1.vcpus A).resume_count - 1 }).vcpus A).resume_count = -2 := by
    simp [set_vcpu, h3a]
  generalize set_vcpu s1 A { s1.vcpus A with
      resume_count := (s1.vcpus A).resume_count - 1 } = s2 at hcall2 hsd2 hs2st hs2rc
  -- first resume
  have hl3 := locked_ready_on_paused_again cfg s2 A e3 hs2st (by omega)
  have hcall3 := state_change_no_preempt cfg s2 c3 A VMM_VCPU_STATE_READY e3 (by rw [hl3])
  rw [hl3] at hcall3
  have hsd3 : same_delivery s
      (set_vcpu s2 A { s2.vcpus A with resume_count := (s2.vcpus A).resume_count + 1 }) :=
    same_delivery_set_vcpu hsd2 A _ rfl rfl rfl
  have hs3st : ((set_vcpu s2 A { s2.vcpus A with
      resume_count := (s2.vcpus A).resume_count + 1 }).vcpus A).state
      = VMM_VCPU_STATE_PAUSED := by simp [set_vcpu, hs2st]
  have hs3rc : ((set_vcpu s2 A { s2.vcpus A with
      resume_count := (s2.vcpus A).resume_count + 1 }).vcpus A).resume_count = -1 := by
    simp [set_vcpu, hs2rc]
  generalize set_vcpu s2 A { s2.vcpus A with
      resume_count := (s2.vcpus A).resume_count + 1 } = s3 at hcall3 hsd3 hs3st hs3rc
  -- second resume
  have hh : (s3.vcpus A).hcpu = (s.vcpus A).hcpu := (hsd3.1 A).2.1
  have hp : (s3.vcpus A).priority = (s.vcpus A).priority := (hsd3.1 A).2.2
  have hd4a : (state_change_locked cfg s3 A VMM_VCPU_STATE_READY e4).preempt = true →
      preempt_deferred cfg s3 c4 (s3.vcpus A).hcpu = true := by
    intro hpre
    have hne := locked_ready_preempt cfg s3 A e4 hpre
    rw [hh, (hsd3.2.1 _).1] at hne
    rw [hh, preempt_deferred_congr cfg hsd3]
    exact hd4 hne
  obtain ⟨rc4, s4, hcall4, hv4, _, hq4, hrc4⟩ :=
    state_change_of_deferred cfg s3 c4 A VMM_VCPU_STATE_READY e4 hd4a
  obtain ⟨g1, g2, g3, g4⟩ := locked_ready_on_paused cfg s3 A e4 hs3st (by omega)
  have hok4 : rc4 = VMM_OK := by
    rcases hrc4 with h | h
    · rw [h, g1]
    · exact h.2
  subst hok4
  rw [← hv4] at g2 g3
  refine ⟨s1, s2, s3, s4, hcall1, hcall2, hcall3, hs3st, hcall4, g2, ?_, ?_⟩
  · rw [g3, hs3rc]; rfl
  · rw [← hh, ← hp, hq4, g4]
    exact List.mem_append_right _ (List.mem_singleton_self A)

/-- Witness of `pause_twice_resume_twice`: the READY VCPU 1 of `ex_ready`, on the ready queue
with no current VCPU; and the RUNNING guest VCPU 1 of `ex_running`, current on host CPU 0,
with every call made on that CPU. -/
theorem pause_twice_resume_twice_witness :
    (∃ s1 s2 s3 s4,
      vmm_scheduler_state_change ex_config ex_ready 0 (some 1) VMM_VCPU_STATE_PAUSED
          (ex_ext 10) = some (VMM_OK, s1)
      ∧ vmm_scheduler_state_change ex_config s1 0 (some 1) VMM_VCPU_STATE_PAUSED (ex_ext 20)
          = some (VMM_EINVALID, s2)
      ∧ vmm_scheduler_state_change ex_config s2 0 (some 1) VMM_VCPU_STATE_READY (ex_ext 30)
          = some (VMM_EAGAIN, s3)
      ∧ (s3.vcpus 1).state = VMM_VCPU_STATE_PAUSED
      ∧ vmm_scheduler_state_change ex_config s3 0 (some 1) VMM_VCPU_STATE_READY (ex_ext 40)
          = some (VMM_OK, s4)
      ∧ (s4.vcpus 1).state = VMM_VCPU_STATE_READY ∧ (s4.vcpus 1).resume_count = 0
      ∧ 1 ∈ (s4.sched (ex_ready.vcpus 1).hcpu).rq (ex_ready.vcpus 1).priority)
    ∧ (∃ s1 s2 s3 s4,
      vmm_scheduler_state_change ex_config ex_running 0 (some 1) VMM_VCPU_STATE_PAUSED
          (ex_ext 10) = some (VMM_OK, s1)
      ∧ vmm_scheduler_state_change ex_config s1 0 (some 1) VMM_VCPU_STATE_PAUSED (ex_ext 20)
          = some (VMM_EINVALID, s2)
      ∧ vmm_scheduler_state_change ex_config s2 0 (some 1) VMM_VCPU_STATE_READY (ex_ext 30)
          = some (VMM_EAGAIN, s3)
      ∧ (s3.vcpus 1).state = VMM_VCPU_STATE_PAUSED
      ∧ vmm_scheduler_state_change ex_config s3 0 (some 1) VMM_VCPU_STATE_READY (ex_ext 40)
          = some (VMM_OK, s4)
      ∧ (s4.vcpus 1).state = VMM_VCPU_STATE_READY ∧ (s4.vcpus 1).resume_count = 0
      ∧ 1 ∈ (s4.sched (ex_running.vcpus 1).hcpu).rq (ex_running.vcpus 1).priority) :=
  ⟨pause_twice_resume_twice ex_config ex_ready 0 0 0 0 1 (ex_ext 10) (ex_ext 20) (ex_ext 30)
      (ex_ext 40) (Or.inl rfl) rfl (Or.inr (Or.inr (by decide))) (by decide) (by decide),
    pause_twice_resume_twice ex_config ex_running 0 0 0 0 1 (ex_ext 10) (ex_ext 20)
      (ex_ext 30) (ex_ext 40) (Or.inr rfl) rfl (Or.inl rfl) (fun _ => by decide)
      (fun h => absurd rfl h)⟩

/-! ### C4: pause/resume pairing -/

/-- C4 (as stated, refuted): a RUNNING VCPU with resume count 0 that receives one pause and
then one resume request ends READY, not RUNNING; a PAUSED VCPU with resume count 0 that
receives one resume and then one pause request ends READY, not PAUSED. -/
theorem pause_resume_pairing_counterexample :
    ((ex_running.vcpus 1).state = VMM_VCPU_STATE_RUNNING
        ∧ (ex_running.vcpus 1).resume_count = 0
        ∧ ∃ s1, run ex_config ex_running
            (pause_resume_requests 1 [(true, 0, ex_ext 10), (false, 0, ex_ext 20)]) = some s1
          ∧ (s1.vcpus 1).state = VMM_VCPU_STATE_READY ∧ (s1.vcpus 1).resume_count = 0)
      ∧ ((ex_paused_zero.vcpus 1).state = VMM_VCPU_STATE_PAUSED
        ∧ (ex_paused_zero.vcpus 1).resume_count = 0
        ∧ ∃ s1, run ex_config ex_paused_zero
            (pause_resume_requests 1 [(false, 0, ex_ext 10), (true, 0, ex_ext 20)]) = some s1
          ∧ (s1.vcpus 1).state = VMM_VCPU_STATE_READY ∧ (s1.vcpus 1).resume_count = 0) := by
  refine ⟨⟨rfl, rfl, _, rfl, by decide, by decide⟩, rfl, rfl, _, rfl, by decide, by decide⟩

/-- C4 (amended): for a VCPU that is READY, RUNNING or PAUSED with resume count 0, every `N`
and every sequence made of exactly `N` PAUSED and `N` READY requests in any order, when no
scheduler switch runs in between (a request that may raise a preemption has it deferred),
applying the requests one after another runs to the end and leaves the VCPU with resume count
0, in the state `pairing_final_state` gives: a READY VCPU ends READY; a RUNNING VCPU ends
RUNNING if no pause of the sequence takes effect and READY otherwise; a PAUSED VCPU ends READY
(PAUSED if the sequence is empty). -/
theorem pause_resume_pairing (cfg : Config) (s : System) (A N : Nat)
    (rs : List (Bool × Nat × Ext))
    (hst : (s.vcpus A).state = VMM_VCPU_STATE_READY ∨ (s.vcpus A).state = VMM_VCPU_STATE_RUNNING
      ∨ (s.vcpus A).state = VMM_VCPU_STATE_PAUSED)
    (hrc : (s.vcpus A).resume_count = 0)
    (hP : rs.countP (fun r => r.1) = N) (hR : rs.countP (fun r => !r.1) = N)
    (hd : ∀ r ∈ rs, request_may_preempt s A r.1 = true →
      preempt_deferred cfg s r.2.1 (s.vcpus A).hcpu = true) :
    ∃ s1, run cfg s (pause_resume_requests A rs) = some s1
      ∧ (s1.vcpus A).resume_count = 0
      ∧ (s1.vcpus A).state = pairing_final_state (s.vcpus A).state (rs.map fun r => r.1) := by
  have hfin : ∀ s1 : System, (s1.vcpus A).resume_count = 0 →
      ((s1.vcpus A).state = VMM_VCPU_STATE_READY ∨
        ((s1.vcpus A).state = VMM_VCPU_STATE_PAUSED ∧ (s1.vcpus A).resume_count < 0)) →
      (s1.vcpus A).state = VMM_VCPU_STATE_READY := by
    intro s1 h0 hinv
    rcases hinv with h | ⟨_, h⟩
    · exact h
    · omega
  rcases hst with hst | hst | hst
  · -- READY
    obtain ⟨s1, hrun, hinv, hcnt⟩ := run_pause_resume cfg A rs s (Or.inl hst) hd
    rw [hP, hR, hrc] at hcnt
    have h0 : (s1.vcpus A).resume_count = 0 := by omega
    refine ⟨s1, hrun, h0, ?_⟩
    rw [hst]
    exact hfin s1 h0 hinv
  · -- RUNNING
    obtain ⟨s1, hrun, hcnt, hfs⟩ := run_pause_resume_running cfg A rs s 0 hst hrc (le_refl 0) hd
    rw [hP, hR] at hcnt
    have h0 : (s1.vcpus A).resume_count = 0 := by omega
    refine ⟨s1, hrun, h0, ?_⟩
    rw [hst]
    simp only [pairing_final_state]
    split
    · next he => rw [if_pos he] at hfs; exact hfin s1 h0 hfs
    · next he => rw [if_neg he] at hfs; exact hfs
  · -- PAUSED
    cases rs with
    | nil => exact ⟨s, rfl, hrc, by rw [hst]; rfl⟩
    | cons r rs =>
      obtain ⟨s1, hstep, hv, hsd⟩ := request_of_deferred cfg s A r
        (hd r (List.mem_cons_self _ _))
      have hd1 := requests_deferred_congr cfg hsd A rs
        (fun q hq => hd q (List.mem_cons_of_mem _ hq))
      have hfirst : ((s1.vcpus A).state = VMM_VCPU_STATE_READY ∨
            ((s1.vcpus A).state = VMM_VCPU_STATE_PAUSED ∧ (s1.vcpus A).resume_count < 0))
          ∧ (s1.vcpus A).resume_count = (if r.1 then -1 else 1) := by
        rw [hv]
        cases hb : r.1
        · obtain ⟨_, g2, g3, _⟩ := locked_ready_on_paused cfg s A r.2.2 hst (by omega)
          simp only [Bool.false_eq_true, if_false]
          exact ⟨Or.inl g2, by rw [g3, hrc]; rfl⟩
        · rw [if_pos rfl, locked_pause_on_paused cfg s A r.2.2 hst (by omega)]
          simp [set_vcpu, hst, hrc]
      obtain ⟨s2, hrun, hinv2, hcnt⟩ := run_pause_resume cfg A rs s1 hfirst.1 hd1
      rw [List.countP_cons] at hP hR
      have h0 : (s2.vcpus A).resume_count = 0 := by
        rw [hfirst.2] at hcnt
        cases hb : r.1 <;> simp [hb] at hP hR hcnt <;> omega
      refine ⟨s2, ?_, h0, ?_⟩
      · simp only [pause_resume_requests, List.map_cons, run, hstep]
        exact hrun
      · rw [hst]
        exact hfin s2 h0 hinv2

/-- Witness of `pause_resume_pairing`: two pauses then two resumes of the READY VCPU 1 of
`ex_ready`, which ends READY, and of the RUNNING guest VCPU 1 of `ex_running`, current on host
CPU 0, which ends READY as well. -/
theorem pause_resume_pairing_witness :
    (∃ s1, run ex_config ex_ready (pause_resume_requests 1 ex_requests) = some s1
      ∧ (s1.vcpus 1).resume_count = 0
      ∧ (s1.vcpus 1).state
        = pairing_final_state (ex_ready.vcpus 1).state (ex_requests.map fun r => r.1))
    ∧ pairing_final_state (ex_ready.vcpus 1).state (ex_requests.map fun r => r.1)
        = VMM_VCPU_STATE_READY
    ∧ (∃ s1, run ex_config ex_running (pause_resume_requests 1 ex_requests) = some s1
      ∧ (s1.vcpus 1).resume_count = 0
      ∧ (s1.vcpus 1).state
        = pairing_final_state (ex_running.vcpus 1).state (ex_requests.map fun r => r.1))
    ∧ pairing_final_state (ex_running.vcpus 1).state (ex_requests.map fun r => r.1)
        = VMM_VCPU_STATE_READY :=
  ⟨pause_resume_pairing ex_config ex_ready 1 2 ex_requests (Or.inl rfl) rfl (by decide)
      (by decide)
      (by
        intro r hr
        simp only [ex_requests, List.mem_cons, List.mem_singleton, List.not_mem_nil,
          or_false] at hr
        rcases hr with rfl | rfl | rfl | rfl <;> decide),
    by decide,
    pause_resume_pairing ex_config ex_running 1 2 ex_requests (Or.inr (Or.inl rfl)) rfl
      (by decide) (by decide)
      (by
        intro r hr
        simp only [ex_requests, List.mem_cons, List.mem_singleton, List.not_mem_nil,
          or_false] at hr
        rcases hr with rfl | rfl | rfl | rfl <;> decide),
    by decide⟩

/-! ### C6: what an error return leaves behind -/

theorem rq_detach_snd_of_not_mem (s : System) (cpu v : Nat)
    (h : v ∉ (s.sched cpu).rq (s.vcpus v).priority) : (rq_detach s cpu v).2 = s := by
  simp [rq_detach, vmm_schedalgo_rq_detach, h, set_sched]

theorem rq_detach_error (s : System) (cpu v : Nat) (h : (rq_detach s cpu v).1 ≠ VMM_OK) :
    (rq_detach s cpu v).2 = s := by
  apply rq_detach_snd_of_not_mem
  intro hm
  rw [rq_detach_fst, if_pos hm] at h
  exact h rfl

theorem halted_error_frame (t : System) (v vhcpu : Nat) (cs : vmm_vcpu_state)
    (hrc : (state_change_halted t v vhcpu cs).rc ≠ VMM_OK) :
    (state_change_halted t v vhcpu cs).preempt = false
      ∧ (state_change_halted t v vhcpu cs).s = t := by
  unfold state_change_halted at hrc ⊢
  split
  · split
    · rw [if_pos (by assumption), if_pos (by assumption)] at hrc
      exact absurd rfl hrc
    · split
      · rw [if_pos (by assumption), if_neg (by assumption), if_pos (by assumption)] at hrc
        exact ⟨rfl, rq_detach_error t vhcpu v hrc⟩
      · exact ⟨rfl, rfl⟩
  · exact ⟨rfl, rfl⟩

theorem reset_error_frame (s : System) (v vhcpu : Nat) (cs : vmm_vcpu_state) (ext : Ext)
    (hrc : (state_change_reset s v vhcpu cs ext).rc = VMM_EINVALID ∨
      (state_change_reset s v vhcpu cs ext).rc = VMM_EFAIL)
    (hinit : ext.arch_vcpu_init ≠ VMM_EINVALID ∧ ext.arch_vcpu_init ≠ VMM_EFAIL)
    (hirq : ext.vmm_vcpu_irq_init ≠ VMM_EINVALID ∧ ext.vmm_vcpu_irq_init ≠ VMM_EFAIL) :
    (state_change_reset s v vhcpu cs ext).preempt = false
      ∧ (state_change_reset s v vhcpu cs ext).s
        = set_vcpu s v { s.vcpus v with resume_count := 0 } := by
  unfold state_change_reset at hrc ⊢
  dsimp only at hrc ⊢
  by_cases hd : (state_change_reset_detach
      (set_vcpu s v { s.vcpus v with resume_count := 0 }) v vhcpu cs).1 ≠ VMM_OK
  · rw [if_pos hd]
    refine ⟨rfl, ?_⟩
    unfold state_change_reset_detach at hd ⊢
    split
    · rw [if_pos (by assumption)] at hd
      exact rq_detach_error _ vhcpu v hd
    · rfl
  · rw [if_neg hd] at hrc
    exfalso
    dsimp only at hrc
    by_cases h1 : ext.arch_vcpu_init ≠ VMM_OK
    · rw [if_pos h1] at hrc
      rcases hrc with h | h
      · exact hinit.1 h
      · exact hinit.2 h
    · rw [if_neg h1] at hrc
      by_cases h2 : ext.vmm_vcpu_irq_init ≠ VMM_OK
      · rw [if_pos h2] at hrc
        rcases hrc with h | h
        · exact hirq.1 h
        · exact hirq.2 h
      · rw [if_neg h2] at hrc
        rcases hrc with h | h <;> exact absurd h (by decide)

theorem switch_error_frame (cfg : Config) (s : System) (v : Nat) (n : vmm_vcpu_state)
    (ext : Ext)
    (hrc : (state_change_switch cfg s v n ext).rc = VMM_EINVALID ∨
      (state_change_switch cfg s v n ext).rc = VMM_EFAIL)
    (hinit : ext.arch_vcpu_init ≠ VMM_EINVALID ∧ ext.arch_vcpu_init ≠ VMM_EFAIL)
    (hirq : ext.vmm_vcpu_irq_init ≠ VMM_EINVALID ∧ ext.vmm_vcpu_irq_init ≠ VMM_EFAIL) :
    (state_change_switch cfg s v n ext).preempt = false
      ∧ ∃ k : Int, (state_change_switch cfg s v n ext).s
        = set_vcpu s v { s.vcpus v with resume_count := k } := by
  have hself : s = set_vcpu s v { s.vcpus v with resume_count := (s.vcpus v).resume_count } :=
    (set_vcpu_self s v).symm
  have hbad : ∀ r : Rc, (r = VMM_EINVALID ∨ r = VMM_EFAIL) → r ≠ VMM_OK := by
    intro r h
    rcases h with h | h <;> rw [h] <;> decide
  have hif : ∀ (b : Bool) (k : Int), ∃ k1 : Int,
      (if b = true then set_vcpu s v { s.vcpus v with resume_count := k } else s)
        = set_vcpu s v { s.vcpus v with resume_count := k1 } := by
    intro b k
    cases b
    · exact ⟨_, hself⟩
    · exact ⟨k, rfl⟩
  cases n with
  | VMM_VCPU_STATE_UNKNOWN => exact ⟨rfl, _, hself⟩
  | VMM_VCPU_STATE_RUNNING => exact ⟨rfl, _, hself⟩
  | VMM_VCPU_STATE_HALTED =>
    obtain ⟨h1, h2⟩ := halted_error_frame s v (s.vcpus v).hcpu (s.vcpus v).state (hbad _ hrc)
    exact ⟨h1, _, h2.trans hself⟩
  | VMM_VCPU_STATE_RESET =>
    simp only [state_change_switch] at hrc ⊢
    split
    · exact ⟨rfl, _, hself⟩
    · split
      · rw [if_neg (by assumption), if_pos (by assumption)] at hrc
        obtain ⟨h1, h2⟩ := reset_error_frame s v _ _ ext hrc hinit hirq
        exact ⟨h1, _, h2⟩
      · exact ⟨rfl, _, hself⟩
  | VMM_VCPU_STATE_READY =>
    simp only [state_change_switch] at hrc ⊢
    obtain ⟨k, hk⟩ := hif (VMM_VCPU_STATE_INTERRUPTIBLE (s.vcpus v).state)
      ((s.vcpus v).resume_count + 1)
    generalize (if VMM_VCPU_STATE_INTERRUPTIBLE (s.vcpus v).state = true then
      set_vcpu s v { s.vcpus v with resume_count := (s.vcpus v).resume_count + 1 }
      else s) = s1 at hrc hk ⊢
    split
    · exact ⟨rfl, k, hk⟩
    · split
      · exact ⟨rfl, k, hk⟩
      · split
        · rw [if_neg (by assumption), if_neg (by assumption), if_pos (by assumption)] at hrc
          exact absurd (rq_enqueue_fst s1 (s.vcpus v).hcpu v) (hbad _ hrc)
        · exact ⟨rfl, k, hk⟩
  | VMM_VCPU_STATE_PAUSED =>
    simp only [state_change_switch] at hrc ⊢
    obtain ⟨k, hk⟩ := hif (VMM_VCPU_STATE_INTERRUPTIBLE (s.vcpus v).state)
      ((s.vcpus v).resume_count - 1)
    generalize (if VMM_VCPU_STATE_INTERRUPTIBLE (s.vcpus v).state = true then
      set_vcpu s v { s.vcpus v with resume_count := (s.vcpus v).resume_count - 1 }
      else s) = s1 at hrc hk ⊢
    split
    · exact ⟨rfl, k, hk⟩
    · split
      · exact ⟨rfl, k, hk⟩
      · rw [if_neg (by assumption), if_neg (by assumption)] at hrc
        obtain ⟨h1, h2⟩ := halted_error_frame s1 v (s.vcpus v).hcpu (s.vcpus v).state
          (hbad _ hrc)
        exact ⟨h1, k, h2.trans hk⟩

theorem locked_error_frame (cfg : Config) (s : System) (v : Nat) (n : vmm_vcpu_state)
    (ext : Ext)
    (hrc : (state_change_locked cfg s v n ext).rc = VMM_EINVALID ∨
      (state_change_locked cfg s v n ext).rc = VMM_EFAIL)
    (hinit : ext.arch_vcpu_init ≠ VMM_EINVALID ∧ ext.arch_vcpu_init ≠ VMM_EFAIL)
    (hirq : ext.vmm_vcpu_irq_init ≠ VMM_EINVALID ∧ ext.vmm_vcpu_irq_init ≠ VMM_EFAIL) :
    (state_change_locked cfg s v n ext).preempt = false
      ∧ ∃ k : Int, (state_change_locked cfg s v n ext).s
        = set_vcpu s v { s.vcpus v with resume_count := k } := by
  have hrcs : (state_change_locked cfg s v n ext).rc = (state_change_switch cfg s v n ext).rc := by
    unfold state_change_locked
    dsimp only
    split <;> rfl
  rw [hrcs] at hrc
  have hne : ¬ ((!(state_change_switch cfg s v n ext).skip &&
      decide ((state_change_switch cfg s v n ext).rc = VMM_OK)) = true) := by
    rcases hrc with h | h <;> simp [h]
  have heq : state_change_locked cfg s v n ext = state_change_switch cfg s v n ext := by
    unfold state_change_locked
    dsimp only
    rw [if_neg hne]
  rw [heq]
  exact switch_error_frame cfg s v n ext hrc hinit hirq

theorem only_resume_count_set (s : System) (v : Nat) (k : Int) :
    (set_vcpu s v { s.vcpus v with resume_count := k }).sched = s.sched
      ∧ (set_vcpu s v { s.vcpus v with resume_count := k }).cpu_online = s.cpu_online
      ∧ (set_vcpu s v { s.vcpus v with resume_count := k }).trace = s.trace
      ∧ (∀ w, w ≠ v → (set_vcpu s v { s.vcpus v with resume_count := k }).vcpus w = s.vcpus w)
      ∧ (set_vcpu s v { s.vcpus v with resume_count := k }).vcpus v =
        { s.vcpus v with resume_count :=
          ((set_vcpu s v { s.vcpus v with resume_count := k }).vcpus v).resume_count } := by
  refine ⟨rfl, rfl, rfl, fun w hw => ?_, ?_⟩
  · simp [set_vcpu, Function.update_apply, hw]
  · simp [set_vcpu]

theorem state_change_preempt_rc (cfg : Config) (t : System) (chcpu vhcpu c : Nat)
    (rc0 rc : Rc) (ext : Ext) (s1 : System)
    (h : state_change_preempt cfg t chcpu vhcpu c rc0 ext = some (rc, s1))
    (hcpu : vhcpu < cfg.CONFIG_CPU_COUNT) :
    rc = rc0 ∨ rc = VMM_ENOTAVAIL ∨ rc = VMM_OK := by
  unfold state_change_preempt at h
  split at h
  · split at h
    · simp only [Option.some.injEq, Prod.mk.injEq] at h
      exact Or.inl h.1.symm
    · split at h
      · split at h
        · exact absurd h (by simp)
        · simp only [Option.some.injEq, Prod.mk.injEq] at h
          exact Or.inl h.1.symm
      · split at h
        · exact absurd h (by simp)
        · simp only [Option.some.injEq, Prod.mk.injEq] at h
          exact Or.inl h.1.symm
  · have hn : ¬ cfg.CONFIG_CPU_COUNT ≤ vhcpu := by omega
    unfold vmm_scheduler_force_resched at h
    rw [if_neg hn] at h
    split at h
    · simp only [Option.some.injEq, Prod.mk.injEq] at h
      exact Or.inr (Or.inl h.1.symm)
    · simp only [Option.some.injEq, Prod.mk.injEq] at h
      exact Or.inr (Or.inr h.1.symm)

/-- C6 (as stated, refuted): a PAUSED request on the PAUSED VCPU 1 (resume count -1) returns
`VMM_EINVALID` and yet lowers `resume_count` to -2. -/
theorem state_change_error_side_effect_counterexample :
    (ex_paused.vcpus 1).resume_count = -1
      ∧ ∃ s1, vmm_scheduler_state_change ex_config ex_paused 0 (some 1) VMM_VCPU_STATE_PAUSED
          (ex_ext 10) = some (VMM_EINVALID, s1)
        ∧ (s1.vcpus 1).resume_count = -2 := by
  refine ⟨by decide, _, rfl, by decide⟩

/-- C6 (amended): a null VCPU pointer gives `VMM_EFAIL` and changes nothing; and when
`vmm_scheduler_state_change(v, n)` returns `VMM_EINVALID` or `VMM_EFAIL` (the failure not
coming from `arch_vcpu_init` or `vmm_vcpu_irq_init`, and `v.hcpu` being a valid CPU index),
every control block (so every ready queue), the online map, the trace, every other VCPU and
every field of `v` other than `resume_count` (state, reset count, accounting buckets, time
stamps) are exactly as before the call. -/
theorem state_change_error_frame (cfg : Config) (s : System) (chcpu v : Nat)
    (n : vmm_vcpu_state) (ext : Ext) (rc : Rc) (s1 : System)
    (hcall : vmm_scheduler_state_change cfg s chcpu (some v) n ext = some (rc, s1))
    (hrc : rc = VMM_EINVALID ∨ rc = VMM_EFAIL)
    (hinit : ext.arch_vcpu_init ≠ VMM_EINVALID ∧ ext.arch_vcpu_init ≠ VMM_EFAIL)
    (hirq : ext.vmm_vcpu_irq_init ≠ VMM_EINVALID ∧ ext.vmm_vcpu_irq_init ≠ VMM_EFAIL)
    (hcpu : (s.vcpus v).hcpu < cfg.CONFIG_CPU_COUNT) :
    vmm_scheduler_state_change cfg s chcpu none n ext = some (VMM_EFAIL, s)
      ∧ s1.sched = s.sched ∧ s1.cpu_online = s.cpu_online ∧ s1.trace = s.trace
      ∧ (∀ w, w ≠ v → s1.vcpus w = s.vcpus w)
      ∧ s1.vcpus v = { s.vcpus v with resume_count := (s1.vcpus v).resume_count } := by
  refine ⟨rfl, ?_⟩
  have hbad : ∀ r : Rc, (r = VMM_EINVALID ∨ r = VMM_EFAIL) →
      r ≠ VMM_ENOTAVAIL ∧ r ≠ VMM_OK := by
    intro r h
    rcases h with h | h <;> rw [h] <;> exact ⟨by decide, by decide⟩
  have key : rc = (state_change_locked cfg s v n ext).rc
      ∧ s1 = (state_change_locked cfg s v n ext).s := by
    unfold vmm_scheduler_state_change at hcall
    dsimp only at hcall
    by_cases hp : (state_change_locked cfg s v n ext).preempt = true
    · exfalso
      have hnb : ¬ ((state_change_locked cfg s v n ext).rc = VMM_EINVALID ∨
          (state_change_locked cfg s v n ext).rc = VMM_EFAIL) := by
        intro hb
        have := (locked_error_frame cfg s v n ext hb hinit hirq).1
        rw [hp] at this
        exact absurd this (by decide)
      rw [if_pos hp] at hcall
      cases hc : ((state_change_locked cfg s v n ext).s.sched (s.vcpus v).hcpu).current_vcpu with
      | none =>
        rw [hc] at hcall
        simp only [Option.some.injEq, Prod.mk.injEq] at hcall
        exact hnb (hcall.1 ▸ hrc)
      | some c =>
        rw [hc] at hcall
        rcases state_change_preempt_rc cfg _ chcpu _ c _ rc ext s1 hcall hcpu with h | h | h
        · exact hnb (h ▸ hrc)
        · exact (hbad rc hrc).1 h
        · exact (hbad rc hrc).2 h
    · rw [if_neg hp] at hcall
      simp only [Option.some.injEq, Prod.mk.injEq] at hcall
      exact ⟨hcall.1.symm, hcall.2.symm⟩
  obtain ⟨hk1, hk2⟩ := key
  obtain ⟨_, k, hk⟩ := locked_error_frame cfg s v n ext (hk1 ▸ hrc) hinit hirq
  rw [hk2, hk]
  exact only_resume_count_set s v k

/-- Witness of `state_change_error_frame`: the rejected PAUSED request on the PAUSED VCPU 1. -/
theorem state_change_error_frame_witness :
    vmm_scheduler_state_change ex_config ex_paused 0 none VMM_VCPU_STATE_PAUSED (ex_ext 10)
        = some (VMM_EFAIL, ex_paused)
      ∧ (set_vcpu ex_paused 1 (ex_vcpu VMM_VCPU_STATE_PAUSED (-2))).sched = ex_paused.sched
      ∧ (set_vcpu ex_paused 1 (ex_vcpu VMM_VCPU_STATE_PAUSED (-2))).cpu_online
        = ex_paused.cpu_online
      ∧ (set_vcpu ex_paused 1 (ex_vcpu VMM_VCPU_STATE_PAUSED (-2))).trace = ex_paused.trace
      ∧ (∀ w, w ≠ 1 → (set_vcpu ex_paused 1 (ex_vcpu VMM_VCPU_STATE_PAUSED (-2))).vcpus w
        = ex_paused.vcpus w)
      ∧ (set_vcpu ex_paused 1 (ex_vcpu VMM_VCPU_STATE_PAUSED (-2))).vcpus 1 =
        { ex_paused.vcpus 1 with resume_count :=
          ((set_vcpu ex_paused 1 (ex_vcpu VMM_VCPU_STATE_PAUSED (-2))).vcpus 1).resume_count } :=
  state_change_error_frame ex_config ex_paused 0 1 VMM_VCPU_STATE_PAUSED (ex_ext 10)
    VMM_EINVALID (set_vcpu ex_paused 1 (ex_vcpu VMM_VCPU_STATE_PAUSED (-2)))
    (by simp [vmm_scheduler_state_change, state_change_locked, state_change_switch,
      state_change_halted, VMM_VCPU_STATE_INTERRUPTIBLE, ex_paused, ex_system, ex_vcpu, set_vcpu])
    (Or.inl rfl) (by decide) (by decide) (by decide)

/-! ### C7: the resume count of a VCPU in RESET -/

theorem reset_vcpus_resume_count (s : System) (v vhcpu : Nat) (cs : vmm_vcpu_state) (ext : Ext) :
    ((state_change_reset s v vhcpu cs ext).s.vcpus v).resume_count = 0 := by
  unfold state_change_reset state_change_reset_detach
  dsimp only
  split <;> split <;> simp [set_vcpu, rq_detach_vcpus]

theorem reset_vcpus_state (s : System) (v vhcpu : Nat) (cs : vmm_vcpu_state) (ext : Ext) :
    ((state_change_reset s v vhcpu cs ext).s.vcpus v).state = (s.vcpus v).state := by
  unfold state_change_reset state_change_reset_detach
  dsimp only
  split <;> split <;> simp [set_vcpu, rq_detach_vcpus]

theorem halted_vcpus (t : System) (v vhcpu : Nat) (cs : vmm_vcpu_state) :
    (state_change_halted t v vhcpu cs).s.vcpus = t.vcpus := by
  unfold state_change_halted
  split
  · split
    · rfl
    · split <;> rfl
  · rfl

/-- The `switch` statement never writes the state of the VCPU. -/
theorem switch_vcpus_state (cfg : Config) (s : System) (v : Nat) (n : vmm_vcpu_state)
    (ext : Ext) :
    ((state_change_switch cfg s v n ext).s.vcpus v).state = (s.vcpus v).state := by
  have hif : ∀ (b : Bool) (k : Int),
      ((if b = true then set_vcpu s v { s.vcpus v with resume_count := k } else s).vcpus
        v).state = (s.vcpus v).state := by
    intro b k
    cases b <;> simp [set_vcpu]
  cases n with
  | VMM_VCPU_STATE_UNKNOWN => rfl
  | VMM_VCPU_STATE_RUNNING => rfl
  | VMM_VCPU_STATE_HALTED =>
    simp only [state_change_switch, halted_vcpus]
  | VMM_VCPU_STATE_RESET =>
    simp only [state_change_switch]
    split
    · rfl
    · split
      · exact reset_vcpus_state s v _ _ ext
      · rfl
  | VMM_VCPU_STATE_READY =>
    simp only [state_change_switch]
    have := hif (VMM_VCPU_STATE_INTERRUPTIBLE (s.vcpus v).state) ((s.vcpus v).resume_count + 1)
    generalize (if VMM_VCPU_STATE_INTERRUPTIBLE (s.vcpus v).state = true then
      set_vcpu s v { s.vcpus v with resume_count := (s.vcpus v).resume_count + 1 }
      else s) = s1 at this ⊢
    split
    · exact this
    · split
      · exact this
      · split
        · exact this
        · exact this
  | VMM_VCPU_STATE_PAUSED =>
    simp only [state_change_switch]
    have := hif (VMM_VCPU_STATE_INTERRUPTIBLE (s.vcpus v).state) ((s.vcpus v).resume_count - 1)
    generalize (if VMM_VCPU_STATE_INTERRUPTIBLE (s.vcpus v).state = true then
      set_vcpu s v { s.vcpus v with resume_count := (s.vcpus v).resume_count - 1 }
      else s) = s1 at this ⊢
    split
    · exact this
    · split
      · exact this
      · rw [halted_vcpus]; exact this

/-- On a VCPU that is UNKNOWN or in RESET the `switch` statement leaves the resume count. -/
theorem switch_vcpus_resume_count (cfg : Config) (s : System) (v : Nat) (n : vmm_vcpu_state)
    (ext : Ext)
    (hst : (s.vcpus v).state = VMM_VCPU_STATE_UNKNOWN ∨
      (s.vcpus v).state = VMM_VCPU_STATE_RESET) :
    ((state_change_switch cfg s v n ext).s.vcpus v).resume_count = (s.vcpus v).resume_count := by
  have hni : VMM_VCPU_STATE_INTERRUPTIBLE (s.vcpus v).state = false := by
    rcases hst with h | h <;> rw [h] <;> rfl
  cases n with
  | VMM_VCPU_STATE_UNKNOWN => rfl
  | VMM_VCPU_STATE_RUNNING => rfl
  | VMM_VCPU_STATE_HALTED =>
    simp only [state_change_switch, halted_vcpus]
  | VMM_VCPU_STATE_RESET =>
    rcases hst with h | h <;> simp [state_change_switch, h]
  | VMM_VCPU_STATE_READY =>
    simp only [state_change_switch, hni]
    simp only [Bool.false_eq_true, if_false, false_and]
    split
    · rfl
    · split <;> rfl
  | VMM_VCPU_STATE_PAUSED =>
    simp only [state_change_switch, hni]
    simp only [Bool.false_eq_true, if_false, false_and, halted_vcpus]

theorem locked_vcpus_resume_count (cfg : Config) (s : System) (v : Nat) (n : vmm_vcpu_state)
    (ext : Ext) :
    ((state_change_locked cfg s v n ext).s.vcpus v).resume_count
      = ((state_change_switch cfg s v n ext).s.vcpus v).resume_count := by
  unfold state_change_locked
  dsimp only
  split
  · exact account_resume_count _ _ _ _ _
  · rfl

theorem locked_vcpus_state (cfg : Config) (s : System) (v : Nat) (n : vmm_vcpu_state)
    (ext : Ext) :
    ((state_change_locked cfg s v n ext).s.vcpus v).state = n
      ∨ ((state_change_locked cfg s v n ext).s.vcpus v).state = (s.vcpus v).state := by
  unfold state_change_locked
  dsimp only
  split
  · exact Or.inl (account_state _ _ _ _ _)
  · exact Or.inr (switch_vcpus_state cfg s v n ext)

/-- The locked part of a request other than UNKNOWN keeps "UNKNOWN or RESET implies resume
count 0" on the VCPU it is made on. -/
theorem locked_reset_inv (cfg : Config) (s : System) (v : Nat) (n : vmm_vcpu_state) (ext : Ext)
    (hn : n ≠ VMM_VCPU_STATE_UNKNOWN)
    (hinv : (s.vcpus v).state = VMM_VCPU_STATE_UNKNOWN ∨
      (s.vcpus v).state = VMM_VCPU_STATE_RESET → (s.vcpus v).resume_count = 0)
    (hst : ((state_change_locked cfg s v n ext).s.vcpus v).state = VMM_VCPU_STATE_UNKNOWN ∨
      ((state_change_locked cfg s v n ext).s.vcpus v).state = VMM_VCPU_STATE_RESET) :
    ((state_change_locked cfg s v n ext).s.vcpus v).resume_count = 0 := by
  rw [locked_vcpus_resume_count]
  by_cases hold : (s.vcpus v).state = VMM_VCPU_STATE_UNKNOWN ∨
      (s.vcpus v).state = VMM_VCPU_STATE_RESET
  · rw [switch_vcpus_resume_count cfg s v n ext hold]
    exact hinv hold
  · have hnew : ((state_change_locked cfg s v n ext).s.vcpus v).state = n := by
      rcases locked_vcpus_state cfg s v n ext with h | h
      · exact h
      · rw [h] at hst; exact absurd hst hold
    rw [hnew] at hst
    have hnr : n = VMM_VCPU_STATE_RESET := by
      rcases hst with h | h
      · exact absurd h hn
      · exact h
    subst hnr
    have h1 : ¬ (s.vcpus v).state = VMM_VCPU_STATE_UNKNOWN := fun h => hold (Or.inl h)
    have h2 : (s.vcpus v).state ≠ VMM_VCPU_STATE_RESET := fun h => hold (Or.inr h)
    simp only [state_change_switch, if_neg h1, if_pos h2]
    exact reset_vcpus_resume_count s v _ _ ext

theorem switched_only_refl (s : System) : switched_only s s := fun _ => ⟨rfl, Or.inl rfl⟩

theorem switched_only_of_vcpus {s s1 : System} (h : s1.vcpus = s.vcpus) : switched_only s s1 := by
  intro w
  rw [h]
  exact ⟨rfl, Or.inl rfl⟩

theorem switched_only_trans {s s1 s2 : System} (h1 : switched_only s s1)
    (h2 : switched_only s1 s2) : switched_only s s2 := by
  intro w
  obtain ⟨a1, b1⟩ := h1 w
  obtain ⟨a2, b2⟩ := h2 w
  refine ⟨a2.trans a1, ?_⟩
  rcases b2 with h | h | h
  · rw [h]; exact b1
  · exact Or.inr (Or.inl h)
  · exact Or.inr (Or.inr h)

theorem switched_only_set_vcpu {s t : System} (h : switched_only s t) (v : Nat) (x : vmm_vcpu)
    (h1 : x.resume_count = (t.vcpus v).resume_count)
    (h2 : x.state = VMM_VCPU_STATE_READY ∨ x.state = VMM_VCPU_STATE_RUNNING) :
    switched_only s (set_vcpu t v x) := by
  refine switched_only_trans h (fun w => ?_)
  rw [set_vcpu_vcpus]
  split
  · next hw => subst hw; exact ⟨h1, Or.inr h2⟩
  · exact ⟨rfl, Or.inl rfl⟩

theorem switched_only_install_next {s t : System} (h : switched_only s t)
    (cpu next slice tstamp : Nat) : switched_only s (install_next t cpu next slice tstamp) := by
  refine switched_only_trans h (fun w => ?_)
  simp only [install_next, emit, set_sched, set_vcpu, Function.update_apply]
  split
  · next hw => subst hw; exact ⟨rfl, Or.inr (Or.inr rfl)⟩
  · exact ⟨rfl, Or.inl rfl⟩

theorem switched_only_save_current (s : System) (cpu current tstamp : Nat) :
    switched_only s (save_current s cpu current tstamp).1 := by
  unfold save_current
  dsimp only
  split
  · split
    · intro w
      simp only [rq_enqueue, set_sched, set_vcpu, Function.update_apply]
      split
      · next hw => subst hw; exact ⟨rfl, Or.inr (Or.inl rfl)⟩
      · exact ⟨rfl, Or.inl rfl⟩
    · exact switched_only_refl s
  · exact switched_only_refl s

theorem rq_dequeue_vcpus (cfg : Config) (s : System) (cpu next slice : Nat) (s1 : System)
    (h : rq_dequeue cfg s cpu = some (next, slice, s1)) : s1.vcpus = s.vcpus := by
  unfold rq_dequeue at h
  split at h
  · exact absurd h (by simp)
  · simp only [Option.some.injEq, Prod.mk.injEq] at h
    rw [← h.2.2]
    rfl

theorem switched_only_next (cfg : Config) (s : System) (cpu : Nat) (regs : Option Nat)
    (tstamp : Nat) (s1 : System) (h : vmm_scheduler_next cfg s cpu regs tstamp = some s1) :
    switched_only s s1 := by
  unfold vmm_scheduler_next at h
  split at h
  · split at h
    · exact absurd h (by simp)
    · next next slice t hdq =>
      simp only [Option.some.injEq] at h
      rw [← h]
      have hv : (emit t (Call.arch_vcpu_switch none next regs)).vcpus = s.vcpus :=
        rq_dequeue_vcpus cfg s cpu next slice t hdq
      exact switched_only_install_next (switched_only_of_vcpus hv) cpu next slice tstamp
  · next current _ =>
    dsimp only at h
    split at h
    · exact absurd h (by simp)
    · next next slice t hdq =>
      simp only [Option.some.injEq] at h
      rw [← h]
      have hv := rq_dequeue_vcpus cfg _ cpu next slice t hdq
      refine switched_only_install_next ?_ cpu next slice tstamp
      refine switched_only_trans (switched_only_save_current s cpu current tstamp) ?_
      split
      · exact switched_only_of_vcpus hv
      · exact switched_only_of_vcpus hv

theorem switched_only_switch (cfg : Config) (s : System) (cpu : Nat) (regs : Option Nat)
    (tstamp : Nat) (s1 : System) (h : vmm_scheduler_switch cfg s cpu regs tstamp = some s1) :
    switched_only s s1 := by
  unfold vmm_scheduler_switch at h
  split at h
  · exact absurd h (by simp)
  · split at h
    · split at h
      · exact switched_only_next cfg s cpu _ tstamp s1 h
      · simp only [Option.some.injEq] at h
        rw [← h]
        exact switched_only_of_vcpus rfl
    · exact switched_only_next cfg s cpu _ tstamp s1 h

theorem switched_only_timer_event (cfg : Config) (s : System) (cpu tstamp : Nat) (s1 : System)
    (h : scheduler_timer_event cfg s cpu tstamp = some s1) : switched_only s s1 := by
  unfold scheduler_timer_event at h
  split at h
  · exact switched_only_switch cfg s cpu _ tstamp s1 h
  · simp only [Option.some.injEq] at h
    rw [← h]
    exact switched_only_refl s

theorem switched_only_arch_preempt (cfg : Config) (t : System) (cpu tstamp : Nat)
    (t1 : System) (h : arch_vcpu_preempt_orphan cfg t cpu tstamp = some t1) :
    switched_only t t1 :=
  switched_only_trans (fun _ => ⟨rfl, Or.inl rfl⟩)
    (switched_only_switch cfg (emit t (Call.arch_vcpu_preempt_orphan cpu)) cpu (some 0) tstamp
      t1 h)

theorem switched_only_preempt (cfg : Config) (t : System) (chcpu vhcpu c : Nat) (rc0 rc : Rc)
    (ext : Ext) (s1 : System)
    (h : state_change_preempt cfg t chcpu vhcpu c rc0 ext = some (rc, s1)) :
    switched_only t s1 := by
  unfold state_change_preempt at h
  split at h
  · split at h
    · simp only [Option.some.injEq, Prod.mk.injEq] at h
      rw [← h.2]
      exact switched_only_of_vcpus rfl
    · split at h
      · split at h
        · exact absurd h (by simp)
        · next t1 hsw =>
          simp only [Option.some.injEq, Prod.mk.injEq] at h
          rw [← h.2]
          exact switched_only_switch cfg t vhcpu _ _ t1 hsw
      · split at h
        · exact absurd h (by simp)
        · next t1 hsw =>
          simp only [Option.some.injEq, Prod.mk.injEq] at h
          rw [← h.2]
          exact switched_only_arch_preempt cfg t chcpu _ t1 hsw
  · unfold vmm_scheduler_force_resched at h
    split at h
    · simp only [Option.some.injEq, Prod.mk.injEq] at h
      rw [← h.2]
      exact switched_only_refl t
    · split at h
      · simp only [Option.some.injEq, Prod.mk.injEq] at h
        rw [← h.2]
        exact switched_only_refl t
      · simp only [Option.some.injEq, Prod.mk.injEq] at h
        rw [← h.2]
        exact switched_only_of_vcpus rfl

/-- A state change that returns ends in a state that differs from the one left by its locked
part at most as a scheduler switch allows. -/
theorem switched_only_after_locked (cfg : Config) (s : System) (chcpu v : Nat)
    (n : vmm_vcpu_state) (ext : Ext) (rc : Rc) (s1 : System)
    (h : vmm_scheduler_state_change cfg s chcpu (some v) n ext = some (rc, s1)) :
    switched_only (state_change_locked cfg s v n ext).s s1 := by
  unfold vmm_scheduler_state_change at h
  dsimp only at h
  split at h
  · next c _ => exact switched_only_preempt cfg _ chcpu _ c _ rc ext s1 h
  · simp only [Option.some.injEq, Prod.mk.injEq] at h
    rw [← h.2]
    exact switched_only_refl _

theorem other_set_vcpu {t : System} {u v : Nat} {a : vmm_vcpu} (h : t.vcpus u = a)
    (hu : u ≠ v) (x : vmm_vcpu) : (set_vcpu t v x).vcpus u = a := by
  rw [set_vcpu_vcpus, if_neg hu]
  exact h

theorem other_rq_detach {t : System} {u : Nat} {a : vmm_vcpu} (h : t.vcpus u = a)
    (cpu v : Nat) : (rq_detach t cpu v).2.vcpus u = a := h

theorem other_rq_enqueue {t : System} {u : Nat} {a : vmm_vcpu} (h : t.vcpus u = a)
    (cpu v : Nat) : (rq_enqueue t cpu v).2.vcpus u = a := h

theorem other_halted {t : System} {u : Nat} {a : vmm_vcpu} (h : t.vcpus u = a)
    (v vhcpu : Nat) (cs : vmm_vcpu_state) : (state_change_halted t v vhcpu cs).s.vcpus u = a := by
  rw [halted_vcpus]
  exact h

theorem other_account {t : System} {u v : Nat} {a : vmm_vcpu} (h : t.vcpus u = a)
    (hu : u ≠ v) (cs n : vmm_vcpu_state) (tstamp : Nat) :
    (state_change_account t v cs n tstamp).vcpus u = a := by
  unfold state_change_account
  exact other_set_vcpu h hu _

theorem other_reset (s : System) {u v : Nat} (hu : u ≠ v) (vhcpu : Nat) (cs : vmm_vcpu_state)
    (ext : Ext) : (state_change_reset s v vhcpu cs ext).s.vcpus u = s.vcpus u := by
  unfold state_change_reset state_change_reset_detach
  dsimp only
  repeat' first
    | exact rfl
    | refine other_set_vcpu ?_ hu _
    | refine other_rq_detach ?_ _ _
    | split

theorem other_switch (cfg : Config) (s : System) {u v : Nat} (hu : u ≠ v)
    (n : vmm_vcpu_state) (ext : Ext) :
    (state_change_switch cfg s v n ext).s.vcpus u = s.vcpus u := by
  cases n <;> simp only [state_change_switch] <;>
  repeat' first
    | exact rfl
    | exact other_reset s hu _ _ ext
    | refine other_halted ?_ _ _ _
    | refine other_set_vcpu ?_ hu _
    | refine other_rq_enqueue ?_ _ _
    | split

/-- The locked part of a state change of `v` writes no other VCPU. -/
theorem other_locked (cfg : Config) (s : System) {u v : Nat} (hu : u ≠ v)
    (n : vmm_vcpu_state) (ext : Ext) :
    (state_change_locked cfg s v n ext).s.vcpus u = s.vcpus u := by
  unfold state_change_locked
  dsimp only
  split
  · exact other_account (other_switch cfg s hu n ext) hu _ _ _
  · exact other_switch cfg s hu n ext

/-- One event other than a destroy request for `v` keeps "UNKNOWN or RESET implies resume
count 0" on `v`. -/
theorem step_reset_inv (cfg : Config) (v : Nat) (s s1 : System) (e : Event)
    (he : no_destroy v e = true) (hstep : step cfg s e = some s1)
    (hinv : (s.vcpus v).state = VMM_VCPU_STATE_UNKNOWN ∨
      (s.vcpus v).state = VMM_VCPU_STATE_RESET → (s.vcpus v).resume_count = 0) :
    (s1.vcpus v).state = VMM_VCPU_STATE_UNKNOWN ∨
      (s1.vcpus v).state = VMM_VCPU_STATE_RESET → (s1.vcpus v).resume_count = 0 := by
  have hsw : ∀ t : System, switched_only t s1 →
      ((t.vcpus v).state = VMM_VCPU_STATE_UNKNOWN ∨
        (t.vcpus v).state = VMM_VCPU_STATE_RESET → (t.vcpus v).resume_count = 0) →
      ((s1.vcpus v).state = VMM_VCPU_STATE_UNKNOWN ∨
        (s1.vcpus v).state = VMM_VCPU_STATE_RESET → (s1.vcpus v).resume_count = 0) := by
    intro t ht hti h1
    obtain ⟨a, b⟩ := ht v
    rw [a]
    rcases b with b | b | b
    · rw [b] at h1; exact hti h1
    · rw [b] at h1; rcases h1 with h | h <;> exact absurd h (by decide)
    · rw [b] at h1; rcases h1 with h | h <;> exact absurd h (by decide)
  cases e with
  | tick cpu tstamp => exact hsw s (switched_only_timer_event cfg s cpu tstamp s1 hstep) hinv
  | preempt_orphan cpu regs tstamp =>
    exact hsw s (switched_only_switch cfg s cpu regs tstamp s1 hstep) hinv
  | state_change chcpu w n ext =>
    simp only [step, Option.map_eq_some'] at hstep
    obtain ⟨⟨rc, s2⟩, hcall, hs2⟩ := hstep
    simp only at hs2
    subst hs2
    refine hsw _ (switched_only_after_locked cfg s chcpu w n ext rc s2 hcall) ?_
    by_cases hw : w = v
    · subst hw
      have hn : n ≠ VMM_VCPU_STATE_UNKNOWN := by
        intro h
        simp [no_destroy, h] at he
      exact locked_reset_inv cfg s w n ext hn hinv
    · have hu : v ≠ w := fun h => hw h.symm
      rw [other_locked cfg s hu n ext]
      exact hinv

theorem run_reset_inv (cfg : Config) (v : Nat) (evs : List Event) :
    ∀ s s1 : System, (∀ e ∈ evs, no_destroy v e = true) → run cfg s evs = some s1 →
      ((s.vcpus v).state = VMM_VCPU_STATE_UNKNOWN ∨
        (s.vcpus v).state = VMM_VCPU_STATE_RESET → (s.vcpus v).resume_count = 0) →
      ((s1.vcpus v).state = VMM_VCPU_STATE_UNKNOWN ∨
        (s1.vcpus v).state = VMM_VCPU_STATE_RESET → (s1.vcpus v).resume_count = 0) := by
  induction evs with
  | nil =>
    intro s s1 _ hrun hinv
    simp only [run, Option.some.injEq] at hrun
    rw [← hrun]
    exact hinv
  | cons e es ih =>
    intro s s1 hev hrun hinv
    simp only [run] at hrun
    split at hrun
    · exact absurd hrun (by simp)
    · next s2 hs2 =>
      exact ih s2 s1 (fun x hx => hev x (List.mem_cons_of_mem _ hx)) hrun
        (step_reset_inv cfg v s s2 e (hev e (List.mem_cons_self _ _)) hs2 hinv)

/-- C7 (as stated, refuted): from a fresh VCPU (UNKNOWN, resume count 0) the five state changes
RESET, READY, READY, UNKNOWN, RESET, with every hook succeeding, end in state RESET with resume
count 1. -/
theorem reset_resume_count_counterexample :
    (ex_init.vcpus 1).state = VMM_VCPU_STATE_UNKNOWN ∧ (ex_init.vcpus 1).resume_count = 0
      ∧ ∃ s1, run ex_config ex_init
          [Event.state_change 0 1 VMM_VCPU_STATE_RESET (ex_ext 10),
           Event.state_change 0 1 VMM_VCPU_STATE_READY (ex_ext 20),
           Event.state_change 0 1 VMM_VCPU_STATE_READY (ex_ext 30),
           Event.state_change 0 1 VMM_VCPU_STATE_UNKNOWN (ex_ext 40),
           Event.state_change 0 1 VMM_VCPU_STATE_RESET (ex_ext 50)] = some s1
        ∧ (s1.vcpus 1).state = VMM_VCPU_STATE_RESET ∧ (s1.vcpus 1).resume_count = 1 := by
  refine ⟨rfl, rfl, _, rfl, by decide, by decide⟩

/-- C7 (amended): in every state reached from a state in which the VCPU `v` has resume count
0 (in particular from a fresh VCPU) by a finite sequence of state changes (of any VCPU,
whatever the hooks return) and scheduler switches that contains no destroy request (a state
change to UNKNOWN) for `v`, `v.state == RESET` implies `v.resume_count == 0`. -/
theorem reset_implies_resume_count_zero (cfg : Config) (s0 s : System) (v : Nat)
    (evs : List Event)
    (hrc0 : (s0.vcpus v).resume_count = 0)
    (hev : ∀ e ∈ evs, no_destroy v e = true)
    (hrun : run cfg s0 evs = some s)
    (hreset : (s.vcpus v).state = VMM_VCPU_STATE_RESET) :
    (s.vcpus v).resume_count = 0 :=
  run_reset_inv cfg v evs s0 s hev hrun (fun _ => hrc0) (Or.inr hreset)

/-- Witness of `reset_implies_resume_count_zero`: the fresh VCPU 1 is set up, kicked, resumed
once more (resume count 1) and reset again. -/
theorem reset_implies_resume_count_zero_witness :
    (ex_init.vcpus 1).state = VMM_VCPU_STATE_UNKNOWN
      ∧ run ex_config ex_init ex_reset_events = some ex_reset_final
      ∧ (ex_reset_final.vcpus 1).state = VMM_VCPU_STATE_RESET
      ∧ (ex_reset_final.vcpus 1).resume_count = 0 :=
  ⟨rfl, rfl, by decide,
    reset_implies_resume_count_zero ex_config ex_init ex_reset_final 1 ex_reset_events rfl
      (by
        intro e he
        simp only [ex_reset_events, List.mem_cons, List.mem_singleton, List.not_mem_nil,
          or_false] at he
        rcases he with rfl | rfl | rfl | rfl <;> rfl)
      rfl (by decide)⟩

/-! ### C8 and C9: a current VCPU that was resumed before the switch -/

/-- C8 (code defect, evaluated): from the initial system, VCPU 1 is set up, kicked, made
current by the tick, then paused and resumed before any further switch; it is now READY,
current and on the ready queue of host CPU 0.  A RESET request then succeeds without detaching
it (the detach is guarded by "not the current VCPU"): VCPU 1 is in state RESET and still on the
ready queue, and the next tick dequeues it and makes it RUNNING. -/
theorem reset_leaves_current_vcpu_on_ready_queue :
    ∃ s1 s2 s3, run ex_config (ex_in_irq ex_init) ex_resumed_while_current = some s1
      ∧ (s1.vcpus 1).state = VMM_VCPU_STATE_READY ∧ (s1.sched 0).current_vcpu = some 1
      ∧ (s1.sched 0).rq 5 = [1]
      ∧ vmm_scheduler_state_change ex_config s1 0 (some 1) VMM_VCPU_STATE_RESET (ex_ext 60)
          = some (VMM_OK, s2)
      ∧ (s2.vcpus 1).state = VMM_VCPU_STATE_RESET ∧ 1 ∈ (s2.sched 0).rq 5
      ∧ scheduler_timer_event ex_config s2 0 70 = some s3
      ∧ (s3.vcpus 1).state = VMM_VCPU_STATE_RUNNING := by
  refine ⟨_, _, _, rfl, by decide, by decide, by decide, rfl, by decide, by decide, rfl,
    by decide⟩

/-- C9 (code defect, evaluated): in the same reachable state (VCPU 1 READY, current and on the
ready queue of host CPU 0) a PAUSED request, and likewise a HALTED request, returns OK and
writes the requested state but only marks the VCPU for preemption: it is not detached and
stays on the ready queue. -/
theorem pause_leaves_current_vcpu_on_ready_queue :
    ∃ s1 s2 s3, run ex_config (ex_in_irq ex_init) ex_resumed_while_current = some s1
      ∧ vmm_scheduler_state_change ex_config s1 0 (some 1) VMM_VCPU_STATE_PAUSED (ex_ext 60)
          = some (VMM_OK, s2)
      ∧ (s2.vcpus 1).state = VMM_VCPU_STATE_PAUSED ∧ 1 ∈ (s2.sched 0).rq 5
      ∧ vmm_scheduler_state_change ex_config s1 0 (some 1) VMM_VCPU_STATE_HALTED (ex_ext 60)
          = some (VMM_OK, s3)
      ∧ (s3.vcpus 1).state = VMM_VCPU_STATE_HALTED ∧ 1 ∈ (s3.sched 0).rq 5 := by
  refine ⟨_, _, _, rfl, rfl, by decide, by decide, rfl, by decide, by decide⟩

/-! ### C11: the tick at the end of a slice -/

theorem highest_band_eq (rq : Rq) (p : Nat) (hp : rq p ≠ []) :
    ∀ m, p ≤ m → (∀ q, p < q → q ≤ m → rq q = []) → highest_band rq m = some p := by
  intro m
  induction m with
  | zero =>
    intro hle _
    have : p = 0 := by omega
    subst this
    simp [highest_band, hp]
  | succ m ih =>
    intro hle habove
    by_cases h : p = m + 1
    · subst h
      cases m <;> simp [highest_band, hp]
    · have hlt : p < m + 1 := by omega
      have hemp : rq (m + 1) = [] := habove (m + 1) hlt (Nat.le_refl _)
      simp only [highest_band, hemp, if_true]
      exact ih (by omega) (fun q h1 h2 => habove q h1 (by omega))

/-- C11 (as stated, refuted): VCPU 1 (priority 5, RUNNING, preemption enabled) is current on
host CPU 0 and the ready queue holds only the idle orphan (priority 0).  The tick makes no
switch to the idle VCPU: afterwards VCPU 1 is still the current VCPU and RUNNING, and the
priority-5 band has length 0, not 1. -/
theorem slice_rollover_counterexample :
    (ex_slice_expired.sched 0).current_vcpu = some 1
      ∧ (ex_slice_expired.vcpus 1).state = VMM_VCPU_STATE_RUNNING
      ∧ (ex_slice_expired.vcpus 1).priority = 5
      ∧ (ex_slice_expired.vcpus 1).preempt_count = 0
      ∧ (ex_slice_expired.sched 0).rq 0 = [0]
      ∧ (ex_slice_expired.vcpus 0).priority = 0
      ∧ ∃ s1, scheduler_timer_event ex_config ex_slice_expired 0 100000000 = some s1
        ∧ (s1.sched 0).current_vcpu = some 1
        ∧ (s1.vcpus 1).state = VMM_VCPU_STATE_RUNNING
        ∧ rq_length s1 0 5 = 0 := by
  refine ⟨rfl, rfl, rfl, rfl, rfl, rfl, _, rfl, by decide, by decide, by decide⟩

/-- C11 (amended): for a host CPU whose current VCPU `A` is RUNNING with preemption enabled
and a priority above 0 and within the maximum (priority 5 in particular), and whose ready queue
holds only the idle VCPU in band 0, the tick returns and makes no switch: `A` is enqueued
and, being the head of the highest non-empty band, dequeued again at once.  Afterwards `A`
is still the current VCPU and RUNNING, its band is empty (length 0), band 0 still holds only
the idle VCPU, no other VCPU is written, and the only collaborator call is the start of the
tick event for `A`'s time slice (`arch_vcpu_switch` is not called). -/
theorem slice_rollover_keeps_current (cfg : Config) (s : System) (cpu A idle r tstamp : Nat)
    (hcur : (s.sched cpu).current_vcpu = some A)
    (hst : (s.vcpus A).state = VMM_VCPU_STATE_RUNNING)
    (hpc : (s.vcpus A).preempt_count = 0)
    (hregs : (s.sched cpu).irq_regs = some r)
    (hprio : 0 < (s.vcpus A).priority)
    (hmax : (s.vcpus A).priority ≤ cfg.VMM_VCPU_MAX_PRIORITY)
    (hrq0 : (s.sched cpu).rq 0 = [idle])
    (hrq : ∀ p, p ≠ 0 → (s.sched cpu).rq p = []) :
    ∃ s1, scheduler_timer_event cfg s cpu tstamp = some s1
      ∧ (s1.sched cpu).current_vcpu = some A
      ∧ (s1.vcpus A).state = VMM_VCPU_STATE_RUNNING
      ∧ rq_length s1 cpu (s.vcpus A).priority = 0
      ∧ (s1.sched cpu).rq 0 = [idle]
      ∧ (∀ w, w ≠ A → s1.vcpus w = s.vcpus w)
      ∧ s1.trace = s.trace ++ [Call.vmm_timer_event_start cpu (s.vcpus A).time_slice] := by
  have hp0 : (s.vcpus A).priority ≠ 0 := by omega
  have hband : (s.sched cpu).rq (s.vcpus A).priority = [] := hrq _ hp0
  -- the queue after `A` is enqueued again
  have hhb : highest_band
      (Function.update (s.sched cpu).rq (s.vcpus A).priority
        ((s.sched cpu).rq (s.vcpus A).priority ++ [A])) cfg.VMM_VCPU_MAX_PRIORITY
      = some (s.vcpus A).priority := by
    apply highest_band_eq _ _ (by simp) _ hmax
    intro q hq _
    have hq0 : q ≠ 0 := by omega
    have hqp : q ≠ (s.vcpus A).priority := by omega
    simp [Function.update_apply, hqp, hrq q hq0]
  rw [hband, List.nil_append] at hhb
  simp only [scheduler_timer_event, hregs, vmm_scheduler_switch, hcur, hpc, if_true,
    vmm_scheduler_next, save_current, VMM_VCPU_STATE_SAVEABLE, hst, rq_enqueue,
    vmm_schedalgo_rq_enqueue, rq_dequeue, vmm_schedalgo_rq_dequeue, set_vcpu, set_sched,
    Function.update_same, hhb, hband, List.nil_append, install_next, emit, rq_length,
    vmm_schedalgo_rq_length]
  simp [hhb, Function.update_apply, hp0, hp0.symm, hrq0]
  intro w hw
  simp [hw]

/-- Witness of `slice_rollover_keeps_current`: VCPU 1 of priority 5 on host CPU 0, with the
idle orphan, VCPU 0, alone on the ready queue. -/
theorem slice_rollover_keeps_current_witness :
    ∃ s1, scheduler_timer_event ex_config ex_slice_expired 0 100000000 = some s1
      ∧ (s1.sched 0).current_vcpu = some 1
      ∧ (s1.vcpus 1).state = VMM_VCPU_STATE_RUNNING
      ∧ rq_length s1 0 (ex_slice_expired.vcpus 1).priority = 0
      ∧ (s1.sched 0).rq 0 = [0]
      ∧ (∀ w, w ≠ 1 → s1.vcpus w = ex_slice_expired.vcpus w)
      ∧ s1.trace = ex_slice_expired.trace ++
          [Call.vmm_timer_event_start 0 (ex_slice_expired.vcpus 1).time_slice] :=
  slice_rollover_keeps_current ex_config ex_slice_expired 0 1 0 0 100000000 rfl rfl rfl rfl
    (by decide) (by decide) rfl
    (by
      intro p hp
      show (if p = 5 then [] else if p = 0 then [0] else []) = []
      simp [hp])
/-! ### C12: validation in `vmm_scheduler_set_hcpu` -/

/-- C12: `vmm_scheduler_set_hcpu(v, new)` returns OK and changes nothing when `new ==
v.hcpu`; returns `VMM_EINVALID` and changes nothing when `new != v.hcpu` and `new` is not in
`v.cpu_affinity`; otherwise it returns OK, with `v.hcpu == new` on return (and nothing else
written) when `v` is neither READY nor RUNNING, and with every VCPU and control block
unchanged and exactly one migration IPI `(v, new)` posted to the old host CPU when `v` is
READY or RUNNING. -/
theorem set_hcpu_validation (s : System) (v new : Nat) :
    (new = (s.vcpus v).hcpu → vmm_scheduler_set_hcpu s (some v) new = (VMM_OK, s))
      ∧ (new ≠ (s.vcpus v).hcpu → new ∉ (s.vcpus v).cpu_affinity →
          vmm_scheduler_set_hcpu s (some v) new = (VMM_EINVALID, s))
      ∧ (new ≠ (s.vcpus v).hcpu → new ∈ (s.vcpus v).cpu_affinity →
          (s.vcpus v).state ≠ VMM_VCPU_STATE_READY →
          (s.vcpus v).state ≠ VMM_VCPU_STATE_RUNNING →
          (vmm_scheduler_set_hcpu s (some v) new).1 = VMM_OK
            ∧ ((vmm_scheduler_set_hcpu s (some v) new).2.vcpus v).hcpu = new
            ∧ (vmm_scheduler_set_hcpu s (some v) new).2
              = set_vcpu s v { s.vcpus v with hcpu := new })
      ∧ (new ≠ (s.vcpus v).hcpu → new ∈ (s.vcpus v).cpu_affinity →
          ((s.vcpus v).state = VMM_VCPU_STATE_READY ∨
            (s.vcpus v).state = VMM_VCPU_STATE_RUNNING) →
          (vmm_scheduler_set_hcpu s (some v) new).1 = VMM_OK
            ∧ (vmm_scheduler_set_hcpu s (some v) new).2.vcpus = s.vcpus
            ∧ (vmm_scheduler_set_hcpu s (some v) new).2.sched = s.sched
            ∧ (vmm_scheduler_set_hcpu s (some v) new).2.trace
              = s.trace ++ [Call.ipi_migrate_vcpu (s.vcpus v).hcpu v new]) := by
  refine ⟨?_, ?_, ?_, ?_⟩
  · intro h
    simp [vmm_scheduler_set_hcpu, h]
  · intro h1 h2
    have h1a : ¬ (s.vcpus v).hcpu = new := fun h => h1 h.symm
    simp [vmm_scheduler_set_hcpu, h1a, h2]
  · intro h1 h2 h3 h4
    have h1a : ¬ (s.vcpus v).hcpu = new := fun h => h1 h.symm
    simp [vmm_scheduler_set_hcpu, h1a, h2, h3, h4, set_vcpu]
  · intro h1 h2 h3
    have h1a : ¬ (s.vcpus v).hcpu = new := fun h => h1 h.symm
    simp [vmm_scheduler_set_hcpu, h1a, h2, h3, emit]

/-- Witness of `set_hcpu_validation`: the READY VCPU 1 of host CPU 0, with affinity `{0, 1}`,
is asked to move to host CPU 1, and one migration IPI is posted to host CPU 0. -/
theorem set_hcpu_validation_witness :
    (1 ≠ (ex_migratable.vcpus 1).hcpu ∧ 1 ∈ (ex_migratable.vcpus 1).cpu_affinity
        ∧ (ex_migratable.vcpus 1).state = VMM_VCPU_STATE_READY)
      ∧ (vmm_scheduler_set_hcpu ex_migratable (some 1) 1).1 = VMM_OK
      ∧ (vmm_scheduler_set_hcpu ex_migratable (some 1) 1).2.vcpus = ex_migratable.vcpus
      ∧ (vmm_scheduler_set_hcpu ex_migratable (some 1) 1).2.sched = ex_migratable.sched
      ∧ (vmm_scheduler_set_hcpu ex_migratable (some 1) 1).2.trace
        = ex_migratable.trace ++ [Call.ipi_migrate_vcpu (ex_migratable.vcpus 1).hcpu 1 1] :=
  ⟨⟨by decide, by decide, rfl⟩,
    (set_hcpu_validation ex_migratable 1 1).2.2.2 (by decide) (by decide) (Or.inl rfl)⟩

/-! ### C13: the migration IPI handler -/

/-- C13: for a READY VCPU `v` owned by host CPU `old`, contained exactly once in `old`'s ready
queue (in the band of its priority) and in no other band of any ready queue, and every `new
!= old`, the migration handler run on `old` ends with `v.hcpu == new`, `v` still READY, and
`v` contained exactly once in `new`'s ready queue (in the band of its priority) and in no
other band of any ready queue. -/
theorem migrate_moves_vcpu_once (cfg : Config) (s : System) (old new v : Nat)
    (hst : (s.vcpus v).state = VMM_VCPU_STATE_READY)
    (hh : (s.vcpus v).hcpu = old) (hne : new ≠ old)
    (hcount : ((s.sched old).rq (s.vcpus v).priority).count v = 1)
    (hno : ∀ cpu p, ¬ (cpu = old ∧ p = (s.vcpus v).priority) → v ∉ (s.sched cpu).rq p) :
    ((scheduler_ipi_migrate_vcpu cfg s old v new).vcpus v).hcpu = new
      ∧ ((scheduler_ipi_migrate_vcpu cfg s old v new).vcpus v).state = VMM_VCPU_STATE_READY
      ∧ (((scheduler_ipi_migrate_vcpu cfg s old v new).sched new).rq
          (s.vcpus v).priority).count v = 1
      ∧ ∀ cpu p, ¬ (cpu = new ∧ p = (s.vcpus v).priority) →
          v ∉ ((scheduler_ipi_migrate_vcpu cfg s old v new).sched cpu).rq p := by
  have hmem : v ∈ (s.sched old).rq (s.vcpus v).priority :=
    List.count_pos_iff.mp (by omega)
  have hnew : v ∉ (s.sched new).rq (s.vcpus v).priority :=
    hno new _ (fun h => hne h.1)
  have hold : old ≠ new := fun h => hne h.symm
  have hcond : ¬ ((s.vcpus v).state ≠ VMM_VCPU_STATE_READY ∨ (s.vcpus v).hcpu ≠ old ∨
      (s.vcpus v).hcpu = new) := by
    rw [hst, hh]
    simp [hold]
  -- the state before the forced reschedule, which only extends the trace
  have hfr : ∀ t : System, (vmm_scheduler_force_resched cfg t new).2.vcpus = t.vcpus
      ∧ (vmm_scheduler_force_resched cfg t new).2.sched = t.sched := by
    intro t
    unfold vmm_scheduler_force_resched
    split
    · exact ⟨rfl, rfl⟩
    · split <;> exact ⟨rfl, rfl⟩
  unfold scheduler_ipi_migrate_vcpu
  simp only [if_neg hcond]
  rw [(hfr _).1, (hfr _).2]
  simp only [rq_enqueue, vmm_schedalgo_rq_enqueue, rq_detach, vmm_schedalgo_rq_detach,
    if_pos hmem, set_vcpu, set_sched, Function.update_same, Function.update_apply, hne,
    if_false, if_true]
  refine ⟨trivial, hst, ?_, ?_⟩
  · simp [List.count_append, List.count_eq_zero_of_not_mem hnew]
  · intro cpu p hcp
    by_cases hc : cpu = new
    · subst hc
      have hp : p ≠ (s.vcpus v).priority := fun h => hcp ⟨rfl, h⟩
      simp only [if_true, Function.update_apply, if_neg hp]
      exact hno cpu p (fun h => hne h.1)
    · simp only [if_neg hc]
      by_cases hco : cpu = old
      · subst hco
        simp only [if_true, Function.update_apply]
        split
        · next hp =>
          subst hp
          intro hin
          have h0 : ((s.sched cpu).rq (s.vcpus v).priority).count v - 1 = 0 := by omega
          have := List.count_erase_self v ((s.sched cpu).rq (s.vcpus v).priority)
          rw [h0] at this
          exact (List.count_eq_zero.mp this) hin
        · next hp => exact hno cpu p (fun h => hp h.2)
      · simp only [if_neg hco]
        exact hno cpu p (fun h => hco h.1)

/-- Witness of `migrate_moves_vcpu_once`: the READY VCPU 1 moves from host CPU 0 to 1. -/
theorem migrate_moves_vcpu_once_witness :
    ((scheduler_ipi_migrate_vcpu ex_config ex_migratable 0 1 1).vcpus 1).hcpu = 1
      ∧ ((scheduler_ipi_migrate_vcpu ex_config ex_migratable 0 1 1).vcpus 1).state
        = VMM_VCPU_STATE_READY
      ∧ (((scheduler_ipi_migrate_vcpu ex_config ex_migratable 0 1 1).sched 1).rq
          (ex_migratable.vcpus 1).priority).count 1 = 1
      ∧ ∀ cpu p, ¬ (cpu = 1 ∧ p = (ex_migratable.vcpus 1).priority) →
          1 ∉ ((scheduler_ipi_migrate_vcpu ex_config ex_migratable 0 1 1).sched cpu).rq p :=
  migrate_moves_vcpu_once ex_config ex_migratable 0 1 1 rfl rfl (by decide) (by decide)
    (by
      intro cpu p h
      show 1 ∉ ((if cpu = 0 then ex_ctrl (ex_rq [1]) none
        else ex_ctrl (fun _ => []) none).rq p)
      by_cases hc : cpu = 0
      · have hp : p ≠ 5 := fun hp => h ⟨hc, hp⟩
        simp only [hc, if_true, ex_ctrl, ex_rq, if_neg hp]
        split <;> simp
      · simp [hc, ex_ctrl])
/-! ### C14: leaving the IRQ bracket -/

theorem same_irq_clock_refl (s : System) : same_irq_clock s s := fun _ => ⟨rfl, rfl, rfl⟩

theorem same_irq_clock_trans {s s1 s2 : System} (h1 : same_irq_clock s s1)
    (h2 : same_irq_clock s1 s2) : same_irq_clock s s2 := by
  intro c
  obtain ⟨a1, b1, c1⟩ := h1 c
  obtain ⟨a2, b2, c2⟩ := h2 c
  exact ⟨a2.trans a1, b2.trans b1, c2.trans c1⟩

theorem same_irq_clock_install_next (s : System) (cpu next slice tstamp : Nat) :
    same_irq_clock s (install_next s cpu next slice tstamp) := by
  intro c
  simp only [install_next, emit, set_sched, set_vcpu, Function.update_apply]
  split
  · next h => subst h; exact ⟨rfl, rfl, rfl⟩
  · exact ⟨rfl, rfl, rfl⟩

theorem same_irq_clock_save_current (s : System) (cpu current tstamp : Nat) :
    same_irq_clock s (save_current s cpu current tstamp).1 := by
  unfold save_current
  dsimp only
  split
  · split
    · intro c
      simp only [rq_enqueue, set_sched, set_vcpu, Function.update_apply]
      split
      · next h => subst h; simp
      · exact ⟨rfl, rfl, rfl⟩
    · exact same_irq_clock_refl s
  · exact same_irq_clock_refl s

theorem same_irq_clock_rq_dequeue (cfg : Config) (s : System) (cpu next slice : Nat)
    (s1 : System) (h : rq_dequeue cfg s cpu = some (next, slice, s1)) :
    same_irq_clock s s1 := by
  unfold rq_dequeue at h
  split at h
  · exact absurd h (by simp)
  · simp only [Option.some.injEq, Prod.mk.injEq] at h
    rw [← h.2.2]
    intro c
    simp only [set_sched, Function.update_apply]
    split
    · next hc => subst hc; exact ⟨rfl, rfl, rfl⟩
    · exact ⟨rfl, rfl, rfl⟩

/-- A context switch leaves the IRQ-context flag, the IRQ entry time stamp and the
accumulated IRQ time of every host CPU as they were. -/
theorem same_irq_clock_next (cfg : Config) (s : System) (cpu : Nat) (regs : Option Nat)
    (tstamp : Nat) (s1 : System) (h : vmm_scheduler_next cfg s cpu regs tstamp = some s1) :
    same_irq_clock s s1 := by
  unfold vmm_scheduler_next at h
  split at h
  · split at h
    · exact absurd h (by simp)
    · next next slice t hdq =>
      simp only [Option.some.injEq] at h
      rw [← h]
      have h1 : same_irq_clock s (emit t (Call.arch_vcpu_switch none next regs)) :=
        same_irq_clock_rq_dequeue cfg s cpu next slice t hdq
      exact same_irq_clock_trans h1 (same_irq_clock_install_next _ cpu next slice tstamp)
  · next current _ =>
    dsimp only at h
    split at h
    · exact absurd h (by simp)
    · next next slice t hdq =>
      simp only [Option.some.injEq] at h
      rw [← h]
      have h1 := same_irq_clock_trans (same_irq_clock_save_current s cpu current tstamp)
        (same_irq_clock_rq_dequeue cfg _ cpu next slice t hdq)
      refine same_irq_clock_trans ?_ (same_irq_clock_install_next _ cpu next slice tstamp)
      split
      · exact h1
      · exact h1

/-- C14 (as stated, refuted): on a host CPU that handles a hardware trap and has no current
VCPU yet, `vmm_scheduler_irq_exit` returns at once: `irq_context` is still true and `irq_regs`
is still set. -/
theorem irq_exit_counterexample :
    ((ex_in_irq ex_init).sched 0).current_vcpu = none
      ∧ ∃ s1, vmm_scheduler_irq_exit ex_config (ex_in_irq ex_init) 0 (some 0) 50 60 = some s1
        ∧ (s1.sched 0).irq_context = true ∧ (s1.sched 0).irq_regs = some 0 := by
  refine ⟨rfl, _, rfl, rfl, rfl⟩

/-- C14 (amended): on a host CPU that has a current VCPU, `vmm_scheduler_irq_exit(regs)`
returns whenever the context switch it may make does not panic, and then `irq_context` is
false, `irq_regs` is null, `yield_on_irq_exit` is false, and `irq_process_ns` has grown by
exactly `now - irq_enter_tstamp` modulo `2^64` if the matching enter was a hardware trap
(`irq_context` was true) and is unchanged otherwise.  On a host CPU without a current VCPU the
call returns without changing anything. -/
theorem irq_exit_closes_bracket (cfg : Config) (s : System) (cpu c : Nat) (regs : Option Nat)
    (tstamp_next tstamp : Nat)
    (hcur : (s.sched cpu).current_vcpu = some c)
    (hnext : (s.vcpus c).state ≠ VMM_VCPU_STATE_RUNNING ∨
        (s.sched cpu).yield_on_irq_exit = true →
      ∃ s0, vmm_scheduler_next cfg s cpu (s.sched cpu).irq_regs tstamp_next = some s0) :
    (∀ t : System, (t.sched cpu).current_vcpu = none →
        vmm_scheduler_irq_exit cfg t cpu regs tstamp_next tstamp = some t)
      ∧ ∃ s1, vmm_scheduler_irq_exit cfg s cpu regs tstamp_next tstamp = some s1
        ∧ (s1.sched cpu).irq_context = false
        ∧ (s1.sched cpu).irq_regs = none
        ∧ (s1.sched cpu).yield_on_irq_exit = false
        ∧ (s1.sched cpu).irq_process_ns =
            if (s.sched cpu).irq_context = true then
              u64_add (s.sched cpu).irq_process_ns
                (u64_sub tstamp (s.sched cpu).irq_enter_tstamp)
            else (s.sched cpu).irq_process_ns := by
  refine ⟨fun t ht => by simp [vmm_scheduler_irq_exit, ht], ?_⟩
  -- the state after the optional switch
  have hsw : ∃ s2, irq_exit_switch cfg s cpu c tstamp_next = some s2
      ∧ (s2.sched cpu).yield_on_irq_exit = false
      ∧ (s2.sched cpu).irq_context = (s.sched cpu).irq_context
      ∧ (s2.sched cpu).irq_enter_tstamp = (s.sched cpu).irq_enter_tstamp
      ∧ (s2.sched cpu).irq_process_ns = (s.sched cpu).irq_process_ns := by
    unfold irq_exit_switch
    by_cases hc : (s.vcpus c).state ≠ VMM_VCPU_STATE_RUNNING ∨
        (s.sched cpu).yield_on_irq_exit = true
    · obtain ⟨s0, hs0⟩ := hnext hc
      obtain ⟨a, b, d⟩ := same_irq_clock_next cfg s cpu _ tstamp_next s0 hs0 cpu
      rw [if_pos hc, hs0]
      refine ⟨_, rfl, ?_, ?_, ?_, ?_⟩ <;> simp [set_sched, a, b, d]
    · rw [if_neg hc]
      have hy : (s.sched cpu).yield_on_irq_exit = false := by
        cases hyv : (s.sched cpu).yield_on_irq_exit
        · rfl
        · exact absurd (Or.inr hyv) hc
      exact ⟨s, rfl, hy, rfl, rfl, rfl⟩
  obtain ⟨s2, h2, hy, hi, he, hp⟩ := hsw
  refine ⟨irq_exit_close s2 cpu c regs tstamp, by simp [vmm_scheduler_irq_exit, hcur, h2],
    ?_, ?_, ?_, ?_⟩
  · simp [irq_exit_close, set_sched]
  · simp [irq_exit_close, set_sched]
  · simp only [irq_exit_close, set_sched, emit, Function.update_same]
    split <;> exact hy
  · simp only [irq_exit_close, set_sched, emit, Function.update_same]
    rw [hi]
    split
    · rw [hp, he]
    · exact hp

/-- Witness of `irq_exit_closes_bracket`: host CPU 0 leaves a hardware trap entered at time 40
while VCPU 1 is RUNNING and no yield is pending; at time 60 the IRQ time grows from 7 to 27. -/
theorem irq_exit_closes_bracket_witness :
    (ex_in_trap.sched 0).current_vcpu = some 1
      ∧ (∀ t : System, (t.sched 0).current_vcpu = none →
        vmm_scheduler_irq_exit ex_config t 0 (some 0) 50 60 = some t)
      ∧ ∃ s1, vmm_scheduler_irq_exit ex_config ex_in_trap 0 (some 0) 50 60 = some s1
        ∧ (s1.sched 0).irq_context = false
        ∧ (s1.sched 0).irq_regs = none
        ∧ (s1.sched 0).yield_on_irq_exit = false
        ∧ (s1.sched 0).irq_process_ns =
            if (ex_in_trap.sched 0).irq_context = true then
              u64_add (ex_in_trap.sched 0).irq_process_ns
                (u64_sub 60 (ex_in_trap.sched 0).irq_enter_tstamp)
            else (ex_in_trap.sched 0).irq_process_ns :=
  ⟨rfl, irq_exit_closes_bracket ex_config ex_in_trap 0 1 (some 0) 50 60 rfl
    (by
      intro h
      rcases h with h | h
      · exact absurd rfl h
      · exact absurd h (by decide))⟩

/-! ### C15: control API on an unknown IRQ number -/

/-- C15, counterexample: IRQ number 100 is unknown (`vmm_host_irq_get` returns the null
pointer), and `vmm_host_irq_set_chip`, `vmm_host_irq_set_chip_data`,
`vmm_host_irq_set_handler` and `vmm_host_irq_set_handler_data` return `VMM_EFAIL` for it,
which is not `VMM_ENOTAVAIL`. -/
theorem unknown_irq_counterexample :
    vmm_host_irq_get ex_irq_config ex_host_irqs 100 = irq_ptr.null
      ∧ (vmm_host_irq_set_chip ex_irq_config ex_host_irqs 100 (some ex_chip)).map Prod.fst
          = some VMM_EFAIL
      ∧ (vmm_host_irq_set_chip_data ex_irq_config ex_host_irqs 100 (some 1)).map Prod.fst
          = some VMM_EFAIL
      ∧ (vmm_host_irq_set_handler ex_irq_config ex_host_irqs 100 (some 1)).map Prod.fst
          = some VMM_EFAIL
      ∧ (vmm_host_irq_set_handler_data ex_irq_config ex_host_irqs 100 (some 1)).map Prod.fst
          = some VMM_EFAIL
      ∧ VMM_EFAIL ≠ VMM_ENOTAVAIL :=
  ⟨rfl, rfl, rfl, rfl, rfl, by decide⟩

/-- C15, amended: for every IRQ number for which `vmm_host_irq_get` returns no IRQ object,
the four setters `set_chip`, `set_chip_data`, `set_handler` and `set_handler_data` return
`VMM_EFAIL` and the thirteen other control operations return `VMM_ENOTAVAIL`; none of them
changes the state of the host IRQ layer. -/
theorem unknown_irq_rejected (cfg : IrqConfig) (h : HostIrqs) (hirq_num : Nat)
    (hnull : vmm_host_irq_get cfg h hirq_num = irq_ptr.null) :
    (∀ chip, vmm_host_irq_set_chip cfg h hirq_num chip = some (VMM_EFAIL, h))
      ∧ (∀ data, vmm_host_irq_set_chip_data cfg h hirq_num data = some (VMM_EFAIL, h))
      ∧ (∀ handler, vmm_host_irq_set_handler cfg h hirq_num handler = some (VMM_EFAIL, h))
      ∧ (∀ data, vmm_host_irq_set_handler_data cfg h hirq_num data = some (VMM_EFAIL, h))
      ∧ vmm_host_irq_enable cfg h hirq_num = some (VMM_ENOTAVAIL, h)
      ∧ vmm_host_irq_disable cfg h hirq_num = some (VMM_ENOTAVAIL, h)
      ∧ vmm_host_irq_mask cfg h hirq_num = some (VMM_ENOTAVAIL, h)
      ∧ vmm_host_irq_unmask cfg h hirq_num = some (VMM_ENOTAVAIL, h)
      ∧ (∀ type, vmm_host_irq_set_type cfg h hirq_num type = some (VMM_ENOTAVAIL, h))
      ∧ vmm_host_irq_set_affinity cfg h hirq_num = some (VMM_ENOTAVAIL, h)
      ∧ vmm_host_irq_mark_per_cpu cfg h hirq_num = some (VMM_ENOTAVAIL, h)
      ∧ vmm_host_irq_unmark_per_cpu cfg h hirq_num = some (VMM_ENOTAVAIL, h)
      ∧ vmm_host_irq_mark_guest_routed cfg h hirq_num = some (VMM_ENOTAVAIL, h)
      ∧ vmm_host_irq_unmark_guest_routed cfg h hirq_num = some (VMM_ENOTAVAIL, h)
      ∧ vmm_host_irq_raise cfg h hirq_num = some (VMM_ENOTAVAIL, h)
      ∧ (∀ name func dev cpu alloc,
          vmm_host_irq_register cfg h hirq_num name func dev cpu alloc
            = some (VMM_ENOTAVAIL, h))
      ∧ (∀ dev cpu, vmm_host_irq_unregister cfg h hirq_num dev cpu = some (VMM_ENOTAVAIL, h)) := by
  simp [vmm_host_irq_set_chip, vmm_host_irq_set_chip_data, vmm_host_irq_set_handler,
    vmm_host_irq_set_handler_data, vmm_host_irq_enable, vmm_host_irq_disable,
    vmm_host_irq_mask, vmm_host_irq_unmask, vmm_host_irq_set_type, vmm_host_irq_set_affinity,
    vmm_host_irq_mark_per_cpu, vmm_host_irq_unmark_per_cpu, vmm_host_irq_mark_guest_routed,
    vmm_host_irq_unmark_guest_routed, vmm_host_irq_raise, vmm_host_irq_register,
    vmm_host_irq_unregister, with_irq, hnull]

/-- C15, witness: IRQ number 100 of the example state is unknown. -/
theorem unknown_irq_rejected_witness :
    vmm_host_irq_get ex_irq_config ex_host_irqs 100 = irq_ptr.null
      ∧ vmm_host_irq_enable ex_irq_config ex_host_irqs 100
          = some (VMM_ENOTAVAIL, ex_host_irqs) :=
  ⟨rfl, (unknown_irq_rejected ex_irq_config ex_host_irqs 100 rfl).2.2.2.2.1⟩

/-! ### C16, C17: enable, disable, mask and unmask -/

/-- C16, failing input: native IRQ 1 of the example state has a chip with every operation
and the state `DISABLED | MASKED` that `host_irq_init_irq` gives it.  `vmm_host_irq_enable`
returns `VMM_OK`, calls `irq_enable` and clears `DISABLED`, but `MASKED` stays set; after
`vmm_host_irq_disable` and `vmm_host_irq_enable` in sequence `MASKED` is set as well. -/
theorem enable_keeps_masked :
    vmm_host_irq_get ex_irq_config ex_host_irqs 1 = irq_ptr.obj 1
      ∧ (ex_host_irqs.irq 1).state
          = ex_irq_config.VMM_IRQ_STATE_DISABLED ||| ex_irq_config.VMM_IRQ_STATE_MASKED
      ∧ (vmm_host_irq_enable ex_irq_config ex_host_irqs 1).map
            (fun r => (r.1, (r.2.irq 1).state, r.2.chip_trace))
          = some (VMM_OK, ex_irq_config.VMM_IRQ_STATE_MASKED, [ChipCall.irq_enable 1])
      ∧ ((vmm_host_irq_disable ex_irq_config ex_host_irqs 1).bind
            (fun r => vmm_host_irq_enable ex_irq_config r.2 1)).map
            (fun r => (r.1, (r.2.irq 1).state, r.2.chip_trace))
          = some (VMM_OK, ex_irq_config.VMM_IRQ_STATE_MASKED,
              [ChipCall.irq_disable 1, ChipCall.irq_enable 1])
      ∧ ex_irq_config.VMM_IRQ_STATE_MASKED ≠ 0 := by
  refine ⟨rfl, rfl, ?_, ?_, by decide⟩ <;> decide

/-- C17, failing input: native IRQ 1 of the example state has a chip that provides both
`irq_mask` and `irq_unmask`.  `vmm_host_irq_unmask` returns `VMM_OK` and clears `MASKED`, but
the one chip operation it calls is `irq_mask`; `irq_unmask` is not called.  On a chip that
provides `irq_unmask` and no `irq_mask` the call goes through a null function pointer. -/
theorem unmask_calls_irq_mask :
    vmm_host_irq_get ex_irq_config ex_host_irqs 1 = irq_ptr.obj 1
      ∧ (vmm_host_irq_unmask ex_irq_config ex_host_irqs 1).map
            (fun r => (r.1, (r.2.irq 1).state, r.2.chip_trace))
          = some (VMM_OK, ex_irq_config.VMM_IRQ_STATE_DISABLED, [ChipCall.irq_mask 1])
      ∧ (vmm_host_irq_unmask ex_irq_config
            (set_irq ex_host_irqs 1
              { ex_host_irqs.irq 1 with chip := some { ex_chip with irq_mask := false } }) 1).isNone
          = true := by
  refine ⟨rfl, ?_, ?_⟩ <;> decide

/-! ### C18: `vmm_host_irq_set_type` -/

theorem testBit_u32_clear (x m i : Nat) :
    (u32_clear x m).testBit i = (x.testBit i && (decide (i < 32) ^^ m.testBit i)) := by
  have hF : (0xFFFFFFFF : Nat) = 2 ^ 32 - 1 := by norm_num
  simp only [u32_clear, Nat.testBit_land, Nat.testBit_xor, hF, Nat.testBit_two_pow_sub_one]

theorem testBit_u32_high (x i : Nat) (hx : x < 2 ^ 32) (hi : ¬ i < 32) : x.testBit i = false := by
  apply Nat.testBit_lt_two_pow
  exact lt_of_lt_of_le hx (Nat.pow_le_pow_right (by norm_num) (by omega))

theorem testBit_of_land_eq_zero (a b i : Nat) (h : a &&& b = 0) :
    (a.testBit i && b.testBit i) = false := by
  rw [← Nat.testBit_land, h, Nat.zero_testBit]

theorem testBit_of_land_eq_left (a b i : Nat) (h : a &&& b = a) :
    (a.testBit i && b.testBit i) = a.testBit i := by
  rw [← Nat.testBit_land, h]

/-- C18: for an existing IRQ `n` with a `u32` state and a `u32` type `t`, with
`s = t & SENSE_MASK`, under a layout where the sense bits lie inside `TRIGGER_MASK` and the
`LEVEL` flag outside it: if `s == NONE` the call returns `VMM_OK` with nothing changed and no
chip call; if `s != NONE` and `chip.irq_set_type` returns `VMM_OK`, the call returns `VMM_OK`,
the new state has its `TRIGGER` bits equal to `s`, the `LEVEL` flag set when
`s & LEVEL_MASK != 0` and clear otherwise, and every other bit as before; if
`chip.irq_set_type` returns an error, that error is returned and no IRQ object changes. -/
theorem set_type_postcondition (cfg : IrqConfig) (h : HostIrqs) (hirq_num n t : Nat)
    (hget : vmm_host_irq_get cfg h hirq_num = irq_ptr.obj n)
    (hst : (h.irq n).state < 2 ^ 32) (ht : t < 2 ^ 32)
    (hsense : cfg.VMM_IRQ_TYPE_SENSE_MASK &&& cfg.VMM_IRQ_STATE_TRIGGER_MASK
      = cfg.VMM_IRQ_TYPE_SENSE_MASK)
    (hlevel : cfg.VMM_IRQ_STATE_LEVEL &&& cfg.VMM_IRQ_STATE_TRIGGER_MASK = 0) :
    (t &&& cfg.VMM_IRQ_TYPE_SENSE_MASK = cfg.VMM_IRQ_TYPE_NONE →
        vmm_host_irq_set_type cfg h hirq_num t = some (VMM_OK, h))
      ∧ (t &&& cfg.VMM_IRQ_TYPE_SENSE_MASK ≠ cfg.VMM_IRQ_TYPE_NONE →
          ∀ chip set_type, (h.irq n).chip = some chip → chip.irq_set_type = some set_type →
            (set_type (t &&& cfg.VMM_IRQ_TYPE_SENSE_MASK) = VMM_OK →
              ∃ h1, vmm_host_irq_set_type cfg h hirq_num t = some (VMM_OK, h1)
                ∧ (h1.irq n).state &&& cfg.VMM_IRQ_STATE_TRIGGER_MASK
                    = t &&& cfg.VMM_IRQ_TYPE_SENSE_MASK
                ∧ ((t &&& cfg.VMM_IRQ_TYPE_SENSE_MASK) &&& cfg.VMM_IRQ_TYPE_LEVEL_MASK ≠ 0 →
                    (h1.irq n).state &&& cfg.VMM_IRQ_STATE_LEVEL = cfg.VMM_IRQ_STATE_LEVEL)
                ∧ ((t &&& cfg.VMM_IRQ_TYPE_SENSE_MASK) &&& cfg.VMM_IRQ_TYPE_LEVEL_MASK = 0 →
                    (h1.irq n).state &&& cfg.VMM_IRQ_STATE_LEVEL = 0)
                ∧ (∀ i, cfg.VMM_IRQ_STATE_TRIGGER_MASK.testBit i = false →
                    cfg.VMM_IRQ_STATE_LEVEL.testBit i = false →
                    (h1.irq n).state.testBit i = (h.irq n).state.testBit i)
                ∧ (∀ m, m ≠ n → h1.irq m = h.irq m)
                ∧ h1.chip_trace
                    = h.chip_trace
                      ++ [ChipCall.irq_set_type n (t &&& cfg.VMM_IRQ_TYPE_SENSE_MASK)])
            ∧ (set_type (t &&& cfg.VMM_IRQ_TYPE_SENSE_MASK) ≠ VMM_OK →
              ∃ h1, vmm_host_irq_set_type cfg h hirq_num t
                    = some (set_type (t &&& cfg.VMM_IRQ_TYPE_SENSE_MASK), h1)
                ∧ h1.irq = h.irq
                ∧ h1.chip_trace
                    = h.chip_trace
                      ++ [ChipCall.irq_set_type n (t &&& cfg.VMM_IRQ_TYPE_SENSE_MASK)])) := by
  refine ⟨?_, ?_⟩
  · intro hs
    simp [vmm_host_irq_set_type, with_irq, hget, hs]
  · intro hs chip set_type hchip hset
    have hs32 : t &&& cfg.VMM_IRQ_TYPE_SENSE_MASK < 2 ^ 32 :=
      lt_of_le_of_lt Nat.and_le_left ht
    have hsub : ∀ i, (t &&& cfg.VMM_IRQ_TYPE_SENSE_MASK).testBit i = true →
        cfg.VMM_IRQ_STATE_TRIGGER_MASK.testBit i = true := by
      intro i hi
      have h1 := testBit_of_land_eq_left _ _ i hsense
      rw [Nat.testBit_land] at hi
      cases hS : cfg.VMM_IRQ_TYPE_SENSE_MASK.testBit i <;>
        cases hT : cfg.VMM_IRQ_STATE_TRIGGER_MASK.testBit i <;> simp_all
    refine ⟨?_, ?_⟩
    · intro hok
      simp only [vmm_host_irq_set_type, with_irq, hget, hs, if_false, hchip, hset,
        Option.some_bind, hok, if_true]
      refine ⟨_, rfl, ?_, ?_, ?_, ?_, ?_, ?_⟩
      · apply Nat.eq_of_testBit_eq
        intro i
        have h1 := hsub i
        have h2 := testBit_of_land_eq_zero _ _ i hlevel
        have h3 := testBit_u32_high _ i hst
        have h4 := testBit_u32_high _ i hs32
        simp only [set_irq, chip_emit, Function.update_same]
        split <;>
          simp only [Nat.testBit_land, Nat.testBit_lor, testBit_u32_clear] <;>
          by_cases hi : i < 32 <;>
          cases hT : cfg.VMM_IRQ_STATE_TRIGGER_MASK.testBit i <;>
          cases hL : cfg.VMM_IRQ_STATE_LEVEL.testBit i <;>
          cases hS : (t &&& cfg.VMM_IRQ_TYPE_SENSE_MASK).testBit i <;>
          cases hO : (h.irq n).state.testBit i <;> simp_all
      · intro hl
        simp only [set_irq, chip_emit, Function.update_same, hl, ne_eq, not_false_eq_true,
          if_true]
        apply Nat.eq_of_testBit_eq
        intro i
        simp only [Nat.testBit_land, Nat.testBit_lor]
        cases cfg.VMM_IRQ_STATE_LEVEL.testBit i <;> simp
      · intro hl
        simp only [set_irq, chip_emit, Function.update_same, hl, ne_eq, not_true_eq_false,
          if_false]
        apply Nat.eq_of_testBit_eq
        intro i
        have h3 := testBit_u32_high _ i hst
        have h4 := testBit_u32_high _ i hs32
        simp only [Nat.testBit_land, Nat.testBit_lor, testBit_u32_clear, Nat.zero_testBit]
        by_cases hi : i < 32 <;>
          cases hL : cfg.VMM_IRQ_STATE_LEVEL.testBit i <;>
          cases hS : (t &&& cfg.VMM_IRQ_TYPE_SENSE_MASK).testBit i <;>
          cases hO : (h.irq n).state.testBit i <;> simp_all
      · intro i hT hL
        have h1 := hsub i
        have h3 := testBit_u32_high _ i hst
        simp only [set_irq, chip_emit, Function.update_same]
        split <;>
          simp only [Nat.testBit_land, Nat.testBit_lor, testBit_u32_clear] <;>
          by_cases hi : i < 32 <;>
          cases hS : (t &&& cfg.VMM_IRQ_TYPE_SENSE_MASK).testBit i <;>
          cases hO : (h.irq n).state.testBit i <;> simp_all
      · intro m hm
        simp [set_irq, chip_emit, Function.update_noteq hm]
      · simp [set_irq, chip_emit]
    · intro herr
      simp only [vmm_host_irq_set_type, with_irq, hget, hs, if_false, hchip, hset,
        Option.some_bind, herr]
      exact ⟨_, rfl, rfl, rfl⟩

/-- C18, witness: on native IRQ 1 of the example state, whose chip accepts the type
`LEVEL_HIGH = 4`, the call returns `VMM_OK` and the state becomes
`DISABLED | MASKED | LEVEL | 4`. -/
theorem set_type_postcondition_witness :
    vmm_host_irq_get ex_irq_config ex_host_irqs 1 = irq_ptr.obj 1
      ∧ (ex_host_irqs.irq 1).state < 2 ^ 32 ∧ 4 < 2 ^ 32
      ∧ (vmm_host_irq_set_type ex_irq_config ex_host_irqs 1 4).map
            (fun r => (r.1, (r.2.irq 1).state))
          = some (VMM_OK, 0x32004)
      ∧ ∃ h1, vmm_host_irq_set_type ex_irq_config ex_host_irqs 1 4 = some (VMM_OK, h1)
          ∧ (h1.irq 1).state &&& ex_irq_config.VMM_IRQ_STATE_TRIGGER_MASK
              = 4 &&& ex_irq_config.VMM_IRQ_TYPE_SENSE_MASK :=
  ⟨rfl, by decide, by decide, by decide,
    let ⟨h1, e, p, _⟩ :=
      ((set_type_postcondition ex_irq_config ex_host_irqs 1 1 4 rfl (by decide) (by decide)
        (by decide) (by decide)).2 (by decide) ex_chip _ rfl rfl).1 rfl
    ⟨h1, e, p⟩⟩

/-! ### C19, C20: the action lists under the registration interface -/

theorem per_cpu_u32_clear (x m p : Nat) (hp : p < 2 ^ 32) (hpm : p &&& m = 0) :
    u32_clear x m &&& p = x &&& p := by
  apply Nat.eq_of_testBit_eq
  intro i
  have h1 := testBit_of_land_eq_zero _ _ i hpm
  have h2 := testBit_u32_high _ i hp
  simp only [Nat.testBit_land, testBit_u32_clear]
  by_cases hi : i < 32 <;> cases hP : p.testBit i <;> cases hM : m.testBit i <;>
    cases hX : x.testBit i <;> simp_all

theorem per_cpu_lor (x m p : Nat) (hpm : p &&& m = 0) : (x ||| m) &&& p = x &&& p := by
  apply Nat.eq_of_testBit_eq
  intro i
  have h1 := testBit_of_land_eq_zero _ _ i hpm
  simp only [Nat.testBit_land, Nat.testBit_lor]
  cases hP : p.testBit i <;> cases hM : m.testBit i <;> cases hX : x.testBit i <;> simp_all

theorem per_cpu_lor_self (x p : Nat) : (x ||| p) &&& p = p := by
  apply Nat.eq_of_testBit_eq
  intro i
  simp only [Nat.testBit_land, Nat.testBit_lor]
  cases p.testBit i <;> simp

theorem enable_actions (cfg : IrqConfig) (h : HostIrqs) (k : Nat) (r : Rc × HostIrqs)
    (he : vmm_host_irq_enable cfg h k = some r) :
    r.2.extirqctrl = h.extirqctrl ∧ ∀ m, (r.2.irq m).action_list = (h.irq m).action_list := by
  simp only [vmm_host_irq_enable, with_irq, chip_call] at he
  cases hg : vmm_host_irq_get cfg h k with
  | null => simp only [hg, Option.some.injEq] at he; subst he; exact ⟨rfl, fun _ => rfl⟩
  | wild => simp [hg] at he
  | obj n =>
    simp only [hg] at he
    repeat' split at he
    all_goals
      simp only [Option.map_some', Option.map_none', Option.some.injEq, reduceCtorEq] at he
    all_goals
      subst he
      refine ⟨rfl, fun m => ?_⟩
      by_cases hm : m = n <;> simp [set_irq, chip_emit, Function.update_apply, hm]

theorem enable_per_cpu (cfg : IrqConfig) (h : HostIrqs) (k : Nat) (r : Rc × HostIrqs)
    (hp : cfg.VMM_IRQ_STATE_PER_CPU < 2 ^ 32)
    (hpd : cfg.VMM_IRQ_STATE_PER_CPU &&& cfg.VMM_IRQ_STATE_DISABLED = 0)
    (he : vmm_host_irq_enable cfg h k = some r) :
    ∀ m, vmm_host_irq_is_per_cpu cfg (r.2.irq m) = vmm_host_irq_is_per_cpu cfg (h.irq m) := by
  simp only [vmm_host_irq_enable, with_irq, chip_call] at he
  cases hg : vmm_host_irq_get cfg h k with
  | null => simp only [hg, Option.some.injEq] at he; subst he; exact fun _ => rfl
  | wild => simp [hg] at he
  | obj n =>
    simp only [hg] at he
    repeat' split at he
    all_goals
      simp only [Option.map_some', Option.map_none', Option.some.injEq, reduceCtorEq] at he
    all_goals
      subst he
      intro m
      by_cases hm : m = n <;>
        simp [set_irq, chip_emit, Function.update_apply, hm, vmm_host_irq_is_per_cpu,
          per_cpu_u32_clear _ _ _ hp hpd]

theorem disable_actions (cfg : IrqConfig) (h : HostIrqs) (k : Nat) (r : Rc × HostIrqs)
    (he : vmm_host_irq_disable cfg h k = some r) :
    r.2.extirqctrl = h.extirqctrl ∧ ∀ m, (r.2.irq m).action_list = (h.irq m).action_list := by
  simp only [vmm_host_irq_disable, with_irq, chip_call] at he
  cases hg : vmm_host_irq_get cfg h k with
  | null => simp only [hg, Option.some.injEq] at he; subst he; exact ⟨rfl, fun _ => rfl⟩
  | wild => simp [hg] at he
  | obj n =>
    simp only [hg] at he
    repeat' split at he
    all_goals
      simp only [Option.map_some', Option.map_none', Option.some.injEq, reduceCtorEq] at he
    all_goals
      subst he
      refine ⟨rfl, fun m => ?_⟩
      by_cases hm : m = n <;> simp [set_irq, chip_emit, Function.update_apply, hm]

theorem disable_per_cpu (cfg : IrqConfig) (h : HostIrqs) (k : Nat) (r : Rc × HostIrqs)
    (hpd : cfg.VMM_IRQ_STATE_PER_CPU &&& cfg.VMM_IRQ_STATE_DISABLED = 0)
    (hpm : cfg.VMM_IRQ_STATE_PER_CPU &&& cfg.VMM_IRQ_STATE_MASKED = 0)
    (he : vmm_host_irq_disable cfg h k = some r) :
    ∀ m, vmm_host_irq_is_per_cpu cfg (r.2.irq m) = vmm_host_irq_is_per_cpu cfg (h.irq m) := by
  simp only [vmm_host_irq_disable, with_irq, chip_call] at he
  cases hg : vmm_host_irq_get cfg h k with
  | null => simp only [hg, Option.some.injEq] at he; subst he; exact fun _ => rfl
  | wild => simp [hg] at he
  | obj n =>
    simp only [hg] at he
    repeat' split at he
    all_goals
      simp only [Option.map_some', Option.map_none', Option.some.injEq, reduceCtorEq] at he
    all_goals
      subst he
      intro m
      by_cases hm : m = n <;>
        simp [set_irq, chip_emit, Function.update_apply, hm, vmm_host_irq_is_per_cpu,
          per_cpu_lor _ _ _ hpd, per_cpu_lor _ _ _ hpm]

theorem any_dev_eq_true (l : List vmm_host_irq_action) (dev : Nat) :
    l.any (fun act => act.dev == dev) = true ↔ dev ∈ l.map (fun act => act.dev) := by
  simp only [List.any_eq_true, beq_iff_eq, List.mem_map]

theorem host_irq_register_frame (h : HostIrqs) (n : Nat) (name : Option String)
    (func dev cpu : Nat) (ok : Bool) :
    (host_irq_register h n name func dev cpu ok).2.extirqctrl = h.extirqctrl
      ∧ (∀ m, ((host_irq_register h n name func dev cpu ok).2.irq m).state = (h.irq m).state)
      ∧ (∀ m c, ¬ (m = n ∧ c = cpu) →
          ((host_irq_register h n name func dev cpu ok).2.irq m).action_list c
            = (h.irq m).action_list c)
      ∧ ((host_irq_register h n name func dev cpu ok).1 = VMM_OK →
          ((h.irq n).action_list cpu).any (fun act => act.dev == dev) = false
            ∧ ((host_irq_register h n name func dev cpu ok).2.irq n).action_list cpu
                = (h.irq n).action_list cpu ++ [⟨func, dev⟩])
      ∧ ((host_irq_register h n name func dev cpu ok).1 ≠ VMM_OK →
          ((host_irq_register h n name func dev cpu ok).2.irq n).action_list cpu
            = (h.irq n).action_list cpu) := by
  unfold host_irq_register
  cases hany : ((h.irq n).action_list cpu).any (fun act => act.dev == dev) <;>
    cases ok <;>
    simp only [hany, if_true, if_false, Bool.false_eq_true, set_irq, Function.update_same,
      reduceCtorEq, ne_eq, not_true_eq_false, not_false_eq_true, true_and, and_true,
      false_implies, implies_true, and_self]
  all_goals
    refine ⟨fun m => ?_, fun m c hmc => ?_⟩
    · by_cases hm : m = n <;> simp [Function.update_apply, hm]
    · by_cases hm : m = n
      · subst hm
        have hc : c ≠ cpu := fun e => hmc ⟨rfl, e⟩
        simp [Function.update_apply, hc]
      · simp [Function.update_apply, hm]

theorem host_irq_register_dup (h : HostIrqs) (n : Nat) (name : Option String)
    (func dev cpu : Nat) (ok : Bool)
    (hany : ((h.irq n).action_list cpu).any (fun act => act.dev == dev) = true) :
    host_irq_register h n name func dev cpu ok = (VMM_EFAIL, h) := by
  simp [host_irq_register, hany]

theorem host_irq_register_cpus_induct (Q : HostIrqs → Prop) (n : Nat) (name : Option String)
    (func dev : Nat) (alloc : Nat → Bool) :
    ∀ (cpus : List Nat) (h : HostIrqs),
      (∀ h0 cpu, cpu ∈ cpus → Q h0 → Q (host_irq_register h0 n name func dev cpu (alloc cpu)).2) →
      Q h → Q (host_irq_register_cpus n name func dev alloc cpus h).2 := by
  intro cpus
  induction cpus with
  | nil => intro h _ hq; exact hq
  | cons c rest ih =>
    intro h hQ hq
    simp only [host_irq_register_cpus]
    split
    · exact hQ h c (List.mem_cons_self _ _) hq
    · exact ih _ (fun h0 cpu hc => hQ h0 cpu (List.mem_cons_of_mem _ hc))
        (hQ h c (List.mem_cons_self _ _) hq)

theorem host_irq_unregister_frame (h : HostIrqs) (n dev cpu : Nat) (d : Bool) :
    (host_irq_unregister h n dev cpu d).2.1.extirqctrl = h.extirqctrl
      ∧ (∀ m, ((host_irq_unregister h n dev cpu d).2.1.irq m).state = (h.irq m).state)
      ∧ (∀ m c, ¬ (m = n ∧ c = cpu) →
          ((host_irq_unregister h n dev cpu d).2.1.irq m).action_list c
            = (h.irq m).action_list c)
      ∧ ((host_irq_unregister h n dev cpu d).1 = VMM_OK →
          ((h.irq n).action_list cpu).any (fun act => act.dev == dev) = true
            ∧ ((host_irq_unregister h n dev cpu d).2.1.irq n).action_list cpu
                = ((h.irq n).action_list cpu).eraseP (fun act => act.dev == dev))
      ∧ ((host_irq_unregister h n dev cpu d).1 ≠ VMM_OK →
          (host_irq_unregister h n dev cpu d).2.1 = h) := by
  unfold host_irq_unregister
  cases hany : ((h.irq n).action_list cpu).any (fun act => act.dev == dev) <;>
    simp only [hany, if_true, if_false, Bool.false_eq_true, set_irq, Function.update_same,
      reduceCtorEq, ne_eq, not_true_eq_false, not_false_eq_true, true_and, and_true,
      false_implies, implies_true, and_self]
  refine ⟨fun m => ?_, fun m c hmc => ?_⟩
  · by_cases hm : m = n <;> simp [Function.update_apply, hm]
  · by_cases hm : m = n
    · subst hm
      have hc : c ≠ cpu := fun e => hmc ⟨rfl, e⟩
      simp [Function.update_apply, hc]
    · simp [Function.update_apply, hm]

theorem host_irq_unregister_cpus_induct (Q : HostIrqs → Prop) (n dev : Nat) :
    ∀ (cpus : List Nat) (h : HostIrqs) (d : Bool),
      (∀ h0 cpu d0, cpu ∈ cpus → Q h0 → Q (host_irq_unregister h0 n dev cpu d0).2.1) →
      Q h → Q (host_irq_unregister_cpus n dev cpus h d).2.1 := by
  intro cpus
  induction cpus with
  | nil => intro h d _ hq; exact hq
  | cons c rest ih =>
    intro h d hQ hq
    simp only [host_irq_unregister_cpus]
    split
    · exact hQ h c d (List.mem_cons_self _ _) hq
    · exact ih _ _ (fun h0 cpu d0 hc => hQ h0 cpu d0 (List.mem_cons_of_mem _ hc))
        (hQ h c d (List.mem_cons_self _ _) hq)

theorem host_irq_register_nodup (h : HostIrqs) (n : Nat) (name : Option String)
    (func dev cpu : Nat) (ok : Bool) (hinv : one_action_per_dev h) :
    one_action_per_dev (host_irq_register h n name func dev cpu ok).2 := by
  obtain ⟨_, _, hother, hok, hfail⟩ := host_irq_register_frame h n name func dev cpu ok
  intro m c
  by_cases hmc : m = n ∧ c = cpu
  · obtain ⟨rfl, rfl⟩ := hmc
    by_cases hr : (host_irq_register h m name func dev c ok).1 = VMM_OK
    · obtain ⟨hany, hl⟩ := hok hr
      rw [hl, List.map_append, List.nodup_append]
      refine ⟨hinv m c, by simp, ?_⟩
      intro a ha hb
      simp only [List.map_cons, List.map_nil, List.mem_singleton] at hb
      subst hb
      have := (any_dev_eq_true _ _).2 ha
      rw [hany] at this
      exact Bool.false_ne_true this
    · rw [hfail hr]; exact hinv m c
  · rw [hother m c hmc]; exact hinv m c

theorem host_irq_unregister_nodup (h : HostIrqs) (n dev cpu : Nat) (d : Bool)
    (hinv : one_action_per_dev h) :
    one_action_per_dev (host_irq_unregister h n dev cpu d).2.1 := by
  obtain ⟨_, _, hother, hok, hfail⟩ := host_irq_unregister_frame h n dev cpu d
  intro m c
  by_cases hmc : m = n ∧ c = cpu
  · obtain ⟨rfl, rfl⟩ := hmc
    by_cases hr : (host_irq_unregister h m dev c d).1 = VMM_OK
    · rw [(hok hr).2]
      exact List.Nodup.sublist ((List.eraseP_sublist _).map _) (hinv m c)
    · rw [hfail hr]; exact hinv m c
  · rw [hother m c hmc]; exact hinv m c

theorem one_action_per_dev_of_actions (h h1 : HostIrqs)
    (hact : ∀ m, (h1.irq m).action_list = (h.irq m).action_list)
    (hinv : one_action_per_dev h) : one_action_per_dev h1 := by
  intro m c
  rw [hact m]
  exact hinv m c

theorem irq_step_nodup (cfg : IrqConfig) (h h1 : HostIrqs) (ev : IrqEvent)
    (hinv : one_action_per_dev h) (hstep : irq_step cfg h ev = some h1) :
    one_action_per_dev h1 := by
  cases ev with
  | register hirq_num name func dev cpu alloc =>
    simp only [irq_step, vmm_host_irq_register, with_irq, Option.map_eq_some'] at hstep
    obtain ⟨r, hr, rfl⟩ := hstep
    cases hg : vmm_host_irq_get cfg h hirq_num with
    | null => simp only [hg, Option.some.injEq] at hr; subst hr; exact hinv
    | wild => simp [hg] at hr
    | obj n =>
      simp only [hg] at hr
      have hreg : one_action_per_dev
          (if vmm_host_irq_is_per_cpu cfg (h.irq n) = true then
            host_irq_register h n name func dev cpu (alloc cpu)
          else
            host_irq_register_cpus n name func dev alloc (List.range cfg.CONFIG_CPU_COUNT) h).2 := by
        split
        · exact host_irq_register_nodup _ _ _ _ _ _ _ hinv
        · exact host_irq_register_cpus_induct one_action_per_dev n name func dev alloc _ h
            (fun h0 c _ hq => host_irq_register_nodup _ _ _ _ _ _ _ hq) hinv
      generalize (if vmm_host_irq_is_per_cpu cfg (h.irq n) = true then
            host_irq_register h n name func dev cpu (alloc cpu)
          else
            host_irq_register_cpus n name func dev alloc (List.range cfg.CONFIG_CPU_COUNT) h)
        = R at hr hreg
      split at hr
      · simp only [Option.some.injEq] at hr; subst hr; exact hreg
      · exact one_action_per_dev_of_actions _ _ (enable_actions _ _ _ _ hr).2 hreg
  | unregister hirq_num dev cpu =>
    simp only [irq_step, vmm_host_irq_unregister, with_irq, Option.map_eq_some'] at hstep
    obtain ⟨r, hr, rfl⟩ := hstep
    cases hg : vmm_host_irq_get cfg h hirq_num with
    | null => simp only [hg, Option.some.injEq] at hr; subst hr; exact hinv
    | wild => simp [hg] at hr
    | obj n =>
      simp only [hg] at hr
      have hreg : one_action_per_dev
          (if vmm_host_irq_is_per_cpu cfg (h.irq n) = true then
            host_irq_unregister h n dev cpu false
          else host_irq_unregister_cpus n dev (List.range cfg.CONFIG_CPU_COUNT) h false).2.1 := by
        split
        · exact host_irq_unregister_nodup _ _ _ _ _ hinv
        · exact host_irq_unregister_cpus_induct one_action_per_dev n dev _ h false
            (fun h0 c d0 _ hq => host_irq_unregister_nodup _ _ _ _ _ hq) hinv
      generalize (if vmm_host_irq_is_per_cpu cfg (h.irq n) = true then
            host_irq_unregister h n dev cpu false
          else host_irq_unregister_cpus n dev (List.range cfg.CONFIG_CPU_COUNT) h false)
        = R at hr hreg
      split at hr
      · simp only [Option.some.injEq] at hr; subst hr; exact hreg
      · split at hr
        · exact one_action_per_dev_of_actions _ _ (disable_actions _ _ _ _ hr).2 hreg
        · simp only [Option.some.injEq] at hr; subst hr; exact hreg
  | mark_per_cpu hirq_num =>
    simp only [irq_step, vmm_host_irq_mark_per_cpu, with_irq, Option.map_eq_some'] at hstep
    obtain ⟨r, hr, rfl⟩ := hstep
    cases hg : vmm_host_irq_get cfg h hirq_num with
    | null => simp only [hg, Option.some.injEq] at hr; subst hr; exact hinv
    | wild => simp [hg] at hr
    | obj n =>
      simp only [hg, Option.some.injEq] at hr
      subst hr
      refine one_action_per_dev_of_actions h _ (fun m => ?_) hinv
      by_cases hm : m = n <;> simp [set_irq, Function.update_apply, hm]
  | unmark_per_cpu hirq_num =>
    simp only [irq_step, vmm_host_irq_unmark_per_cpu, with_irq, Option.map_eq_some'] at hstep
    obtain ⟨r, hr, rfl⟩ := hstep
    cases hg : vmm_host_irq_get cfg h hirq_num with
    | null => simp only [hg, Option.some.injEq] at hr; subst hr; exact hinv
    | wild => simp [hg] at hr
    | obj n =>
      simp only [hg, Option.some.injEq] at hr
      subst hr
      refine one_action_per_dev_of_actions h _ (fun m => ?_) hinv
      by_cases hm : m = n <;> simp [set_irq, Function.update_apply, hm]

theorem irq_run_nodup (cfg : IrqConfig) :
    ∀ (evs : List IrqEvent) (h h1 : HostIrqs), one_action_per_dev h →
      irq_run cfg h evs = some h1 → one_action_per_dev h1 := by
  intro evs
  induction evs with
  | nil => intro h h1 hinv hrun; simp only [irq_run, Option.some.injEq] at hrun; subst hrun; exact hinv
  | cons ev evs ih =>
    intro h h1 hinv hrun
    simp only [irq_run] at hrun
    cases hs : irq_step cfg h ev with
    | none => simp [hs] at hrun
    | some h2 =>
      simp only [hs] at hrun
      exact ih h2 h1 (irq_step_nodup cfg h h2 ev hinv hs) hrun

theorem host_irq_register_cpus_frame (n : Nat) (name : Option String) (func dev : Nat)
    (alloc : Nat → Bool) (cpus : List Nat) (h : HostIrqs) :
    (host_irq_register_cpus n name func dev alloc cpus h).2.extirqctrl = h.extirqctrl
      ∧ (∀ m, ((host_irq_register_cpus n name func dev alloc cpus h).2.irq m).state
          = (h.irq m).state)
      ∧ (∀ m c, ¬ (m = n ∧ c ∈ cpus) →
          ((host_irq_register_cpus n name func dev alloc cpus h).2.irq m).action_list c
            = (h.irq m).action_list c) := by
  refine ⟨?_, fun m => ?_, fun m c hmc => ?_⟩
  · exact host_irq_register_cpus_induct (fun h0 => h0.extirqctrl = h.extirqctrl) n name func
      dev alloc cpus h
      (fun h0 cpu _ hq => (host_irq_register_frame h0 n name func dev cpu (alloc cpu)).1.trans hq)
      rfl
  · exact host_irq_register_cpus_induct (fun h0 => (h0.irq m).state = (h.irq m).state) n name
      func dev alloc cpus h
      (fun h0 cpu _ hq =>
        ((host_irq_register_frame h0 n name func dev cpu (alloc cpu)).2.1 m).trans hq)
      rfl
  · exact host_irq_register_cpus_induct
      (fun h0 => (h0.irq m).action_list c = (h.irq m).action_list c) n name func dev alloc cpus h
      (fun h0 cpu hcpu hq =>
        ((host_irq_register_frame h0 n name func dev cpu (alloc cpu)).2.2.1 m c
          (fun e => hmc ⟨e.1, e.2 ▸ hcpu⟩)).trans hq)
      rfl

theorem host_irq_unregister_cpus_frame (n dev : Nat) (cpus : List Nat) (h : HostIrqs)
    (d : Bool) :
    (host_irq_unregister_cpus n dev cpus h d).2.1.extirqctrl = h.extirqctrl
      ∧ (∀ m, ((host_irq_unregister_cpus n dev cpus h d).2.1.irq m).state = (h.irq m).state)
      ∧ (∀ m c, ¬ (m = n ∧ c ∈ cpus) →
          ((host_irq_unregister_cpus n dev cpus h d).2.1.irq m).action_list c
            = (h.irq m).action_list c) := by
  refine ⟨?_, fun m => ?_, fun m c hmc => ?_⟩
  · exact host_irq_unregister_cpus_induct (fun h0 => h0.extirqctrl = h.extirqctrl) n dev cpus
      h d (fun h0 cpu d0 _ hq => (host_irq_unregister_frame h0 n dev cpu d0).1.trans hq) rfl
  · exact host_irq_unregister_cpus_induct (fun h0 => (h0.irq m).state = (h.irq m).state) n dev
      cpus h d
      (fun h0 cpu d0 _ hq => ((host_irq_unregister_frame h0 n dev cpu d0).2.1 m).trans hq) rfl
  · exact host_irq_unregister_cpus_induct
      (fun h0 => (h0.irq m).action_list c = (h.irq m).action_list c) n dev cpus h d
      (fun h0 cpu d0 hcpu hq =>
        ((host_irq_unregister_frame h0 n dev cpu d0).2.2.1 m c
          (fun e => hmc ⟨e.1, e.2 ▸ hcpu⟩)).trans hq)
      rfl

theorem host_irq_register_cpus_dup (n : Nat) (name : Option String) (func dev : Nat)
    (alloc : Nat → Bool) (cpu : Nat) :
    ∀ (cpus : List Nat) (h : HostIrqs), cpu ∈ cpus →
      ((h.irq n).action_list cpu).any (fun act => act.dev == dev) = true →
      (host_irq_register_cpus n name func dev alloc cpus h).1 ≠ VMM_OK
        ∧ ((host_irq_register_cpus n name func dev alloc cpus h).2.irq n).action_list cpu
            = (h.irq n).action_list cpu := by
  intro cpus
  induction cpus with
  | nil => intro h hc; simp at hc
  | cons c rest ih =>
    intro h hc hany
    obtain ⟨_, _, hother, _, hfail⟩ := host_irq_register_frame h n name func dev c (alloc c)
    simp only [host_irq_register_cpus]
    split
    · rename_i hr
      refine ⟨hr, ?_⟩
      by_cases hcc : cpu = c
      · subst hcc; exact hfail hr
      · exact hother n cpu (fun e => hcc e.2)
    · rename_i hr
      have hcc : cpu ≠ c := by
        intro e
        subst e
        rw [host_irq_register_dup h n name func dev cpu (alloc cpu) hany] at hr
        apply hr
        simp
      have hmem : cpu ∈ rest := by
        rcases List.mem_cons.1 hc with e | e
        · exact absurd e hcc
        · exact e
      have hl := hother n cpu (fun e => hcc e.2)
      obtain ⟨h1, h2⟩ := ih _ hmem (by rw [hl]; exact hany)
      exact ⟨h1, h2.trans hl⟩

/-- C19: in every state reached from IRQ objects with empty action lists by a finite sequence
of `vmm_host_irq_register`, `vmm_host_irq_unregister`, `vmm_host_irq_mark_per_cpu` and
`vmm_host_irq_unmark_per_cpu` calls, no action list holds two actions with the same `dev`;
and in such a state registering a `dev` that is already on the list of a targeted CPU (the
calling CPU for a `PER_CPU` IRQ, any of the `CONFIG_CPU_COUNT` CPUs otherwise) returns an
error code and leaves that list as it was. -/
theorem one_action_per_irq_cpu_dev (cfg : IrqConfig) (h h1 : HostIrqs) (evs : List IrqEvent)
    (hfresh : ∀ n cpu, (h.irq n).action_list cpu = [])
    (hrun : irq_run cfg h evs = some h1) :
    one_action_per_dev h1
      ∧ ∀ hirq_num n name func dev cur_cpu alloc cpu,
          vmm_host_irq_get cfg h1 hirq_num = irq_ptr.obj n →
          (if vmm_host_irq_is_per_cpu cfg (h1.irq n) = true then cpu = cur_cpu
            else cpu < cfg.CONFIG_CPU_COUNT) →
          dev ∈ ((h1.irq n).action_list cpu).map (fun act => act.dev) →
          ∃ rc h2,
            vmm_host_irq_register cfg h1 hirq_num name func dev cur_cpu alloc = some (rc, h2)
              ∧ rc ≠ VMM_OK
              ∧ (h2.irq n).action_list cpu = (h1.irq n).action_list cpu := by
  refine ⟨irq_run_nodup cfg evs h h1 (fun n cpu => by simp [hfresh n cpu]) hrun, ?_⟩
  intro hirq_num n name func dev cur_cpu alloc cpu hget htarget hdev
  have hany := (any_dev_eq_true _ _).2 hdev
  simp only [vmm_host_irq_register, with_irq, hget]
  split at htarget
  · rename_i hpc
    subst htarget
    simp only [hpc, if_true, host_irq_register_dup h1 n name func dev cpu (alloc cpu) hany]
    exact ⟨VMM_EFAIL, h1, by simp, by decide, rfl⟩
  · rename_i hpc
    obtain ⟨hne, hl⟩ := host_irq_register_cpus_dup n name func dev alloc cpu
      (List.range cfg.CONFIG_CPU_COUNT) h1 (List.mem_range.2 htarget) hany
    rw [if_neg hpc, if_pos hne]
    exact ⟨_, _, rfl, hne, hl⟩

/-- C19, witness: the example calls reach `ex_registered` from objects with empty action
lists; there IRQ 2 is marked `PER_CPU` and holds `dev = 5` on the list of CPU 1, and a second
registration of `dev = 5` from CPU 1 is refused. -/
theorem one_action_per_irq_cpu_dev_witness :
    (∀ n cpu, (ex_host_irqs.irq n).action_list cpu = [])
      ∧ irq_run ex_irq_config ex_host_irqs ex_irq_events = some ex_registered
      ∧ one_action_per_dev ex_registered
      ∧ ∃ rc h2,
          vmm_host_irq_register ex_irq_config ex_registered 2 (some "timer") 4 5 1
              (fun _ => true) = some (rc, h2)
            ∧ rc ≠ VMM_OK
            ∧ (h2.irq 2).action_list 1 = (ex_registered.irq 2).action_list 1 :=
  ⟨fun _ _ => rfl, rfl,
    (one_action_per_irq_cpu_dev ex_irq_config ex_host_irqs ex_registered ex_irq_events
      (fun _ _ => rfl) rfl).1,
    (one_action_per_irq_cpu_dev ex_irq_config ex_host_irqs ex_registered ex_irq_events
      (fun _ _ => rfl) rfl).2 2 2 (some "timer") 4 5 1 (fun _ => true) 1 rfl (by decide)
      (by decide)⟩

theorem host_irq_register_ok (h : HostIrqs) (n : Nat) (name : Option String)
    (func dev cpu : Nat)
    (hany : ((h.irq n).action_list cpu).any (fun act => act.dev == dev) = false) :
    (host_irq_register h n name func dev cpu true).1 = VMM_OK := by
  simp [host_irq_register, hany]

theorem host_irq_unregister_ok (h : HostIrqs) (n dev cpu : Nat) (d : Bool)
    (hany : ((h.irq n).action_list cpu).any (fun act => act.dev == dev) = true) :
    (host_irq_unregister h n dev cpu d).1 = VMM_OK := by
  simp [host_irq_unregister, hany]

theorem host_irq_unregister_missing (h : HostIrqs) (n dev cpu : Nat) (d : Bool)
    (hany : ((h.irq n).action_list cpu).any (fun act => act.dev == dev) = false) :
    host_irq_unregister h n dev cpu d = (VMM_EFAIL, h, d) := by
  simp [host_irq_unregister, hany]

theorem host_irq_register_cpus_uniform (n : Nat) (name : Option String) (func dev : Nat)
    (alloc : Nat → Bool) (halloc : ∀ cpu, alloc cpu = true) (l : List vmm_host_irq_action)
    (hl : l.any (fun act => act.dev == dev) = false) :
    ∀ (cpus : List Nat) (h : HostIrqs), cpus.Nodup →
      (∀ c, c ∈ cpus → (h.irq n).action_list c = l) →
      ∀ c, c ∈ cpus →
        ((host_irq_register_cpus n name func dev alloc cpus h).2.irq n).action_list c
          = l ++ [⟨func, dev⟩] := by
  intro cpus
  induction cpus with
  | nil => intro h _ _ c hc; simp at hc
  | cons c0 rest ih =>
    intro h hnd hall c hc
    obtain ⟨hc0, hrest⟩ := List.nodup_cons.1 hnd
    have hl0 := hall c0 (List.mem_cons_self _ _)
    obtain ⟨_, _, hother, hok, _⟩ := host_irq_register_frame h n name func dev c0 (alloc c0)
    have hr : (host_irq_register h n name func dev c0 (alloc c0)).1 = VMM_OK := by
      rw [halloc c0]
      exact host_irq_register_ok h n name func dev c0 (by rw [hl0]; exact hl)
    simp only [host_irq_register_cpus, hr, ne_eq, not_true_eq_false, if_false]
    rcases List.mem_cons.1 hc with e | e
    · subst e
      rw [(host_irq_register_cpus_frame n name func dev alloc rest _).2.2 n c
        (fun e => hc0 e.2), (hok hr).2, hl0]
    · refine ih _ hrest (fun c1 hc1 => ?_) c e
      rw [hother n c1 (fun e1 => hc0 (e1.2 ▸ hc1))]
      exact hall c1 (List.mem_cons_of_mem _ hc1)

theorem host_irq_register_cpus_present (n : Nat) (name : Option String) (func dev : Nat)
    (alloc : Nat → Bool) (cpus : List Nat) (h : HostIrqs)
    (hall : ∀ c, c ∈ cpus →
      ((h.irq n).action_list c).any (fun act => act.dev == dev) = true) :
    (host_irq_register_cpus n name func dev alloc cpus h).2 = h := by
  cases cpus with
  | nil => rfl
  | cons c0 rest =>
    simp [host_irq_register_cpus,
      host_irq_register_dup h n name func dev c0 (alloc c0) (hall c0 (List.mem_cons_self _ _))]

theorem host_irq_unregister_cpus_uniform (n dev : Nat) (l : List vmm_host_irq_action)
    (hl : l.any (fun act => act.dev == dev) = true) :
    ∀ (cpus : List Nat) (h : HostIrqs) (d : Bool), cpus.Nodup →
      (∀ c, c ∈ cpus → (h.irq n).action_list c = l) →
      ∀ c, c ∈ cpus →
        ((host_irq_unregister_cpus n dev cpus h d).2.1.irq n).action_list c
          = l.eraseP (fun act => act.dev == dev) := by
  intro cpus
  induction cpus with
  | nil => intro h _ _ _ c hc; simp at hc
  | cons c0 rest ih =>
    intro h d hnd hall c hc
    obtain ⟨hc0, hrest⟩ := List.nodup_cons.1 hnd
    have hl0 := hall c0 (List.mem_cons_self _ _)
    obtain ⟨_, _, hother, hok, _⟩ := host_irq_unregister_frame h n dev c0 d
    have hr : (host_irq_unregister h n dev c0 d).1 = VMM_OK :=
      host_irq_unregister_ok h n dev c0 d (by rw [hl0]; exact hl)
    simp only [host_irq_unregister_cpus, hr, ne_eq, not_true_eq_false, if_false]
    rcases List.mem_cons.1 hc with e | e
    · subst e
      rw [(host_irq_unregister_cpus_frame n dev rest _ _).2.2 n c (fun e => hc0 e.2),
        (hok hr).2, hl0]
    · refine ih _ _ hrest (fun c1 hc1 => ?_) c e
      rw [hother n c1 (fun e1 => hc0 (e1.2 ▸ hc1))]
      exact hall c1 (List.mem_cons_of_mem _ hc1)

theorem host_irq_unregister_cpus_missing (n dev : Nat) (cpus : List Nat) (h : HostIrqs)
    (d : Bool)
    (hall : ∀ c, c ∈ cpus →
      ((h.irq n).action_list c).any (fun act => act.dev == dev) = false) :
    (host_irq_unregister_cpus n dev cpus h d).2.1 = h := by
  cases cpus with
  | nil => rfl
  | cons c0 rest =>
    simp [host_irq_unregister_cpus,
      host_irq_unregister_missing h n dev c0 d (hall c0 (List.mem_cons_self _ _))]

theorem is_per_cpu_of_state (cfg : IrqConfig) (a b : vmm_host_irq) (hs : a.state = b.state) :
    vmm_host_irq_is_per_cpu cfg a = vmm_host_irq_is_per_cpu cfg b := by
  simp [vmm_host_irq_is_per_cpu, hs]

theorem replicated_of_frame (cfg : IrqConfig) (h h1 : HostIrqs)
    (hact : ∀ m, (h1.irq m).action_list = (h.irq m).action_list)
    (hpc : ∀ m, vmm_host_irq_is_per_cpu cfg (h1.irq m) = vmm_host_irq_is_per_cpu cfg (h.irq m))
    (hinv : replicated cfg h) : replicated cfg h1 := by
  intro m hm c hc
  rw [hact m]
  exact hinv m (by rw [← hpc m]; exact hm) c hc

theorem register_replicated (cfg : IrqConfig) (h : HostIrqs) (n : Nat) (name : Option String)
    (func dev cpu : Nat) (alloc : Nat → Bool) (halloc : ∀ c, alloc c = true)
    (hinv : replicated cfg h) :
    replicated cfg
        (if vmm_host_irq_is_per_cpu cfg (h.irq n) = true then
          host_irq_register h n name func dev cpu (alloc cpu)
        else
          host_irq_register_cpus n name func dev alloc (List.range cfg.CONFIG_CPU_COUNT) h).2
      ∧ (∀ m, vmm_host_irq_is_per_cpu cfg
            ((if vmm_host_irq_is_per_cpu cfg (h.irq n) = true then
              host_irq_register h n name func dev cpu (alloc cpu)
            else
              host_irq_register_cpus n name func dev alloc
                (List.range cfg.CONFIG_CPU_COUNT) h).2.irq m)
          = vmm_host_irq_is_per_cpu cfg (h.irq m)) := by
  by_cases hpc : vmm_host_irq_is_per_cpu cfg (h.irq n) = true
  · rw [if_pos hpc]
    obtain ⟨_, hstate, hother, _, _⟩ := host_irq_register_frame h n name func dev cpu (alloc cpu)
    have hsame := fun m => is_per_cpu_of_state cfg _ _ (hstate m)
    refine ⟨fun m hm c hc => ?_, hsame⟩
    rw [hsame m] at hm
    have hmn : m ≠ n := fun e => by rw [e, hpc] at hm; exact Bool.noConfusion hm
    rw [hother m c (fun e => hmn e.1), hother m 0 (fun e => hmn e.1)]
    exact hinv m hm c hc
  · rw [if_neg hpc]
    obtain ⟨_, hstate, hother⟩ := host_irq_register_cpus_frame n name func dev alloc
      (List.range cfg.CONFIG_CPU_COUNT) h
    have hsame := fun m => is_per_cpu_of_state cfg _ _ (hstate m)
    refine ⟨fun m hm c hc => ?_, hsame⟩
    rw [hsame m] at hm
    by_cases hmn : m = n
    · subst hmn
      have hall : ∀ c1, c1 ∈ List.range cfg.CONFIG_CPU_COUNT →
          (h.irq m).action_list c1 = (h.irq m).action_list 0 :=
        fun c1 hc1 => hinv m hm c1 (List.mem_range.1 hc1)
      have h0 : 0 ∈ List.range cfg.CONFIG_CPU_COUNT := List.mem_range.2 (by omega)
      have hcm : c ∈ List.range cfg.CONFIG_CPU_COUNT := List.mem_range.2 hc
      cases hany : ((h.irq m).action_list 0).any (fun act => act.dev == dev)
      · rw [host_irq_register_cpus_uniform m name func dev alloc halloc _ hany _ h
            (List.nodup_range _) hall c hcm,
          host_irq_register_cpus_uniform m name func dev alloc halloc _ hany _ h
            (List.nodup_range _) hall 0 h0]
      · rw [host_irq_register_cpus_present m name func dev alloc _ h
          (fun c1 hc1 => by rw [hall c1 hc1]; exact hany)]
        exact hinv m hm c hc
    · rw [hother m c (fun e => hmn e.1), hother m 0 (fun e => hmn e.1)]
      exact hinv m hm c hc

theorem unregister_replicated (cfg : IrqConfig) (h : HostIrqs) (n dev cpu : Nat)
    (hinv : replicated cfg h) :
    replicated cfg
        (if vmm_host_irq_is_per_cpu cfg (h.irq n) = true then
          host_irq_unregister h n dev cpu false
        else host_irq_unregister_cpus n dev (List.range cfg.CONFIG_CPU_COUNT) h false).2.1
      ∧ (∀ m, vmm_host_irq_is_per_cpu cfg
            ((if vmm_host_irq_is_per_cpu cfg (h.irq n) = true then
              host_irq_unregister h n dev cpu false
            else
              host_irq_unregister_cpus n dev (List.range cfg.CONFIG_CPU_COUNT) h false).2.1.irq m)
          = vmm_host_irq_is_per_cpu cfg (h.irq m)) := by
  by_cases hpc : vmm_host_irq_is_per_cpu cfg (h.irq n) = true
  · rw [if_pos hpc]
    obtain ⟨_, hstate, hother, _, _⟩ := host_irq_unregister_frame h n dev cpu false
    have hsame := fun m => is_per_cpu_of_state cfg _ _ (hstate m)
    refine ⟨fun m hm c hc => ?_, hsame⟩
    rw [hsame m] at hm
    have hmn : m ≠ n := fun e => by rw [e, hpc] at hm; exact Bool.noConfusion hm
    rw [hother m c (fun e => hmn e.1), hother m 0 (fun e => hmn e.1)]
    exact hinv m hm c hc
  · rw [if_neg hpc]
    obtain ⟨_, hstate, hother⟩ := host_irq_unregister_cpus_frame n dev
      (List.range cfg.CONFIG_CPU_COUNT) h false
    have hsame := fun m => is_per_cpu_of_state cfg _ _ (hstate m)
    refine ⟨fun m hm c hc => ?_, hsame⟩
    rw [hsame m] at hm
    by_cases hmn : m = n
    · subst hmn
      have hall : ∀ c1, c1 ∈ List.range cfg.CONFIG_CPU_COUNT →
          (h.irq m).action_list c1 = (h.irq m).action_list 0 :=
        fun c1 hc1 => hinv m hm c1 (List.mem_range.1 hc1)
      have h0 : 0 ∈ List.range cfg.CONFIG_CPU_COUNT := List.mem_range.2 (by omega)
      have hcm : c ∈ List.range cfg.CONFIG_CPU_COUNT := List.mem_range.2 hc
      cases hany : ((h.irq m).action_list 0).any (fun act => act.dev == dev)
      · rw [host_irq_unregister_cpus_missing m dev _ h false
          (fun c1 hc1 => by rw [hall c1 hc1]; exact hany)]
        exact hinv m hm c hc
      · rw [host_irq_unregister_cpus_uniform m dev _ hany _ h false (List.nodup_range _) hall c
            hcm,
          host_irq_unregister_cpus_uniform m dev _ hany _ h false (List.nodup_range _) hall 0
            h0]
    · rw [hother m c (fun e => hmn e.1), hother m 0 (fun e => hmn e.1)]
      exact hinv m hm c hc

theorem irq_step_replicated (cfg : IrqConfig) (h h1 : HostIrqs) (ev : IrqEvent)
    (hp : cfg.VMM_IRQ_STATE_PER_CPU < 2 ^ 32)
    (hpd : cfg.VMM_IRQ_STATE_PER_CPU &&& cfg.VMM_IRQ_STATE_DISABLED = 0)
    (hpm : cfg.VMM_IRQ_STATE_PER_CPU &&& cfg.VMM_IRQ_STATE_MASKED = 0)
    (hev : no_unmark_no_alloc_failure [ev]) (hinv : replicated cfg h)
    (hstep : irq_step cfg h ev = some h1) : replicated cfg h1 := by
  cases ev with
  | register hirq_num name func dev cpu alloc =>
    simp only [irq_step, vmm_host_irq_register, with_irq, Option.map_eq_some'] at hstep
    obtain ⟨r, hr, rfl⟩ := hstep
    cases hg : vmm_host_irq_get cfg h hirq_num with
    | null => simp only [hg, Option.some.injEq] at hr; subst hr; exact hinv
    | wild => simp [hg] at hr
    | obj n =>
      simp only [hg] at hr
      obtain ⟨hreg, _⟩ := register_replicated cfg h n name func dev cpu alloc hev.1 hinv
      generalize (if vmm_host_irq_is_per_cpu cfg (h.irq n) = true then
            host_irq_register h n name func dev cpu (alloc cpu)
          else
            host_irq_register_cpus n name func dev alloc (List.range cfg.CONFIG_CPU_COUNT) h)
        = R at hr hreg
      split at hr
      · simp only [Option.some.injEq] at hr; subst hr; exact hreg
      · exact replicated_of_frame cfg _ _ (enable_actions _ _ _ _ hr).2
          (enable_per_cpu _ _ _ _ hp hpd hr) hreg
  | unregister hirq_num dev cpu =>
    simp only [irq_step, vmm_host_irq_unregister, with_irq, Option.map_eq_some'] at hstep
    obtain ⟨r, hr, rfl⟩ := hstep
    cases hg : vmm_host_irq_get cfg h hirq_num with
    | null => simp only [hg, Option.some.injEq] at hr; subst hr; exact hinv
    | wild => simp [hg] at hr
    | obj n =>
      simp only [hg] at hr
      obtain ⟨hreg, _⟩ := unregister_replicated cfg h n dev cpu hinv
      generalize (if vmm_host_irq_is_per_cpu cfg (h.irq n) = true then
            host_irq_unregister h n dev cpu false
          else host_irq_unregister_cpus n dev (List.range cfg.CONFIG_CPU_COUNT) h false)
        = R at hr hreg
      split at hr
      · simp only [Option.some.injEq] at hr; subst hr; exact hreg
      · split at hr
        · exact replicated_of_frame cfg _ _ (disable_actions _ _ _ _ hr).2
            (disable_per_cpu _ _ _ _ hpd hpm hr) hreg
        · simp only [Option.some.injEq] at hr; subst hr; exact hreg
  | mark_per_cpu hirq_num =>
    simp only [irq_step, vmm_host_irq_mark_per_cpu, with_irq, Option.map_eq_some'] at hstep
    obtain ⟨r, hr, rfl⟩ := hstep
    cases hg : vmm_host_irq_get cfg h hirq_num with
    | null => simp only [hg, Option.some.injEq] at hr; subst hr; exact hinv
    | wild => simp [hg] at hr
    | obj n =>
      simp only [hg, Option.some.injEq] at hr
      subst hr
      intro m hm c hc
      by_cases hmn : m = n
      · subst hmn
        simp only [set_irq, Function.update_same, vmm_host_irq_is_per_cpu, per_cpu_lor_self,
          bne_eq_false_iff_eq] at hm ⊢
        exact hinv m (by simp [vmm_host_irq_is_per_cpu, hm]) c hc
      · simp only [set_irq, Function.update_noteq hmn] at hm ⊢
        exact hinv m hm c hc
  | unmark_per_cpu hirq_num => exact absurd hev (by simp [no_unmark_no_alloc_failure])

theorem irq_run_replicated (cfg : IrqConfig)
    (hp : cfg.VMM_IRQ_STATE_PER_CPU < 2 ^ 32)
    (hpd : cfg.VMM_IRQ_STATE_PER_CPU &&& cfg.VMM_IRQ_STATE_DISABLED = 0)
    (hpm : cfg.VMM_IRQ_STATE_PER_CPU &&& cfg.VMM_IRQ_STATE_MASKED = 0) :
    ∀ (evs : List IrqEvent) (h h1 : HostIrqs), no_unmark_no_alloc_failure evs →
      replicated cfg h → irq_run cfg h evs = some h1 → replicated cfg h1 := by
  intro evs
  induction evs with
  | nil =>
    intro h h1 _ hinv hrun
    simp only [irq_run, Option.some.injEq] at hrun
    subst hrun
    exact hinv
  | cons ev evs ih =>
    intro h h1 hevs hinv hrun
    simp only [irq_run] at hrun
    cases hs : irq_step cfg h ev with
    | none => simp [hs] at hrun
    | some h2 =>
      simp only [hs] at hrun
      have hev : no_unmark_no_alloc_failure [ev] ∧ no_unmark_no_alloc_failure evs := by
        cases ev <;> simp_all [no_unmark_no_alloc_failure]
      exact ih h2 h1 hev.2 (irq_step_replicated cfg h h2 ev hp hpd hpm hev.1 hinv hs) hrun

/-- C20, counterexample: from the freshly initialised example state, (a) marking IRQ 1
`PER_CPU`, registering `dev = 9` on CPU 0 and unmarking it, and (b) a registration on the
shared IRQ 1 whose allocation fails for CPU 1, both reach a state in which the `PER_CPU` flag
of IRQ 1 is clear while the action list of CPU 0 holds the action and that of CPU 1 is
empty. -/
theorem registrations_replicated_counterexample :
    (∀ n cpu, (ex_host_irqs.irq n).action_list cpu = [])
      ∧ irq_run ex_irq_config ex_host_irqs ex_unmark_events = some ex_unmarked
      ∧ vmm_host_irq_is_per_cpu ex_irq_config (ex_unmarked.irq 1) = false
      ∧ (ex_unmarked.irq 1).action_list 0 = [⟨7, 9⟩]
      ∧ (ex_unmarked.irq 1).action_list 1 = []
      ∧ irq_run ex_irq_config ex_host_irqs ex_enomem_events = some ex_enomem
      ∧ vmm_host_irq_is_per_cpu ex_irq_config (ex_enomem.irq 1) = false
      ∧ (ex_enomem.irq 1).action_list 0 = [⟨7, 9⟩]
      ∧ (ex_enomem.irq 1).action_list 1 = []
      ∧ 1 < ex_irq_config.CONFIG_CPU_COUNT
      ∧ ¬ replicated ex_irq_config ex_unmarked
      ∧ ¬ replicated ex_irq_config ex_enomem :=
  ⟨fun _ _ => rfl, rfl, by decide, by decide, by decide, rfl, by decide, by decide, by decide,
    by decide, fun hrep => absurd (hrep 1 (by decide) 1 (by decide)) (by decide),
    fun hrep => absurd (hrep 1 (by decide) 1 (by decide)) (by decide)⟩

/-- C20, amended: with a `u32` `PER_CPU` flag that shares no bit with `DISABLED` and
`MASKED`, in every state reached from IRQ objects with empty action lists by a finite
sequence of `vmm_host_irq_register`, `vmm_host_irq_unregister` and
`vmm_host_irq_mark_per_cpu` calls in which every allocation succeeds, every IRQ object whose
`PER_CPU` flag is clear has the same action list on all `CONFIG_CPU_COUNT` CPUs. -/
theorem registrations_replicated (cfg : IrqConfig) (h h1 : HostIrqs) (evs : List IrqEvent)
    (hp : cfg.VMM_IRQ_STATE_PER_CPU < 2 ^ 32)
    (hpd : cfg.VMM_IRQ_STATE_PER_CPU &&& cfg.VMM_IRQ_STATE_DISABLED = 0)
    (hpm : cfg.VMM_IRQ_STATE_PER_CPU &&& cfg.VMM_IRQ_STATE_MASKED = 0)
    (hfresh : ∀ n cpu, (h.irq n).action_list cpu = [])
    (hevs : no_unmark_no_alloc_failure evs)
    (hrun : irq_run cfg h evs = some h1) :
    ∀ n, vmm_host_irq_is_per_cpu cfg (h1.irq n) = false →
      ∀ cpu, cpu < cfg.CONFIG_CPU_COUNT →
        (h1.irq n).action_list cpu = (h1.irq n).action_list 0 :=
  irq_run_replicated cfg hp hpd hpm evs h h1 hevs
    (fun n _ c _ => by rw [hfresh n c, hfresh n 0]) hrun

/-- C20, witness: the example calls hold no `unmark_per_cpu` and no failing allocation; in
the state they reach, the shared IRQ 1 holds its one action on CPU 0 and the same list on
CPU 1. -/
theorem registrations_replicated_witness :
    (∀ n cpu, (ex_host_irqs.irq n).action_list cpu = [])
      ∧ no_unmark_no_alloc_failure ex_irq_events
      ∧ irq_run ex_irq_config ex_host_irqs ex_irq_events = some ex_registered
      ∧ vmm_host_irq_is_per_cpu ex_irq_config (ex_registered.irq 1) = false
      ∧ (ex_registered.irq 1).action_list 0 = [⟨7, 9⟩]
      ∧ (ex_registered.irq 1).action_list 1 = (ex_registered.irq 1).action_list 0 :=
  ⟨fun _ _ => rfl, by simp [no_unmark_no_alloc_failure, ex_irq_events], rfl, by decide,
    by decide,
    registrations_replicated ex_irq_config ex_host_irqs ex_registered ex_irq_events
      (by decide) (by decide) (by decide) (fun _ _ => rfl)
      (by simp [no_unmark_no_alloc_failure, ex_irq_events]) rfl 1 (by decide) 1 (by decide)⟩


/-! ### C21: the level flow handler -/

theorem call_actions_eq_take (ret : Nat → Nat → Nat → vmm_irq_return_t) (num : Nat) :
    ∀ acts : List vmm_host_irq_action,
      call_actions ret num acts
        = (acts.take (walk_length ret num acts)).map
            (fun act => FlowCall.action act.func num act.dev) := by
  intro acts
  induction acts with
  | nil => rfl
  | cons a rest ih =>
    by_cases ha : ret a.func num a.dev = VMM_IRQ_HANDLED
    · simp [call_actions, walk_length, List.findIdx_cons, ha]
    · have hk : walk_length ret num (a :: rest) = walk_length ret num rest + 1 := by
        simp only [walk_length, List.findIdx_cons, ha, decide_False, cond_false,
          List.length_cons]
        omega
      rw [hk]
      simp [call_actions, ha, ih]

/-- C21: for an IRQ whose chip provides `irq_mask`, `irq_ack` and `irq_unmask` but no
`irq_mask_ack`, one run of `vmm_handle_level_irq` on a CPU with the action list
`[a_1, ..., a_n]` makes exactly the calls mask, ack, `a_1`, ..., `a_k`, unmask, in this order,
where `k` is the position of the first action that returns `VMM_IRQ_HANDLED`, or `n` if none
does; when the chip provides `irq_mask_ack`, the single call mask_ack stands in the place of
mask, ack. -/
theorem level_flow_order (irq : vmm_host_irq) (chip : vmm_host_irq_chip) (cpu : Nat)
    (ret : Nat → Nat → Nat → vmm_irq_return_t) (hchip : irq.chip = some chip) :
    (chip.irq_mask_ack = false → chip.irq_mask = true → chip.irq_ack = true →
        chip.irq_unmask = true →
        vmm_handle_level_irq irq cpu ret
          = [FlowCall.chip (ChipCall.irq_mask irq.num), FlowCall.chip (ChipCall.irq_ack irq.num)]
            ++ ((irq.action_list cpu).take (walk_length ret irq.num (irq.action_list cpu))).map
                (fun act => FlowCall.action act.func irq.num act.dev)
            ++ [FlowCall.chip (ChipCall.irq_unmask irq.num)])
      ∧ (chip.irq_mask_ack = true →
        vmm_handle_level_irq irq cpu ret
          = [FlowCall.chip (ChipCall.irq_mask_ack irq.num)]
            ++ ((irq.action_list cpu).take (walk_length ret irq.num (irq.action_list cpu))).map
                (fun act => FlowCall.action act.func irq.num act.dev)
            ++ (if chip.irq_unmask = true then [FlowCall.chip (ChipCall.irq_unmask irq.num)]
                else [])) := by
  refine ⟨fun h1 h2 h3 h4 => ?_, fun h1 => ?_⟩
  · simp [vmm_handle_level_irq, hchip, chip_probe, h1, h2, h3, h4, call_actions_eq_take]
  · simp [vmm_handle_level_irq, hchip, chip_probe, h1, call_actions_eq_take]

/-- C21, witness: on the example IRQ of scenario 5, whose second action claims the interrupt,
the calls are mask, ack, the first action, the second action, unmask. -/
theorem level_flow_order_witness :
    ex_level_irq.chip = some ex_level_chip
      ∧ walk_length ex_ret ex_level_irq.num (ex_level_irq.action_list 0) = 2
      ∧ vmm_handle_level_irq ex_level_irq 0 ex_ret
          = [FlowCall.chip (ChipCall.irq_mask 1), FlowCall.chip (ChipCall.irq_ack 1),
              FlowCall.action 21 1 11, FlowCall.action 22 1 12,
              FlowCall.chip (ChipCall.irq_unmask 1)] :=
  ⟨rfl, by decide,
    ((level_flow_order ex_level_irq ex_level_chip 0 ex_ret rfl).1 rfl rfl rfl rfl).trans
      (by decide)⟩

/-! ### C22: the layout made by `vmm_host_extirq_map` -/

theorem u32_sub_eq (a b : Nat) (hb : b ≤ a) (ha : a < 2 ^ 32) : u32_sub a b = a - b := by
  unfold u32_sub
  omega

theorem toDigits_length_le (d : Nat) (hd : d < 1000) : (Nat.toDigits 10 d).length ≤ 3 :=
  Nat.toDigitsCore_length 10 (by norm_num) (d + 1) d 3 (by norm_num; exact hd) (by norm_num)

theorem extirq_name_eq (basename : String) (d : Nat) (hd : d < 1000) :
    extirq_name (basename.length + 5) basename d = basename ++ "." ++ toString d := by
  have h := toDigits_length_le d hd
  unfold extirq_name
  apply String.ext
  simp only [String.data_append]
  rw [List.take_of_length_le]
  · show _ = basename.data ++ ['.'] ++ (Nat.toDigits 10 d)
    simp
  · simp only [List.length_append, List.length_cons, String.length]
    omega

/-- One iteration of the children loop whose slot lies in the table: the result exists, and
differs from the state before by the child object, the table slot and the base. -/
theorem extirq_map_child_spec (cfg : IrqConfig) (basename : String) (len : Nat)
    (chip : Option vmm_host_irq_chip) (chip_data : Option Nat) (i : Nat) (h : HostIrqs)
    (hb : cfg.CONFIG_HOST_IRQ_COUNT ≤ h.extirqctrl.base)
    (hlt : h.extirqctrl.base + 1 < 2 ^ 32)
    (htab : h.extirqctrl.base + 1 ≤ cfg.CONFIG_HOST_IRQ_COUNT + cfg.CONFIG_EXTENDED_IRQ_NB) :
    ∃ h2, extirq_map_child cfg basename len chip chip_data i h = some h2
      ∧ h2.extirqctrl.base = h.extirqctrl.base + 1
      ∧ h2.extirqctrl.count = h.extirqctrl.count
      ∧ h2.extirqctrl.groups = h.extirqctrl.groups
      ∧ h2.chip_trace = h.chip_trace
      ∧ h2.extirqctrl.irqs
          = Function.update h.extirqctrl.irqs
              (h.extirqctrl.base - cfg.CONFIG_HOST_IRQ_COUNT) (some h.extirqctrl.base)
      ∧ h2.irq
          = Function.update h.irq h.extirqctrl.base
              { host_irq_init_irq cfg h.extirqctrl.base with
                name := some (extirq_name len basename (i + 1))
                chip := chip
                chip_data := chip_data } := by
  have hmod : (h.extirqctrl.base + 1) % 2 ^ 32 = h.extirqctrl.base + 1 :=
    Nat.mod_eq_of_lt (by omega)
  have hsub := u32_sub_eq h.extirqctrl.base cfg.CONFIG_HOST_IRQ_COUNT hb (by omega)
  have hslot : h.extirqctrl.base - cfg.CONFIG_HOST_IRQ_COUNT < cfg.CONFIG_EXTENDED_IRQ_NB := by
    omega
  have hchild : extirq_map_child cfg basename len chip chip_data i h
      = some
        { irq :=
            Function.update h.irq h.extirqctrl.base
              { host_irq_init_irq cfg h.extirqctrl.base with
                name := some (extirq_name len basename (i + 1))
                chip := chip
                chip_data := chip_data }
          extirqctrl :=
            { h.extirqctrl with
              irqs :=
                Function.update h.extirqctrl.irqs
                  (h.extirqctrl.base - cfg.CONFIG_HOST_IRQ_COUNT) (some h.extirqctrl.base)
              base := h.extirqctrl.base + 1 }
          chip_trace := h.chip_trace } := by
    simp only [extirq_map_child, extirq_table_store, hsub, if_pos hslot, Option.map_some',
      hmod, set_irq]
  exact ⟨_, hchild, rfl, rfl, rfl, rfl, rfl, rfl⟩

theorem extirq_map_children_spec (cfg : IrqConfig) (basename : String) (len : Nat)
    (chip : Option vmm_host_irq_chip) (chip_data : Option Nat) :
    ∀ (k i : Nat) (h : HostIrqs), cfg.CONFIG_HOST_IRQ_COUNT ≤ h.extirqctrl.base →
      h.extirqctrl.base + k < 2 ^ 32 →
      h.extirqctrl.base + k ≤ cfg.CONFIG_HOST_IRQ_COUNT + cfg.CONFIG_EXTENDED_IRQ_NB →
      ∃ hk, extirq_map_children cfg basename len chip chip_data k i h = some hk
        ∧ hk.extirqctrl.base = h.extirqctrl.base + k
        ∧ hk.extirqctrl.count = h.extirqctrl.count
        ∧ hk.extirqctrl.groups = h.extirqctrl.groups
        ∧ hk.chip_trace = h.chip_trace
        ∧ (∀ j, j < k →
            hk.extirqctrl.irqs (h.extirqctrl.base + j - cfg.CONFIG_HOST_IRQ_COUNT)
              = some (h.extirqctrl.base + j)
            ∧ hk.irq (h.extirqctrl.base + j)
              = { host_irq_init_irq cfg (h.extirqctrl.base + j) with
                  name := some (extirq_name len basename (i + j + 1))
                  chip := chip
                  chip_data := chip_data })
        ∧ (∀ idx, idx < h.extirqctrl.base - cfg.CONFIG_HOST_IRQ_COUNT
              ∨ h.extirqctrl.base + k - cfg.CONFIG_HOST_IRQ_COUNT ≤ idx →
            hk.extirqctrl.irqs idx = h.extirqctrl.irqs idx)
        ∧ (∀ m, m < h.extirqctrl.base ∨ h.extirqctrl.base + k ≤ m → hk.irq m = h.irq m) := by
  intro k
  induction k with
  | zero =>
    intro i h _ _ _
    exact ⟨h, rfl, rfl, rfl, rfl, rfl, fun j hj => absurd hj (Nat.not_lt_zero j),
      fun _ _ => rfl, fun _ _ => rfl⟩
  | succ k ih =>
    intro i h hb hlt htab
    obtain ⟨h2, hchild, e1, e2, e3, e4, e5, e6⟩ :=
      extirq_map_child_spec cfg basename len chip chip_data i h hb (by omega) (by omega)
    obtain ⟨hk, hrest, i1, i2, i3, i4, i5, i6, i7⟩ :=
      ih (i + 1) h2 (by omega) (by omega) (by omega)
    refine ⟨hk, by simp only [extirq_map_children, hchild]; exact hrest, by omega,
      i2.trans e2, i3.trans e3, i4.trans e4, fun j hj => ?_, fun idx hidx => ?_,
      fun m hm => ?_⟩
    · cases j with
      | zero =>
        refine ⟨?_, ?_⟩
        · rw [i6 _ (Or.inl (by omega)), e5]
          simp
        · rw [i7 _ (Or.inl (by omega)), e6]
          simp
      | succ j =>
        obtain ⟨a1, a2⟩ := i5 j (by omega)
        rw [e1] at a1 a2
        have hidx : h.extirqctrl.base + (j + 1) = h.extirqctrl.base + 1 + j := by omega
        have hname : i + (j + 1) + 1 = i + 1 + j + 1 := by omega
        rw [hidx, hname]
        exact ⟨a1, a2⟩
    · rw [i6 idx (by omega), e5, Function.update_noteq (by omega)]
    · rw [i7 m (by omega), e6, Function.update_noteq (by omega)]

theorem extirq_map_tail (cfg : IrqConfig) (h : HostIrqs) (hwirq : Nat) (basename : String)
    (n : Nat) (c : vmm_host_irq_chip) (cd : Option Nat) (dev : Nat) (alloc_ok : Bool)
    (h1 : HostIrqs) (g : Nat)
    (hmap : (if cfg.CONFIG_EXTENDED_IRQ_GROUP_NB ≤ h.extirqctrl.count then
        some (VMM_ENOTAVAIL, h, none)
      else if n ≠ 0 ∧ alloc_ok = false then none
      else
        (extirq_map_commit cfg h hwirq basename n c cd dev).map fun h1 =>
          (VMM_OK, h1, some h.extirqctrl.count)) = some (VMM_OK, h1, some g)) :
    g = h.extirqctrl.count ∧ h.extirqctrl.count < cfg.CONFIG_EXTENDED_IRQ_GROUP_NB
      ∧ extirq_map_commit cfg h hwirq basename n c cd dev = some h1 := by
  split at hmap
  · simp at hmap
  · split at hmap
    · simp at hmap
    · simp only [Option.map_eq_some', Prod.mk.injEq, true_and, Option.some.injEq] at hmap
      obtain ⟨a, ha, rfl, hg⟩ := hmap
      exact ⟨hg.symm, by omega, ha⟩

theorem extirq_map_ok (cfg : IrqConfig) (h : HostIrqs) (hwirq : Nat) (basename : String)
    (n : Nat) (chip : Option vmm_host_irq_chip) (chip_data : Option Nat) (dev : Nat)
    (alloc_ok : Bool) (h1 : HostIrqs) (g : Nat)
    (hmap : vmm_host_extirq_map cfg h hwirq basename n chip chip_data dev alloc_ok
      = some (VMM_OK, h1, some g)) :
    n ≤ 999 ∧ g = h.extirqctrl.count ∧ g < cfg.CONFIG_EXTENDED_IRQ_GROUP_NB
      ∧ ∃ c cd,
          (∀ c0, chip = some c0 → c = c0)
          ∧ (chip = none →
              ∃ p, vmm_host_irq_get cfg h hwirq = irq_ptr.obj p ∧ (h.irq p).chip = some c)
          ∧ (∀ d, chip_data = some d → cd = some d)
          ∧ (chip_data = none →
              ∃ p, vmm_host_irq_get cfg h hwirq = irq_ptr.obj p ∧ cd = (h.irq p).chip_data)
          ∧ extirq_map_commit cfg h hwirq basename n c cd dev = some h1 := by
  unfold vmm_host_extirq_map at hmap
  split at hmap
  · simp at hmap
  · rename_i hsz
    cases hg : vmm_host_irq_get cfg h hwirq with
    | null => simp [hg] at hmap
    | wild =>
      simp only [hg, irq_deref, Option.map_none'] at hmap
      cases chip with
      | none => simp at hmap
      | some c0 =>
        cases chip_data with
        | none => simp at hmap
        | some d =>
          simp only at hmap
          obtain ⟨hg0, hgn, hcm⟩ :=
            extirq_map_tail cfg h hwirq basename n _ _ dev alloc_ok h1 g hmap
          refine ⟨by omega, hg0, hg0 ▸ hgn, c0, some d, fun _ e => ?_, fun e => ?_,
            fun _ e => ?_, fun e => ?_, hcm⟩
          · exact (Option.some.inj e)
          · exact absurd e (by simp)
          · exact e
          · exact absurd e (by simp)
    | obj p =>
      simp only [hg, irq_deref, Option.map_some'] at hmap
      cases chip with
      | none =>
        simp only at hmap
        cases hpc : (h.irq p).chip with
        | none => simp [hpc] at hmap
        | some c =>
          simp only [hpc] at hmap
          cases chip_data with
          | none =>
            simp only at hmap
            obtain ⟨hg0, hgn, hcm⟩ :=
              extirq_map_tail cfg h hwirq basename n _ _ dev alloc_ok h1 g hmap
            exact ⟨by omega, hg0, hg0 ▸ hgn, c, (h.irq p).chip_data,
              fun _ e => absurd e (by simp), fun _ => ⟨p, rfl, hpc⟩,
              fun _ e => absurd e (by simp), fun _ => ⟨p, rfl, rfl⟩, hcm⟩
          | some d =>
            simp only at hmap
            obtain ⟨hg0, hgn, hcm⟩ :=
              extirq_map_tail cfg h hwirq basename n _ _ dev alloc_ok h1 g hmap
            exact ⟨by omega, hg0, hg0 ▸ hgn, c, some d,
              fun _ e => absurd e (by simp), fun _ => ⟨p, rfl, hpc⟩,
              fun _ e => e, fun e => absurd e (by simp), hcm⟩
      | some c0 =>
        simp only at hmap
        cases chip_data with
        | none =>
          simp only at hmap
          obtain ⟨hg0, hgn, hcm⟩ :=
            extirq_map_tail cfg h hwirq basename n _ _ dev alloc_ok h1 g hmap
          exact ⟨by omega, hg0, hg0 ▸ hgn, c0, (h.irq p).chip_data,
            fun _ e => Option.some.inj e, fun e => absurd e (by simp),
            fun _ e => absurd e (by simp), fun _ => ⟨p, rfl, rfl⟩, hcm⟩
        | some d =>
          simp only at hmap
          obtain ⟨hg0, hgn, hcm⟩ :=
            extirq_map_tail cfg h hwirq basename n _ _ dev alloc_ok h1 g hmap
          exact ⟨by omega, hg0, hg0 ▸ hgn, c0, some d,
            fun _ e => Option.some.inj e, fun e => absurd e (by simp),
            fun _ e => e, fun e => absurd e (by simp), hcm⟩

theorem extirq_map_commit_spec (cfg : IrqConfig) (h : HostIrqs) (hwirq : Nat)
    (basename : String) (n : Nat) (c : vmm_host_irq_chip) (cd : Option Nat) (dev : Nat)
    (hb : cfg.CONFIG_HOST_IRQ_COUNT ≤ h.extirqctrl.base)
    (hlt : h.extirqctrl.base + n < 2 ^ 32)
    (htab : h.extirqctrl.base + n ≤ cfg.CONFIG_HOST_IRQ_COUNT + cfg.CONFIG_EXTENDED_IRQ_NB) :
    ∃ h1, extirq_map_commit cfg h hwirq basename n c cd dev = some h1
      ∧ h1.extirqctrl.base = h.extirqctrl.base + n
      ∧ h1.extirqctrl.count = (h.extirqctrl.count + 1) % 2 ^ 32
      ∧ h1.chip_trace = h.chip_trace
      ∧ h1.extirqctrl.groups
          = Function.update h.extirqctrl.groups h.extirqctrl.count
              ⟨h.extirqctrl.base, n, hwirq, dev⟩
      ∧ (∀ j, j < n →
          h1.extirqctrl.irqs (h.extirqctrl.base + j - cfg.CONFIG_HOST_IRQ_COUNT)
            = some (h.extirqctrl.base + j)
          ∧ h1.irq (h.extirqctrl.base + j)
            = { host_irq_init_irq cfg (h.extirqctrl.base + j) with
                name := some (extirq_name (basename.length + 5) basename (j + 1))
                chip := some c
                chip_data := cd })
      ∧ (∀ idx, idx < h.extirqctrl.base - cfg.CONFIG_HOST_IRQ_COUNT
            ∨ h.extirqctrl.base + n - cfg.CONFIG_HOST_IRQ_COUNT ≤ idx →
          h1.extirqctrl.irqs idx = h.extirqctrl.irqs idx)
      ∧ (∀ m, m < h.extirqctrl.base ∨ h.extirqctrl.base + n ≤ m → h1.irq m = h.irq m) := by
  obtain ⟨hk, hrun, i1, i2, i3, i4, i5, i6, i7⟩ :=
    extirq_map_children_spec cfg basename (basename.length + 5) (some c) cd n 0
      { h with
        extirqctrl :=
          { h.extirqctrl with
            groups :=
              Function.update h.extirqctrl.groups h.extirqctrl.count
                ⟨h.extirqctrl.base, n, hwirq, dev⟩ } } hb hlt htab
  have hc : extirq_map_commit cfg h hwirq basename n c cd dev
      = some { hk with
          extirqctrl := { hk.extirqctrl with count := (hk.extirqctrl.count + 1) % 2 ^ 32 } } := by
    show Option.map _ (extirq_map_children cfg basename (basename.length + 5) (some c) cd n 0
      _) = _
    rw [hrun]
    rfl
  refine ⟨_, hc, i1, ?_, i4, i3, fun j hj => ?_, i6, i7⟩
  · show (hk.extirqctrl.count + 1) % 2 ^ 32 = _
    rw [i2]
  · have h5 := i5 j hj
    simp only [Nat.zero_add] at h5
    exact h5

/-- C22: when `vmm_host_extirq_map(hwirq, basename, n, chip, chip_data, dev, &g)` returns
`VMM_OK` in a state whose allocator base is `b` and whose group count is `c` (with
`CONFIG_HOST_IRQ_COUNT <= b`, `b + n` and `c + 1` values of a `u32`, and the `n` children
lying in the table: `b + n - CONFIG_HOST_IRQ_COUNT <= CONFIG_EXTENDED_IRQ_NB`), the group `g`
is `groups[c]` and holds `base == b`, `count == n`, `hwirq` and `dev`; for every `i < n`,
`vmm_host_extirq_get(b + i)` returns the `i`-th child, a freshly initialised IRQ object with
`num == b + i`, the name `"<basename>.<i+1>"` and the given chip and chip data (the parent's
for a null argument); the base becomes `b + n` and the group count `c + 1`; and every earlier
mapping is unchanged: every IRQ object of a number below `b`, every lookup of a number below
`b`, and every group other than `groups[c]`, so every group below the old count, is as
before, and no chip operation is called.  After `vmm_host_extirq_init` the base is
`CONFIG_HOST_IRQ_COUNT`, and for a map made at that base
`get_irq(g, 2) == CONFIG_HOST_IRQ_COUNT + 2` (for `n >= 2`) and
`get_offset(g, CONFIG_HOST_IRQ_COUNT + 3) == 3`. -/
theorem extirq_map_layout (cfg : IrqConfig) (h : HostIrqs) (hwirq : Nat) (basename : String)
    (n : Nat) (chip : Option vmm_host_irq_chip) (chip_data : Option Nat) (dev : Nat)
    (alloc_ok : Bool) (h1 : HostIrqs) (g : Nat)
    (hb : cfg.CONFIG_HOST_IRQ_COUNT ≤ h.extirqctrl.base)
    (hlt : h.extirqctrl.base + n < 2 ^ 32)
    (hcn : h.extirqctrl.count + 1 < 2 ^ 32)
    (htab : h.extirqctrl.base + n ≤ cfg.CONFIG_HOST_IRQ_COUNT + cfg.CONFIG_EXTENDED_IRQ_NB)
    (hmap : vmm_host_extirq_map cfg h hwirq basename n chip chip_data dev alloc_ok
      = some (VMM_OK, h1, some g)) :
    g = h.extirqctrl.count
      ∧ h1.extirqctrl.groups g = ⟨h.extirqctrl.base, n, hwirq, dev⟩
      ∧ (∀ i, i < n →
          vmm_host_extirq_get cfg h1.extirqctrl (h.extirqctrl.base + i)
            = irq_ptr.obj (h.extirqctrl.base + i)
          ∧ (h1.irq (h.extirqctrl.base + i)).num = h.extirqctrl.base + i
          ∧ (h1.irq (h.extirqctrl.base + i)).name = some (basename ++ "." ++ toString (i + 1))
          ∧ (∀ c, chip = some c → (h1.irq (h.extirqctrl.base + i)).chip = some c)
          ∧ (chip = none → ∃ p, vmm_host_irq_get cfg h hwirq = irq_ptr.obj p
              ∧ (h1.irq (h.extirqctrl.base + i)).chip = (h.irq p).chip)
          ∧ (∀ d, chip_data = some d → (h1.irq (h.extirqctrl.base + i)).chip_data = some d)
          ∧ (chip_data = none → ∃ p, vmm_host_irq_get cfg h hwirq = irq_ptr.obj p
              ∧ (h1.irq (h.extirqctrl.base + i)).chip_data = (h.irq p).chip_data)
          ∧ (h1.irq (h.extirqctrl.base + i)).state
              = (host_irq_init_irq cfg (h.extirqctrl.base + i)).state
          ∧ ∀ cpu, (h1.irq (h.extirqctrl.base + i)).action_list cpu = [])
      ∧ h1.extirqctrl.base = h.extirqctrl.base + n
      ∧ h1.extirqctrl.count = h.extirqctrl.count + 1
      ∧ (∀ m, m < h.extirqctrl.base → h1.irq m = h.irq m)
      ∧ (∀ eirq, cfg.CONFIG_HOST_IRQ_COUNT ≤ eirq → eirq < h.extirqctrl.base →
          vmm_host_extirq_get cfg h1.extirqctrl eirq = vmm_host_extirq_get cfg h.extirqctrl eirq)
      ∧ (∀ j, j ≠ g → h1.extirqctrl.groups j = h.extirqctrl.groups j)
      ∧ (∀ j, j < h.extirqctrl.count → h1.extirqctrl.groups j = h.extirqctrl.groups j)
      ∧ h1.chip_trace = h.chip_trace
      ∧ (∀ h0, (vmm_host_extirq_init cfg h0).2.extirqctrl.base = cfg.CONFIG_HOST_IRQ_COUNT)
      ∧ (h.extirqctrl.base = cfg.CONFIG_HOST_IRQ_COUNT → 2 ≤ n →
          vmm_host_extirq_get_irq (h1.extirqctrl.groups g) 2
            = Except.ok (cfg.CONFIG_HOST_IRQ_COUNT + 2))
      ∧ (h.extirqctrl.base = cfg.CONFIG_HOST_IRQ_COUNT →
          vmm_host_extirqs_get_offset (h1.extirqctrl.groups g) (cfg.CONFIG_HOST_IRQ_COUNT + 3)
            = 3) := by
  obtain ⟨hn, hg, _, c, cd, hc1, hc2, hd1, hd2, hcommit⟩ :=
    extirq_map_ok cfg h hwirq basename n chip chip_data dev alloc_ok h1 g hmap
  obtain ⟨h2, hspec, s1, s0, s6, s2, s3, s4, s5⟩ :=
    extirq_map_commit_spec cfg h hwirq basename n c cd dev hb hlt htab
  rw [hspec, Option.some.injEq] at hcommit
  subst hcommit
  have hgrp : h2.extirqctrl.groups g = ⟨h.extirqctrl.base, n, hwirq, dev⟩ := by
    rw [s2, hg, Function.update_same]
  refine ⟨hg, hgrp, fun i hi => ?_, s1, by rw [s0, Nat.mod_eq_of_lt hcn],
    fun m hm => s5 m (Or.inl hm), fun eirq h1 h2 => ?_, fun j hj => ?_, fun j hj => ?_, s6,
    fun _ => rfl, fun hb0 hn2 => ?_, fun hb0 => ?_⟩
  · obtain ⟨t1, t2⟩ := s3 i hi
    refine ⟨?_, ?_, ?_, ?_, ?_, ?_, ?_, ?_, ?_⟩
    · have hsub := u32_sub_eq (h.extirqctrl.base + i) cfg.CONFIG_HOST_IRQ_COUNT (by omega)
        (by omega)
      have e1 : ¬ (h.extirqctrl.base + i - cfg.CONFIG_HOST_IRQ_COUNT
          > h.extirqctrl.base + n) := by omega
      have e2 : h.extirqctrl.base + i - cfg.CONFIG_HOST_IRQ_COUNT
          < cfg.CONFIG_EXTENDED_IRQ_NB := by omega
      simp only [vmm_host_extirq_get, extirq_table_load, hsub, s1, t1]
      rw [if_neg e1, if_pos e2]
    · rw [t2]; rfl
    · rw [t2]
      show some (extirq_name (basename.length + 5) basename (i + 1)) = _
      rw [extirq_name_eq basename (i + 1) (by omega)]
    · intro c0 e
      rw [t2, ← hc1 c0 e]
    · intro e
      obtain ⟨p, hp, hpc⟩ := hc2 e
      exact ⟨p, hp, by rw [t2, hpc]⟩
    · intro d e
      rw [t2, ← hd1 d e]
    · intro e
      obtain ⟨p, hp, hpd⟩ := hd2 e
      exact ⟨p, hp, by rw [t2, ← hpd]⟩
    · rw [t2]
    · intro cpu
      rw [t2]; rfl
  · have hsub := u32_sub_eq eirq cfg.CONFIG_HOST_IRQ_COUNT h1 (by omega)
    have e1 : ¬ (eirq - cfg.CONFIG_HOST_IRQ_COUNT > h.extirqctrl.base + n) := by omega
    have e2 : ¬ (eirq - cfg.CONFIG_HOST_IRQ_COUNT > h.extirqctrl.base) := by omega
    simp only [vmm_host_extirq_get, extirq_table_load, hsub, s1]
    rw [if_neg e1, if_neg e2, s4 _ (Or.inl (by omega))]
  · rw [s2, Function.update_noteq (by rw [← hg]; exact hj)]
  · rw [s2, Function.update_noteq (by omega)]
  · rw [hgrp]
    simp only [vmm_host_extirq_get_irq]
    rw [if_neg (by omega), hb0, Nat.mod_eq_of_lt (by omega)]
  · rw [hgrp]
    simp only [vmm_host_extirqs_get_offset, u32_sub, hb0]
    omega

/-- C22, witness: scenario 6 on the example state after `vmm_host_extirq_init`: the map
returns `VMM_OK` with group 0, and the third child, IRQ 6, is named `"uart.3"`. -/
theorem extirq_map_layout_witness :
    ex_irq_config.CONFIG_HOST_IRQ_COUNT ≤ ex_extirq_init.extirqctrl.base
      ∧ ex_extirq_init.extirqctrl.base + 4 < 2 ^ 32
      ∧ ex_extirq_init.extirqctrl.count + 1 < 2 ^ 32
      ∧ ex_extirq_init.extirqctrl.base + 4
          ≤ ex_irq_config.CONFIG_HOST_IRQ_COUNT + ex_irq_config.CONFIG_EXTENDED_IRQ_NB
      ∧ vmm_host_extirq_map ex_irq_config ex_extirq_init 2 "uart" 4 none none 7 true
          = some (VMM_OK, ex_uart_mapped, some 0)
      ∧ vmm_host_extirq_get ex_irq_config ex_uart_mapped.extirqctrl 6 = irq_ptr.obj 6
      ∧ (ex_uart_mapped.irq 6).name = some "uart.3"
      ∧ ex_uart_mapped.extirqctrl.base = 8
      ∧ ex_uart_mapped.extirqctrl.count = 1 :=
  ⟨by decide, by decide, by decide, by decide, rfl,
    ((extirq_map_layout ex_irq_config ex_extirq_init 2 "uart" 4 none none 7 true
      ex_uart_mapped 0 (by decide) (by decide) (by decide) (by decide) rfl).2.2.1 2
        (by decide)).1,
    by decide,
    (extirq_map_layout ex_irq_config ex_extirq_init 2 "uart" 4 none none 7 true
      ex_uart_mapped 0 (by decide) (by decide) (by decide) (by decide) rfl).2.2.2.1,
    (extirq_map_layout ex_irq_config ex_extirq_init 2 "uart" 4 none none 7 true
      ex_uart_mapped 0 (by decide) (by decide) (by decide) (by decide) rfl).2.2.2.2.1⟩

/-! ### C23, C24, C29: lookups and bounds of the extended-IRQ table -/

/-- C23, failing input: right after `vmm_host_extirq_init` (base 4, no map made) the lookup
of IRQ 4, which is at the current base, passes the guard `irq_num > extirqctrl.base` and
returns the content of slot 0, which was never written, instead of the null pointer.  After
the map of four children (base 8), the lookup of IRQ 8 returns the unwritten slot 4 and the
lookup of IRQ 12 reads slot 8 of a table of `CONFIG_EXTENDED_IRQ_NB = 8` slots; only numbers
from 13 on are refused.  The mapped child IRQ 6 is found. -/
theorem extirq_get_reads_unwritten_slot :
    ex_extirq_init.extirqctrl.base = 4
      ∧ ex_irq_config.CONFIG_HOST_IRQ_COUNT = 4
      ∧ vmm_host_extirq_get ex_irq_config ex_extirq_init.extirqctrl 4 = irq_ptr.wild
      ∧ vmm_host_irq_get ex_irq_config ex_extirq_init 4 = irq_ptr.wild
      ∧ ex_uart_mapped.extirqctrl.base = 8
      ∧ vmm_host_extirq_get ex_irq_config ex_uart_mapped.extirqctrl 6 = irq_ptr.obj 6
      ∧ vmm_host_extirq_get ex_irq_config ex_uart_mapped.extirqctrl 8 = irq_ptr.wild
      ∧ vmm_host_extirq_get ex_irq_config ex_uart_mapped.extirqctrl 12 = irq_ptr.wild
      ∧ u32_sub 12 ex_irq_config.CONFIG_HOST_IRQ_COUNT = ex_irq_config.CONFIG_EXTENDED_IRQ_NB
      ∧ ¬ (u32_sub 12 ex_irq_config.CONFIG_HOST_IRQ_COUNT > ex_uart_mapped.extirqctrl.base)
      ∧ vmm_host_extirq_get ex_irq_config ex_uart_mapped.extirqctrl 13 = irq_ptr.null := by
  refine ⟨rfl, rfl, ?_, ?_, ?_, ?_, ?_, ?_, ?_, ?_, ?_⟩ <;> decide

/-- C24, failing input: for the group of scenario 6 (`base == 4`, `count == 4`, children 4 to
7) the offset 4, which equals the count, is accepted: `vmm_host_extirq_get_irq` returns 8,
the number of no child of the group, where `VMM_ENOTAVAIL` is due; offsets 0 to 3 give the
children and offset 5 is refused. -/
theorem extirq_get_irq_accepts_count :
    ex_uart_mapped.extirqctrl.groups 0 = ⟨4, 4, 2, 7⟩
      ∧ vmm_host_extirq_get_irq (ex_uart_mapped.extirqctrl.groups 0) 4 = Except.ok 8
      ∧ vmm_host_extirq_get ex_irq_config ex_uart_mapped.extirqctrl 8 = irq_ptr.wild
      ∧ vmm_host_extirq_get_irq (ex_uart_mapped.extirqctrl.groups 0) 3 = Except.ok 7
      ∧ vmm_host_extirq_get_irq (ex_uart_mapped.extirqctrl.groups 0) 5
          = Except.error VMM_ENOTAVAIL
      ∧ vmm_host_extirqs_get_offset (ex_uart_mapped.extirqctrl.groups 0) 7 = 3 := by
  refine ⟨rfl, rfl, ?_, rfl, rfl, rfl⟩
  decide

/-- C29, failing input: with a table of `CONFIG_EXTENDED_IRQ_NB = 8` slots, a map of eight
children made right after `vmm_host_extirq_init` returns `VMM_OK` and fills the slots 0 to 7
(its last child, IRQ 11, is in slot 7).  A map of nine children made in the same state passes
the same checks (`size <= 999`, the parent IRQ 2 exists and has a chip, a group is free), and
nothing compares the slot index with the size of the table: its ninth child, IRQ 12, is
written at index 8, beyond the last slot, so the call has no defined result.  With a table of
nine slots the same call returns `VMM_OK` with IRQ 12 in slot 8. -/
theorem extirq_map_writes_past_table :
    ex_irq_config.CONFIG_EXTENDED_IRQ_NB = 8
      ∧ vmm_host_irq_get ex_irq_config ex_extirq_init 2 = irq_ptr.obj 2
      ∧ (ex_extirq_init.irq 2).chip = some ex_chip
      ∧ ex_extirq_init.extirqctrl.count < ex_irq_config.CONFIG_EXTENDED_IRQ_GROUP_NB
      ∧ (vmm_host_extirq_map ex_irq_config ex_extirq_init 2 "gpio" 8 none none 7 true).map
            (fun r => (r.1, r.2.1.extirqctrl.base, r.2.1.extirqctrl.irqs 7))
          = some (VMM_OK, 12, some 11)
      ∧ (extirq_table_store ex_irq_config ex_extirq_init.extirqctrl
            (u32_sub 12 ex_irq_config.CONFIG_HOST_IRQ_COUNT) 12).isNone = true
      ∧ (vmm_host_extirq_map ex_irq_config ex_extirq_init 2 "gpio" 9 none none 7 true).isNone
          = true
      ∧ (vmm_host_extirq_map { ex_irq_config with CONFIG_EXTENDED_IRQ_NB := 9 } ex_extirq_init
            2 "gpio" 9 none none 7 true).map
            (fun r => (r.1, r.2.1.extirqctrl.base, r.2.1.extirqctrl.irqs 8))
          = some (VMM_OK, 13, some 12) := by
  refine ⟨rfl, ?_, rfl, ?_, ?_, ?_, ?_, ?_⟩ <;> decide

/-! ### C25: probing of the chip operations -/

/-- C25, failing input: IRQ 1 with a chip that provides `irq_ack` only.
`vmm_host_irq_enable` finds `irq_enable` absent and calls `irq_unmask`, which is absent too;
`vmm_host_irq_disable` likewise calls the absent `irq_mask`.  With a chip that provides
every operation but `irq_mask`, `vmm_host_irq_unmask` probes `irq_unmask` and calls the absent
`irq_mask`.  On the chip that provides `irq_ack` only, `vmm_host_irq_mask` and
`vmm_host_irq_raise` make no chip call, the level handler calls `irq_ack` only and the
fast-EOI handler calls nothing. -/
theorem unprobed_chip_operations :
    vmm_host_irq_get ex_irq_config (ex_with_chip ex_ack_only_chip) 1 = irq_ptr.obj 1
      ∧ (vmm_host_irq_enable ex_irq_config (ex_with_chip ex_ack_only_chip) 1).isNone = true
      ∧ (vmm_host_irq_disable ex_irq_config (ex_with_chip ex_ack_only_chip) 1).isNone = true
      ∧ (vmm_host_irq_unmask ex_irq_config
            (ex_with_chip { ex_chip with irq_mask := false }) 1).isNone = true
      ∧ (vmm_host_irq_mask ex_irq_config (ex_with_chip ex_ack_only_chip) 1).map
            (fun r => (r.1, r.2.chip_trace)) = some (VMM_OK, [])
      ∧ (vmm_host_irq_raise ex_irq_config (ex_with_chip ex_ack_only_chip) 1).map
            (fun r => (r.1, r.2.chip_trace)) = some (VMM_OK, [])
      ∧ vmm_handle_level_irq ((ex_with_chip ex_ack_only_chip).irq 1) 0 ex_ret
          = [FlowCall.chip (ChipCall.irq_ack 1)]
      ∧ vmm_handle_fast_eoi ((ex_with_chip ex_ack_only_chip).irq 1) 0 ex_ret = [] := by
  refine ⟨rfl, ?_, ?_, ?_, ?_, ?_, ?_, ?_⟩ <;> decide

/-! ### C30: what a failed registration leaves behind -/

theorem host_irq_register_chip (h : HostIrqs) (n : Nat) (name : Option String)
    (func dev cpu : Nat) (ok : Bool) (m : Nat) :
    ((host_irq_register h n name func dev cpu ok).2.irq m).chip = (h.irq m).chip := by
  unfold host_irq_register
  cases hany : ((h.irq n).action_list cpu).any (fun act => act.dev == dev) <;> cases ok <;>
    simp only [hany, if_true, if_false, Bool.false_eq_true, set_irq] <;>
    by_cases hm : m = n <;> simp [Function.update_apply, hm]

theorem host_irq_register_cpus_lists (n : Nat) (name : Option String) (func dev : Nat)
    (alloc : Nat → Bool) (cpu : Nat) :
    ∀ (cpus : List Nat) (h : HostIrqs), cpus.Nodup →
      ((host_irq_register_cpus n name func dev alloc cpus h).2.irq n).action_list cpu
          = (h.irq n).action_list cpu
        ∨ (cpu ∈ cpus
          ∧ ((host_irq_register_cpus n name func dev alloc cpus h).2.irq n).action_list cpu
              = (h.irq n).action_list cpu ++ [⟨func, dev⟩]) := by
  intro cpus
  induction cpus with
  | nil => intro h _; exact Or.inl rfl
  | cons c rest ih =>
    intro h hnd
    obtain ⟨hc, hrest⟩ := List.nodup_cons.1 hnd
    obtain ⟨_, _, hother, hok, hfail⟩ := host_irq_register_frame h n name func dev c (alloc c)
    simp only [host_irq_register_cpus]
    split
    · rename_i hr
      left
      by_cases hcc : cpu = c
      · subst hcc; exact hfail hr
      · exact hother n cpu (fun e => hcc e.2)
    · rename_i hr
      have hr1 : (host_irq_register h n name func dev c (alloc c)).1 = VMM_OK :=
        Classical.not_not.1 hr
      by_cases hcc : cpu = c
      · subst hcc
        right
        refine ⟨List.mem_cons_self _ _, ?_⟩
        rw [(host_irq_register_cpus_frame n name func dev alloc rest _).2.2 n cpu
          (fun e => hc e.2)]
        exact (hok hr1).2
      · have hl := hother n cpu (fun e => hcc e.2)
        rcases ih (host_irq_register h n name func dev c (alloc c)).2 hrest with e | ⟨e1, e2⟩
        · exact Or.inl (e.trans hl)
        · exact Or.inr ⟨List.mem_cons_of_mem _ e1, by rw [e2, hl]⟩

theorem enable_ok_of_chip (cfg : IrqConfig) (h : HostIrqs) (k n : Nat) (r : Rc × HostIrqs)
    (hget : vmm_host_irq_get cfg h k = irq_ptr.obj n) (hchip : (h.irq n).chip ≠ none)
    (he : vmm_host_irq_enable cfg h k = some r) : r.1 = VMM_OK := by
  simp only [vmm_host_irq_enable, with_irq, hget, chip_call] at he
  cases hc : (h.irq n).chip with
  | none => exact absurd hc hchip
  | some chip =>
    simp only [hc] at he
    repeat' split at he
    all_goals
      simp only [Option.map_some', Option.map_none', Option.some.injEq, reduceCtorEq] at he
    all_goals
      subst he
      rfl

theorem vmm_host_irq_get_of_ctrl (cfg : IrqConfig) (h h1 : HostIrqs) (k : Nat)
    (hx : h1.extirqctrl = h.extirqctrl) :
    vmm_host_irq_get cfg h1 k = vmm_host_irq_get cfg h k := by
  simp [vmm_host_irq_get, hx]

theorem register_part_effect (cfg : IrqConfig) (h : HostIrqs) (n : Nat) (name : Option String)
    (func dev cur_cpu : Nat) (alloc : Nat → Bool) (r : Rc × HostIrqs)
    (hr : r = if vmm_host_irq_is_per_cpu cfg (h.irq n) = true then
        host_irq_register h n name func dev cur_cpu (alloc cur_cpu)
      else host_irq_register_cpus n name func dev alloc (List.range cfg.CONFIG_CPU_COUNT) h) :
    r.2.extirqctrl = h.extirqctrl
      ∧ (r.2.irq n).chip = (h.irq n).chip
      ∧ (∀ cpu, (r.2.irq n).action_list cpu = (h.irq n).action_list cpu
          ∨ (r.2.irq n).action_list cpu = (h.irq n).action_list cpu ++ [⟨func, dev⟩])
      ∧ (∀ m, m ≠ n → (r.2.irq m).action_list = (h.irq m).action_list)
      ∧ (r.1 ≠ VMM_OK → vmm_host_irq_is_per_cpu cfg (h.irq n) = true →
          ∀ cpu, (r.2.irq n).action_list cpu = (h.irq n).action_list cpu)
      ∧ (r.1 ≠ VMM_OK → vmm_host_irq_is_per_cpu cfg (h.irq n) = false →
          (dev ∈ ((h.irq n).action_list 0).map (fun act => act.dev) ∨ alloc 0 = false) →
          ∀ cpu, (r.2.irq n).action_list cpu = (h.irq n).action_list cpu) := by
  by_cases hpc : vmm_host_irq_is_per_cpu cfg (h.irq n) = true
  · rw [if_pos hpc] at hr
    subst hr
    obtain ⟨hx, _, hother, hok, hfail⟩ :=
      host_irq_register_frame h n name func dev cur_cpu (alloc cur_cpu)
    refine ⟨hx, host_irq_register_chip _ _ _ _ _ _ _ _, fun cpu => ?_, fun m hm => ?_,
      fun hne _ cpu => ?_, fun _ hf => ?_⟩
    · by_cases hc : cpu = cur_cpu
      · subst hc
        by_cases hr1 : (host_irq_register h n name func dev cpu (alloc cpu)).1 = VMM_OK
        · exact Or.inr (hok hr1).2
        · exact Or.inl (hfail hr1)
      · exact Or.inl (hother n cpu (fun e => hc e.2))
    · funext cpu
      exact hother m cpu (fun e => hm e.1)
    · by_cases hc : cpu = cur_cpu
      · subst hc; exact hfail hne
      · exact hother n cpu (fun e => hc e.2)
    · rw [hpc] at hf
      exact absurd hf (by simp)
  · rw [if_neg hpc] at hr
    subst hr
    obtain ⟨hx, _, hother⟩ := host_irq_register_cpus_frame n name func dev alloc
      (List.range cfg.CONFIG_CPU_COUNT) h
    refine ⟨hx, ?_, fun cpu => ?_, fun m hm => ?_, fun _ ht => absurd ht hpc,
      fun hne _ hcond cpu => ?_⟩
    · exact host_irq_register_cpus_induct (fun h0 => (h0.irq n).chip = (h.irq n).chip) n name
        func dev alloc _ h
        (fun h0 c _ hq => (host_irq_register_chip h0 n name func dev c (alloc c) n).trans hq) rfl
    · rcases host_irq_register_cpus_lists n name func dev alloc cpu _ h (List.nodup_range _)
        with e | ⟨_, e⟩
      · exact Or.inl e
      · exact Or.inr e
    · funext cpu
      exact hother m cpu (fun e => hm e.1)
    · cases hcount : cfg.CONFIG_CPU_COUNT with
      | zero =>
        rw [hcount] at hne
        exact absurd rfl hne
      | succ k =>
        rw [hcount] at hne
        rw [List.range_succ_eq_map] at hne ⊢
        obtain ⟨_, _, hother0, hok0, hfail0⟩ :=
          host_irq_register_frame h n name func dev 0 (alloc 0)
        have hr0 : (host_irq_register h n name func dev 0 (alloc 0)).1 ≠ VMM_OK := by
          intro hok1
          rcases hcond with hd | ha
          · have := (hok0 hok1).1
            rw [(any_dev_eq_true _ _).2 hd] at this
            exact Bool.noConfusion this
          · rw [ha] at hok1
            unfold host_irq_register at hok1
            dsimp only at hok1
            split at hok1 <;> simp at hok1
        simp only [host_irq_register_cpus, hr0, ne_eq, not_false_eq_true, if_true]
        by_cases hc : cpu = 0
        · subst hc; exact hfail0 hr0
        · exact hother0 n cpu (fun e => hc e.2)

/-- C30, counterexample: (a) IRQ 1 without a chip: `vmm_host_irq_register` installs the
action on both CPUs and then returns the `VMM_ENOTAVAIL` of `vmm_host_irq_enable`; (b) IRQ 1
with a chip, the allocation failing for CPU 1: the call returns `VMM_ENOMEM` and the action
installed for CPU 0 stays. -/
theorem register_failure_counterexample :
    vmm_host_irq_get ex_irq_config ex_chipless_irqs 1 = irq_ptr.obj 1
      ∧ (∀ cpu, (ex_chipless_irqs.irq 1).action_list cpu = [])
      ∧ (vmm_host_irq_register ex_irq_config ex_chipless_irqs 1 (some "uart") 7 9 0
            (fun _ => true)).map
          (fun r => (r.1, (r.2.irq 1).action_list 0, (r.2.irq 1).action_list 1))
          = some (VMM_ENOTAVAIL, [⟨7, 9⟩], [⟨7, 9⟩])
      ∧ (∀ cpu, (ex_host_irqs.irq 1).action_list cpu = [])
      ∧ (vmm_host_irq_register ex_irq_config ex_host_irqs 1 (some "uart") 7 9 0
            (fun cpu => cpu == 0)).map
          (fun r => (r.1, (r.2.irq 1).action_list 0, (r.2.irq 1).action_list 1))
          = some (VMM_ENOMEM, [⟨7, 9⟩], []) :=
  ⟨rfl, fun _ => rfl, by decide, fun _ => rfl, by decide⟩

/-- C30, amended: if `vmm_host_irq_register` returns a code other than `VMM_OK` for an
existing IRQ object, then no action list has lost or reordered an action: every per-CPU list
of that IRQ is exactly as before, or as before with the one action `{func, dev}` appended, and
the lists of every other IRQ are as before.  All lists of the IRQ are exactly as before when
it has a chip and is `PER_CPU`, or has a chip, is not `PER_CPU` and the registration fails on
CPU 0 already (`dev` on its list, or no memory for it). -/
theorem register_failure_effect (cfg : IrqConfig) (h h1 : HostIrqs) (hirq_num n : Nat)
    (name : Option String) (func dev cur_cpu : Nat) (alloc : Nat → Bool) (rc : Rc)
    (hget : vmm_host_irq_get cfg h hirq_num = irq_ptr.obj n)
    (hreg : vmm_host_irq_register cfg h hirq_num name func dev cur_cpu alloc = some (rc, h1))
    (hrc : rc ≠ VMM_OK) :
    (∀ cpu, (h1.irq n).action_list cpu = (h.irq n).action_list cpu
        ∨ (h1.irq n).action_list cpu = (h.irq n).action_list cpu ++ [⟨func, dev⟩])
      ∧ (∀ m, m ≠ n → (h1.irq m).action_list = (h.irq m).action_list)
      ∧ ((h.irq n).chip ≠ none → vmm_host_irq_is_per_cpu cfg (h.irq n) = true →
          ∀ cpu, (h1.irq n).action_list cpu = (h.irq n).action_list cpu)
      ∧ ((h.irq n).chip ≠ none → vmm_host_irq_is_per_cpu cfg (h.irq n) = false →
          (dev ∈ ((h.irq n).action_list 0).map (fun act => act.dev) ∨ alloc 0 = false) →
          ∀ cpu, (h1.irq n).action_list cpu = (h.irq n).action_list cpu) := by
  simp only [vmm_host_irq_register, with_irq, hget] at hreg
  obtain ⟨f0, f1, f2, f3, f4, f5⟩ :=
    register_part_effect cfg h n name func dev cur_cpu alloc _ rfl
  generalize (if vmm_host_irq_is_per_cpu cfg (h.irq n) = true then
        host_irq_register h n name func dev cur_cpu (alloc cur_cpu)
      else host_irq_register_cpus n name func dev alloc (List.range cfg.CONFIG_CPU_COUNT) h)
    = R at hreg f0 f1 f2 f3 f4 f5
  split at hreg
  · rename_i hR
    simp only [Option.some.injEq] at hreg
    subst hreg
    exact ⟨f2, f3, fun _ => f4 hR, fun _ => f5 hR⟩
  · obtain ⟨_, hact⟩ := enable_actions cfg R.2 hirq_num (rc, h1) hreg
    have hchip : (h.irq n).chip ≠ none → False := by
      intro hc
      have hg : vmm_host_irq_get cfg R.2 hirq_num = irq_ptr.obj n :=
        (vmm_host_irq_get_of_ctrl cfg h R.2 hirq_num f0).trans hget
      exact hrc (enable_ok_of_chip cfg R.2 hirq_num n (rc, h1) hg (by rw [f1]; exact hc) hreg)
    refine ⟨fun cpu => ?_, fun m hm => ?_, fun hc => (hchip hc).elim, fun hc => (hchip hc).elim⟩
    · have := hact n
      simp only at this
      rw [this]
      exact f2 cpu
    · have := hact m
      simp only at this
      rw [this]
      exact f3 m hm

/-- C30, witness: on IRQ 1 of the example state, which has a chip and is not `PER_CPU`, a
second registration of `dev = 9` fails on CPU 0 and leaves every list as it was. -/
theorem register_failure_effect_witness :
    vmm_host_irq_get ex_irq_config ex_registered 1 = irq_ptr.obj 1
      ∧ (vmm_host_irq_register ex_irq_config ex_registered 1 (some "uart") 8 9 0
            (fun _ => true)).map Prod.fst = some VMM_EFAIL
      ∧ ∀ cpu, (((vmm_host_irq_register ex_irq_config ex_registered 1 (some "uart") 8 9 0
            (fun _ => true)).getD (VMM_OK, ex_registered)).2.irq 1).action_list cpu
          = (ex_registered.irq 1).action_list cpu :=
  ⟨rfl, by decide,
    (register_failure_effect ex_irq_config ex_registered
      ((vmm_host_irq_register ex_irq_config ex_registered 1 (some "uart") 8 9 0
        (fun _ => true)).getD (VMM_OK, ex_registered)).2 1 1 (some "uart") 8 9 0
      (fun _ => true) VMM_EFAIL rfl rfl (by decide)).2.2.2
      (by rw [show (ex_registered.irq 1).chip = some ex_chip from rfl]; simp) (by decide)
      (Or.inl (by decide))⟩

/-! ### C26: switches made at IRQ exit -/

/-- C26, counterexample: the current VCPU 1 of host CPU 0 has `preempt_count = 2` in both
example states.  Where it was paused, `vmm_scheduler_irq_exit` switches to the idle orphan;
where it is RUNNING and `yield_on_irq_exit` is set, `vmm_scheduler_irq_exit` switches to
VCPU 2 and leaves VCPU 1 READY. -/
theorem irq_exit_preempt_count_counterexample :
    (ex_paused_current.sched 0).current_vcpu = some 1
      ∧ (ex_paused_current.vcpus 1).preempt_count = 2
      ∧ (vmm_scheduler_irq_exit ex_config ex_paused_current 0 (some 0) 50 60).map
          (fun s1 => (s1.sched 0).current_vcpu) = some (some 0)
      ∧ (ex_yield_requested.sched 0).current_vcpu = some 1
      ∧ (ex_yield_requested.vcpus 1).preempt_count = 2
      ∧ (ex_yield_requested.vcpus 1).state = VMM_VCPU_STATE_RUNNING
      ∧ (ex_yield_requested.sched 0).yield_on_irq_exit = true
      ∧ (vmm_scheduler_irq_exit ex_config ex_yield_requested 0 (some 0) 50 60).map
          (fun s1 => ((s1.sched 0).current_vcpu, (s1.vcpus 1).state))
          = some (some 2, VMM_VCPU_STATE_READY) := by
  refine ⟨rfl, rfl, ?_, rfl, rfl, rfl, rfl, ?_⟩ <;> decide

/-- C26, amended: on a host CPU with a current VCPU `c`, `vmm_scheduler_irq_exit` does not
switch away from `c` when `c` is RUNNING and `yield_on_irq_exit` is clear, whatever the
`preempt_count` of `c` is: it returns with `c` current, every VCPU and the ready queue as
before, and only the VCPU IRQ processing called.  When `c` is not RUNNING or
`yield_on_irq_exit` is set, it runs `vmm_scheduler_next` without consulting
`preempt_count`. -/
theorem irq_exit_keeps_running_current (cfg : Config) (s : System) (cpu c : Nat)
    (regs : Option Nat) (tstamp_next tstamp : Nat)
    (hcur : (s.sched cpu).current_vcpu = some c) :
    ((s.vcpus c).state = VMM_VCPU_STATE_RUNNING → (s.sched cpu).yield_on_irq_exit = false →
        ∃ s1, vmm_scheduler_irq_exit cfg s cpu regs tstamp_next tstamp = some s1
          ∧ (s1.sched cpu).current_vcpu = some c
          ∧ s1.vcpus = s.vcpus
          ∧ (s1.sched cpu).rq = (s.sched cpu).rq
          ∧ s1.trace = s.trace ++ [Call.vmm_vcpu_irq_process c regs])
      ∧ ((s.vcpus c).state ≠ VMM_VCPU_STATE_RUNNING ∨ (s.sched cpu).yield_on_irq_exit = true →
        vmm_scheduler_irq_exit cfg s cpu regs tstamp_next tstamp
          = (vmm_scheduler_next cfg s cpu (s.sched cpu).irq_regs tstamp_next).map
              (fun s1 =>
                irq_exit_close
                  (set_sched s1 cpu { s1.sched cpu with yield_on_irq_exit := false })
                  cpu c regs tstamp)) := by
  refine ⟨fun hrun hy => ?_, fun hsw => ?_⟩
  · refine ⟨irq_exit_close s cpu c regs tstamp, ?_, ?_, rfl, ?_, rfl⟩
    · simp only [vmm_scheduler_irq_exit, hcur, irq_exit_switch, hrun, hy, ne_eq,
        not_true_eq_false, Bool.false_eq_true, or_self, if_false]
    · simp only [irq_exit_close, set_sched, emit, Function.update_same]
      split <;> simp [hcur]
    · simp only [irq_exit_close, set_sched, emit, Function.update_same]
      split <;> rfl
  · simp only [vmm_scheduler_irq_exit, hcur, irq_exit_switch, hsw, if_true]
    cases vmm_scheduler_next cfg s cpu (s.sched cpu).irq_regs tstamp_next <;> rfl

/-- C26, witness: in `ex_tick_blocked` the current VCPU 1 is RUNNING with `preempt_count = 2`
and `yield_on_irq_exit` is clear; `vmm_scheduler_irq_exit` keeps it current. -/
theorem irq_exit_keeps_running_current_witness :
    (ex_tick_blocked.sched 0).current_vcpu = some 1
      ∧ (ex_tick_blocked.vcpus 1).preempt_count = 2
      ∧ ∃ s1, vmm_scheduler_irq_exit ex_config ex_tick_blocked 0 (some 0) 50 60 = some s1
          ∧ (s1.sched 0).current_vcpu = some 1 :=
  ⟨rfl, rfl,
    let ⟨s1, e, p, _⟩ :=
      (irq_exit_keeps_running_current ex_config ex_tick_blocked 0 1 (some 0) 50 60 rfl).1
        rfl rfl
    ⟨s1, e, p⟩⟩

/-! ### C27: state-time accounting -/

theorem same_accounting_refl (a : vmm_vcpu) : same_accounting a a :=
  ⟨rfl, rfl, rfl, rfl, rfl, rfl, rfl⟩

theorem acc_set_resume_count {t : System} {v : Nat} {a : vmm_vcpu}
    (h : same_accounting (t.vcpus v) a) (k : Int) :
    same_accounting ((set_vcpu t v { t.vcpus v with resume_count := k }).vcpus v) a := by
  rw [set_vcpu_vcpus, if_pos rfl]
  exact h

theorem acc_set_reset_count {t : System} {v : Nat} {a : vmm_vcpu}
    (h : same_accounting (t.vcpus v) a) (k : Nat) :
    same_accounting ((set_vcpu t v { t.vcpus v with reset_count := k }).vcpus v) a := by
  rw [set_vcpu_vcpus, if_pos rfl]
  exact h

theorem acc_rq_detach {t : System} {v : Nat} {a : vmm_vcpu} (h : same_accounting (t.vcpus v) a)
    (cpu w : Nat) : same_accounting ((rq_detach t cpu w).2.vcpus v) a := h

theorem acc_rq_enqueue {t : System} {v : Nat} {a : vmm_vcpu}
    (h : same_accounting (t.vcpus v) a) (cpu w : Nat) :
    same_accounting ((rq_enqueue t cpu w).2.vcpus v) a := h

theorem acc_halted {t : System} {v : Nat} {a : vmm_vcpu} (h : same_accounting (t.vcpus v) a)
    (w vhcpu : Nat) (cs : vmm_vcpu_state) :
    same_accounting ((state_change_halted t w vhcpu cs).s.vcpus v) a := by
  rw [halted_vcpus]
  exact h

theorem acc_reset (s : System) (v vhcpu : Nat) (cs : vmm_vcpu_state) (ext : Ext) :
    same_accounting ((state_change_reset s v vhcpu cs ext).s.vcpus v) (s.vcpus v) := by
  unfold state_change_reset state_change_reset_detach
  dsimp only
  repeat' first
    | exact same_accounting_refl _
    | refine acc_set_resume_count ?_ _
    | refine acc_set_reset_count ?_ _
    | refine acc_rq_detach ?_ _ _
    | split

/-- The `switch` statement writes neither the state nor an accounting field of the VCPU. -/
theorem acc_switch (cfg : Config) (s : System) (v : Nat) (n : vmm_vcpu_state) (ext : Ext) :
    same_accounting ((state_change_switch cfg s v n ext).s.vcpus v) (s.vcpus v) := by
  cases n <;> simp only [state_change_switch] <;>
  repeat' first
    | exact same_accounting_refl _
    | exact acc_reset s v _ _ ext
    | refine acc_halted ?_ _ _ _
    | refine acc_set_resume_count ?_ _
    | refine acc_rq_enqueue ?_ _ _
    | split

theorem install_next_vcpus (s : System) (cpu next slice tstamp w : Nat) (hw : w ≠ next) :
    (install_next s cpu next slice tstamp).vcpus w = s.vcpus w := by
  simp [install_next, emit, set_sched, set_vcpu, Function.update_apply, hw]

theorem install_next_state (s : System) (cpu next slice tstamp : Nat) :
    ((install_next s cpu next slice tstamp).vcpus next).state = VMM_VCPU_STATE_RUNNING := by
  simp [install_next, emit, set_sched, set_vcpu]

theorem save_current_vcpus (s : System) (cpu c tstamp w : Nat)
    (hw : (s.vcpus w).state ≠ VMM_VCPU_STATE_RUNNING) :
    (save_current s cpu c tstamp).1.vcpus w = s.vcpus w := by
  unfold save_current
  dsimp only
  split
  · split
    · rename_i hc
      have hwc : w ≠ c := fun e => hw (e ▸ hc)
      simp [rq_enqueue, set_sched, set_vcpu, Function.update_apply, hwc]
    · rfl
  · rfl

/-- A scheduler switch writes a VCPU only to save it (it was RUNNING) or to dispatch it (it
is RUNNING afterwards). -/
theorem next_vcpus_frame (cfg : Config) (s : System) (cpu : Nat) (regs : Option Nat)
    (tstamp : Nat) (s1 : System) (h : vmm_scheduler_next cfg s cpu regs tstamp = some s1)
    (w : Nat) (hw : (s.vcpus w).state ≠ VMM_VCPU_STATE_RUNNING)
    (hw1 : (s1.vcpus w).state ≠ VMM_VCPU_STATE_RUNNING) : s1.vcpus w = s.vcpus w := by
  unfold vmm_scheduler_next at h
  split at h
  · split at h
    · exact absurd h (by simp)
    · next next slice t hdq =>
      simp only [Option.some.injEq] at h
      subst h
      have hv : (emit t (Call.arch_vcpu_switch none next regs)).vcpus = s.vcpus :=
        rq_dequeue_vcpus cfg s cpu next slice t hdq
      by_cases hwn : w = next
      · subst hwn
        exact absurd (install_next_state _ cpu w slice tstamp) hw1
      · rw [install_next_vcpus _ _ _ _ _ _ hwn, hv]
  · next current _ =>
    dsimp only at h
    split at h
    · exact absurd h (by simp)
    · next next slice t hdq =>
      simp only [Option.some.injEq] at h
      subst h
      have hv : t.vcpus = (save_current s cpu current tstamp).1.vcpus :=
        rq_dequeue_vcpus cfg _ cpu next slice t hdq
      by_cases hwn : w = next
      · subst hwn
        exact absurd (install_next_state _ cpu w slice tstamp) hw1
      · rw [install_next_vcpus _ _ _ _ _ _ hwn]
        have hv2 : (if next ≠ current then
            emit t (Call.arch_vcpu_switch (save_current s cpu current tstamp).2 next regs)
            else t).vcpus = t.vcpus := by
          split <;> rfl
        rw [hv2, hv, save_current_vcpus s cpu current tstamp w hw]

theorem switch_vcpus_frame (cfg : Config) (t : System) (cpu : Nat) (regs : Option Nat)
    (tstamp : Nat) (s1 : System) (h : vmm_scheduler_switch cfg t cpu regs tstamp = some s1)
    (w : Nat) (hw : (t.vcpus w).state ≠ VMM_VCPU_STATE_RUNNING)
    (hw1 : (s1.vcpus w).state ≠ VMM_VCPU_STATE_RUNNING) : s1.vcpus w = t.vcpus w := by
  unfold vmm_scheduler_switch at h
  split at h
  · exact absurd h (by simp)
  · split at h
    · split at h
      · exact next_vcpus_frame cfg t cpu _ _ _ h w hw hw1
      · simp only [Option.some.injEq] at h
        rw [← h]
        rfl
    · exact next_vcpus_frame cfg t cpu _ _ _ h w hw hw1

/-- The post-transition preemption, when it does not end in `arch_vcpu_preempt_orphan()`,
writes a VCPU only to save it (it was RUNNING) or to dispatch it (it is RUNNING afterwards). -/
theorem preempt_vcpus_frame (cfg : Config) (t : System) (chcpu vhcpu current : Nat)
    (rc0 rc : Rc) (ext : Ext) (s1 : System)
    (h : state_change_preempt cfg t chcpu vhcpu current rc0 ext = some (rc, s1))
    (hsync : (decide (chcpu = vhcpu) && !(t.vcpus current).is_normal
      && !(t.sched vhcpu).irq_context) = false)
    (w : Nat) (hw : (t.vcpus w).state ≠ VMM_VCPU_STATE_RUNNING)
    (hw1 : (s1.vcpus w).state ≠ VMM_VCPU_STATE_RUNNING) : s1.vcpus w = t.vcpus w := by
  unfold state_change_preempt at h
  split at h
  · next hcpu =>
    split at h
    · simp only [Option.some.injEq, Prod.mk.injEq] at h
      rw [← h.2]
      rfl
    · next hn =>
      split at h
      · split at h
        · exact absurd h (by simp)
        · next s2 hsw =>
          simp only [Option.some.injEq, Prod.mk.injEq] at h
          obtain ⟨_, rfl⟩ := h
          exact switch_vcpus_frame cfg t vhcpu _ _ _ hsw w hw hw1
      · next hi =>
        simp [hcpu, hn, hi] at hsync
  · simp only [Option.some.injEq] at h
    have h2 : s1 = (vmm_scheduler_force_resched cfg t vhcpu).2 := by rw [h]
    rw [h2]
    unfold vmm_scheduler_force_resched
    split
    · rfl
    · split <;> rfl

theorem account_fields (t : System) (v : Nat) (cs n : vmm_vcpu_state) (tstamp : Nat) :
    ((state_change_account t v cs n tstamp).vcpus v).state_tstamp = tstamp
      ∧ (n = VMM_VCPU_STATE_RESET →
          ((state_change_account t v cs n tstamp).vcpus v).state_ready_nsecs = 0
          ∧ ((state_change_account t v cs n tstamp).vcpus v).state_running_nsecs = 0
          ∧ ((state_change_account t v cs n tstamp).vcpus v).state_paused_nsecs = 0
          ∧ ((state_change_account t v cs n tstamp).vcpus v).state_halted_nsecs = 0
          ∧ ((state_change_account t v cs n tstamp).vcpus v).reset_tstamp = tstamp)
      ∧ (n ≠ VMM_VCPU_STATE_RESET →
          ((state_change_account t v cs n tstamp).vcpus v).state_ready_nsecs
            = (if cs = VMM_VCPU_STATE_READY then
                u64_add (t.vcpus v).state_ready_nsecs (u64_sub tstamp (t.vcpus v).state_tstamp)
              else (t.vcpus v).state_ready_nsecs)
          ∧ ((state_change_account t v cs n tstamp).vcpus v).state_running_nsecs
            = (if cs = VMM_VCPU_STATE_RUNNING then
                u64_add (t.vcpus v).state_running_nsecs
                  (u64_sub tstamp (t.vcpus v).state_tstamp)
              else (t.vcpus v).state_running_nsecs)
          ∧ ((state_change_account t v cs n tstamp).vcpus v).state_paused_nsecs
            = (if cs = VMM_VCPU_STATE_PAUSED then
                u64_add (t.vcpus v).state_paused_nsecs
                  (u64_sub tstamp (t.vcpus v).state_tstamp)
              else (t.vcpus v).state_paused_nsecs)
          ∧ ((state_change_account t v cs n tstamp).vcpus v).state_halted_nsecs
            = (if cs = VMM_VCPU_STATE_HALTED then
                u64_add (t.vcpus v).state_halted_nsecs
                  (u64_sub tstamp (t.vcpus v).state_tstamp)
              else (t.vcpus v).state_halted_nsecs)
          ∧ ((state_change_account t v cs n tstamp).vcpus v).reset_tstamp
            = (t.vcpus v).reset_tstamp) := by
  cases cs <;> cases n <;> simp [state_change_account, set_vcpu]

/-- C27, counterexample: the idle orphan is RUNNING and current on host CPU 0, handling an
IRQ, and the PAUSED guest VCPU 1 (`state_tstamp = 0`) is resumed at time 100: the call returns
`VMM_OK`, accounts 100 ns of paused time and writes READY, then preempts the orphan at once,
and the switch it runs, reading the clock at 130, dispatches VCPU 1: on return VCPU 1 is
RUNNING with `state_tstamp = 130`, not 100, and its ready bucket has grown by 30 as well. -/
theorem state_change_accounting_counterexample :
    (ex_idle_running.vcpus 1).state = VMM_VCPU_STATE_PAUSED
      ∧ (ex_idle_running.vcpus 1).state_tstamp = 0
      ∧ state_change_accounts ex_config ex_idle_running 1 VMM_VCPU_STATE_READY ex_ext_late
          = true
      ∧ state_change_yields ex_config ex_idle_running 0 1 VMM_VCPU_STATE_READY ex_ext_late
          = false
      ∧ (vmm_scheduler_state_change ex_config ex_idle_running 0 (some 1) VMM_VCPU_STATE_READY
            ex_ext_late).map
          (fun r => (r.1, (r.2.vcpus 1).state, (r.2.vcpus 1).state_tstamp,
            (r.2.vcpus 1).state_paused_nsecs, (r.2.vcpus 1).state_ready_nsecs))
          = some (VMM_OK, VMM_VCPU_STATE_RUNNING, 130, 100, 30) := by
  refine ⟨rfl, rfl, ?_, ?_, ?_⟩ <;> decide

/-- C27, amended: for every call of `vmm_scheduler_state_change` on a VCPU `v` that returns
`VMM_OK`, runs the accounting block at timestamp `now`, does not end in
`arch_vcpu_preempt_orphan()` (which switches the caller out, the call returning only when the
caller is dispatched again) and leaves `v` in the requested state on return (no scheduler
switch made inside the call dispatches `v`): `state_tstamp == now`; if the new state is RESET
all four buckets are zero and `reset_tstamp == now`; otherwise the bucket of the previous
state (ready, running, paused or halted) has grown by `now - state_tstamp` modulo `2^64`, the
other buckets are unchanged (all four when the previous state is UNKNOWN or RESET), and
`reset_tstamp` is unchanged. -/
theorem state_change_accounting (cfg : Config) (s s1 : System) (chcpu v : Nat)
    (new_state : vmm_vcpu_state) (ext : Ext)
    (hcall : vmm_scheduler_state_change cfg s chcpu (some v) new_state ext = some (VMM_OK, s1))
    (hwrite : state_change_accounts cfg s v new_state ext = true)
    (hsync : state_change_yields cfg s chcpu v new_state ext = false)
    (hkeep : (s1.vcpus v).state = new_state) :
    (s1.vcpus v).state_tstamp = ext.tstamp
      ∧ (new_state = VMM_VCPU_STATE_RESET →
          (s1.vcpus v).state_ready_nsecs = 0 ∧ (s1.vcpus v).state_running_nsecs = 0
          ∧ (s1.vcpus v).state_paused_nsecs = 0 ∧ (s1.vcpus v).state_halted_nsecs = 0
          ∧ (s1.vcpus v).reset_tstamp = ext.tstamp)
      ∧ (new_state ≠ VMM_VCPU_STATE_RESET →
          (s1.vcpus v).state_ready_nsecs
            = (if (s.vcpus v).state = VMM_VCPU_STATE_READY then
                u64_add (s.vcpus v).state_ready_nsecs
                  (u64_sub ext.tstamp (s.vcpus v).state_tstamp)
              else (s.vcpus v).state_ready_nsecs)
          ∧ (s1.vcpus v).state_running_nsecs
            = (if (s.vcpus v).state = VMM_VCPU_STATE_RUNNING then
                u64_add (s.vcpus v).state_running_nsecs
                  (u64_sub ext.tstamp (s.vcpus v).state_tstamp)
              else (s.vcpus v).state_running_nsecs)
          ∧ (s1.vcpus v).state_paused_nsecs
            = (if (s.vcpus v).state = VMM_VCPU_STATE_PAUSED then
                u64_add (s.vcpus v).state_paused_nsecs
                  (u64_sub ext.tstamp (s.vcpus v).state_tstamp)
              else (s.vcpus v).state_paused_nsecs)
          ∧ (s1.vcpus v).state_halted_nsecs
            = (if (s.vcpus v).state = VMM_VCPU_STATE_HALTED then
                u64_add (s.vcpus v).state_halted_nsecs
                  (u64_sub ext.tstamp (s.vcpus v).state_tstamp)
              else (s.vcpus v).state_halted_nsecs)
          ∧ (s1.vcpus v).reset_tstamp = (s.vcpus v).reset_tstamp) := by
  have hnr : new_state ≠ VMM_VCPU_STATE_RUNNING := by
    intro e
    subst e
    simp [state_change_accounts, state_change_switch] at hwrite
  have hlocked : (state_change_locked cfg s v new_state ext).s
      = state_change_account (state_change_switch cfg s v new_state ext).s v (s.vcpus v).state
          new_state ext.tstamp := by
    unfold state_change_locked
    dsimp only
    unfold state_change_accounts at hwrite
    rw [if_pos hwrite]
  have hst : ((state_change_locked cfg s v new_state ext).s.vcpus v).state = new_state := by
    rw [hlocked]
    exact account_state _ _ _ _ _
  have hv : s1.vcpus v = (state_change_locked cfg s v new_state ext).s.vcpus v := by
    unfold vmm_scheduler_state_change at hcall
    unfold state_change_yields at hsync
    dsimp only at hcall hsync
    by_cases hp : (state_change_locked cfg s v new_state ext).preempt = true
    · rw [if_pos hp] at hcall
      rw [hp, Bool.true_and] at hsync
      cases hc : ((state_change_locked cfg s v new_state ext).s.sched
          (s.vcpus v).hcpu).current_vcpu with
      | none =>
        rw [hc] at hcall
        simp only [Option.some.injEq, Prod.mk.injEq] at hcall
        rw [← hcall.2]
      | some current =>
        rw [hc] at hcall hsync
        exact preempt_vcpus_frame cfg _ chcpu _ current _ _ ext s1 hcall hsync v
          (by rw [hst]; exact hnr) (by rw [hkeep]; exact hnr)
    · rw [if_neg hp] at hcall
      simp only [Option.some.injEq, Prod.mk.injEq] at hcall
      rw [← hcall.2]
  obtain ⟨a0, a1, a2, a3, a4, a5, a6⟩ := acc_switch cfg s v new_state ext
  obtain ⟨f1, f2, f3⟩ := account_fields (state_change_switch cfg s v new_state ext).s v
    (s.vcpus v).state new_state ext.tstamp
  rw [hv, hlocked]
  refine ⟨f1, f2, fun hne => ?_⟩
  obtain ⟨g1, g2, g3, g4, g5⟩ := f3 hne
  rw [a1, a2, a3, a4, a5, a6] at *
  exact ⟨g1, g2, g3, g4, g5⟩

/-- C27, witness: the PAUSED VCPU 1 of `ex_paused` (`state_tstamp = 0`) is resumed at time
100 with no current VCPU on its host CPU: the call returns `VMM_OK`, VCPU 1 is READY, and its
paused bucket has grown by 100. -/
theorem state_change_accounting_witness :
    state_change_accounts ex_config ex_paused 1 VMM_VCPU_STATE_READY (ex_ext 100) = true
      ∧ state_change_yields ex_config ex_paused 0 1 VMM_VCPU_STATE_READY (ex_ext 100) = false
      ∧ (vmm_scheduler_state_change ex_config ex_paused 0 (some 1) VMM_VCPU_STATE_READY
            (ex_ext 100)).map
          (fun r => (r.1, (r.2.vcpus 1).state, (r.2.vcpus 1).state_paused_nsecs))
          = some (VMM_OK, VMM_VCPU_STATE_READY, 100)
      ∧ (((vmm_scheduler_state_change ex_config ex_paused 0 (some 1) VMM_VCPU_STATE_READY
            (ex_ext 100)).getD (VMM_OK, ex_paused)).2.vcpus 1).state_tstamp = 100 :=
  ⟨by decide, by decide, by decide,
    (state_change_accounting ex_config ex_paused
      ((vmm_scheduler_state_change ex_config ex_paused 0 (some 1) VMM_VCPU_STATE_READY
        (ex_ext 100)).getD (VMM_OK, ex_paused)).2 0 1 VMM_VCPU_STATE_READY (ex_ext 100) rfl
      (by decide) (by decide) (by decide)).1⟩

/-! ### C28: the postcondition of `vmm_scheduler_next` -/

theorem highest_band_spec (rq : Rq) (p : Nat) :
    ∀ m, highest_band rq m = some p →
      p ≤ m ∧ rq p ≠ [] ∧ ∀ q, p < q → q ≤ m → rq q = [] := by
  intro m
  induction m with
  | zero =>
    intro h
    simp only [highest_band] at h
    split at h
    · exact absurd h (by simp)
    · next h0 =>
      simp only [Option.some.injEq] at h
      subst h
      exact ⟨Nat.le_refl _, h0, fun q h1 h2 => absurd h1 (by omega)⟩
  | succ m ih =>
    intro h
    simp only [highest_band] at h
    split at h
    · next h0 =>
      obtain ⟨i1, i2, i3⟩ := ih h
      refine ⟨by omega, i2, fun q h1 h2 => ?_⟩
      by_cases hq : q = m + 1
      · rw [hq]; exact h0
      · exact i3 q h1 (by omega)
    · next h0 =>
      simp only [Option.some.injEq] at h
      subst h
      exact ⟨Nat.le_refl _, h0, fun q h1 h2 => absurd h1 (by omega)⟩

theorem save_current_facts (s : System) (cpu c tstamp : Nat) :
    ((save_current s cpu c tstamp).1.sched cpu).rq = rq_with_current s cpu c
      ∧ (save_current s cpu c tstamp).1.trace = s.trace
      ∧ (save_current s cpu c tstamp).2
          = (if VMM_VCPU_STATE_SAVEABLE (s.vcpus c).state = true then some c else none)
      ∧ (∀ w, ((save_current s cpu c tstamp).1.vcpus w).time_slice = (s.vcpus w).time_slice)
      ∧ ((s.vcpus c).state = VMM_VCPU_STATE_RUNNING →
          ((save_current s cpu c tstamp).1.vcpus c).state = VMM_VCPU_STATE_READY
          ∧ ((save_current s cpu c tstamp).1.vcpus c).state_running_nsecs
              = u64_sub
                  (u64_add (s.vcpus c).state_running_nsecs
                    (u64_sub tstamp (s.vcpus c).state_tstamp))
                  (u64_sub (s.sched cpu).irq_process_ns (s.sched cpu).current_vcpu_irq_ns)) := by
  unfold save_current rq_with_current
  dsimp only
  by_cases hrun : (s.vcpus c).state = VMM_VCPU_STATE_RUNNING
  · have hsv : VMM_VCPU_STATE_SAVEABLE (s.vcpus c).state = true := by
      rw [hrun]; rfl
    rw [if_pos hsv, if_pos hrun, if_pos hrun]
    refine ⟨?_, ?_, ?_, fun w => ?_, fun _ => ⟨?_, ?_⟩⟩
    · simp [rq_enqueue, vmm_schedalgo_rq_enqueue, set_sched, set_vcpu]
    · simp [rq_enqueue, set_sched, set_vcpu]
    · simp [hsv]
    · by_cases hw : w = c
      · subst hw
        simp [rq_enqueue, set_sched, set_vcpu]
      · simp [rq_enqueue, set_sched, set_vcpu, Function.update_apply, hw]
    · simp [rq_enqueue, set_sched, set_vcpu]
    · simp [rq_enqueue, set_sched, set_vcpu]
  · simp only [hrun, if_false]
    refine ⟨?_, ?_, ?_, fun w => ?_, fun h => h.elim⟩
    · split <;> rfl
    · split <;> rfl
    · split <;> rfl
    · split <;> rfl

theorem install_next_sched (s : System) (cpu next slice tstamp : Nat) :
    ((install_next s cpu next slice tstamp).sched cpu).rq = (s.sched cpu).rq
      ∧ ((install_next s cpu next slice tstamp).sched cpu).current_vcpu = some next
      ∧ ((install_next s cpu next slice tstamp).sched cpu).current_vcpu_irq_ns
          = ((install_next s cpu next slice tstamp).sched cpu).irq_process_ns
      ∧ (install_next s cpu next slice tstamp).trace
          = s.trace ++ [Call.vmm_timer_event_start cpu slice] := by
  simp [install_next, emit, set_sched, set_vcpu]

/-- C28, counterexample: starting with VCPU 1 RUNNING and current on host CPU 0, the four
calls of `ex_enqueued_twice` all return and leave VCPU 1 current, READY, and twice on the
ready queue; there `vmm_scheduler_next` dequeues VCPU 1, makes it RUNNING and current, and
VCPU 1 is still on the ready queue. -/
theorem scheduler_next_counterexample :
    run ex_config (ex_in_irq ex_running) ex_enqueued_twice = some ex_twice_queued
      ∧ (ex_twice_queued.sched 0).current_vcpu = some 1
      ∧ (ex_twice_queued.vcpus 1).state = VMM_VCPU_STATE_READY
      ∧ (ex_twice_queued.sched 0).rq 5 = [1, 1]
      ∧ (vmm_scheduler_next ex_config ex_twice_queued 0 (some 0) 80).map
          (fun s1 => ((s1.sched 0).current_vcpu, (s1.vcpus 1).state, (s1.sched 0).rq 5))
          = some (some 1, VMM_VCPU_STATE_RUNNING, [1]) := by
  refine ⟨rfl, ?_, ?_, ?_, ?_⟩ <;> decide

/-- C28, amended: for a host CPU with a current VCPU `c` whose ready queue, taken with `c`
appended to the tail of its band if `c` is RUNNING, is non-empty (its highest non-empty band
among the priorities up to the maximum is `p`) and holds no VCPU twice, `vmm_scheduler_next`
returns with `current_vcpu == next`, the head of band `p` of that queue; `next` is RUNNING
and no longer on the queue; if `c` was RUNNING and `c != next`, `c` is READY, on the queue
exactly once, and its running time has grown by `(now - state_tstamp) -
(irq_process_ns - current_vcpu_irq_ns)` in `u64` arithmetic; `arch_vcpu_switch` is called
exactly when `next != c`, before the tick is programmed for the time slice of `next`; and
`current_vcpu_irq_ns == irq_process_ns`. -/
theorem scheduler_next_postcondition (cfg : Config) (s : System) (cpu c : Nat)
    (regs : Option Nat) (tstamp p : Nat)
    (hcur : (s.sched cpu).current_vcpu = some c)
    (hne : highest_band (rq_with_current s cpu c) cfg.VMM_VCPU_MAX_PRIORITY = some p)
    (hdup : rq_no_duplicate (rq_with_current s cpu c)) :
    ∃ s1 next rest, vmm_scheduler_next cfg s cpu regs tstamp = some s1
      ∧ rq_with_current s cpu c p = next :: rest
      ∧ (∀ q, p < q → q ≤ cfg.VMM_VCPU_MAX_PRIORITY → rq_with_current s cpu c q = [])
      ∧ (s1.sched cpu).current_vcpu = some next
      ∧ (s1.vcpus next).state = VMM_VCPU_STATE_RUNNING
      ∧ (∀ q, next ∉ (s1.sched cpu).rq q)
      ∧ ((s.vcpus c).state = VMM_VCPU_STATE_RUNNING → c ≠ next →
          (s1.vcpus c).state = VMM_VCPU_STATE_READY
          ∧ ((s1.sched cpu).rq (s.vcpus c).priority).count c = 1
          ∧ (∀ q, q ≠ (s.vcpus c).priority → c ∉ (s1.sched cpu).rq q)
          ∧ (s1.vcpus c).state_running_nsecs
              = u64_sub
                  (u64_add (s.vcpus c).state_running_nsecs
                    (u64_sub tstamp (s.vcpus c).state_tstamp))
                  (u64_sub (s.sched cpu).irq_process_ns (s.sched cpu).current_vcpu_irq_ns))
      ∧ s1.trace
          = s.trace
            ++ (if next ≠ c then
                  [Call.arch_vcpu_switch
                    (if VMM_VCPU_STATE_SAVEABLE (s.vcpus c).state = true then some c else none)
                    next regs]
                else [])
            ++ [Call.vmm_timer_event_start cpu (s.vcpus next).time_slice]
      ∧ (s1.sched cpu).current_vcpu_irq_ns = (s1.sched cpu).irq_process_ns := by
  obtain ⟨_, hp2, hp3⟩ := highest_band_spec _ p _ hne
  obtain ⟨next, rest, hR⟩ := List.exists_cons_of_ne_nil hp2
  obtain ⟨f1, f2, f3, f4, f5⟩ := save_current_facts s cpu c tstamp
  generalize hsv : save_current s cpu c tstamp = sv at f1 f2 f3 f4 f5
  have hdq : rq_dequeue cfg sv.1 cpu
      = some (next, (s.vcpus next).time_slice,
          set_sched sv.1 cpu
            { sv.1.sched cpu with rq := Function.update (rq_with_current s cpu c) p rest }) := by
    simp only [rq_dequeue, vmm_schedalgo_rq_dequeue, f1, hne, hR, f4]
  have hnext : vmm_scheduler_next cfg s cpu regs tstamp
      = some (install_next
          (if next ≠ c then
            emit
              (set_sched sv.1 cpu
                { sv.1.sched cpu with rq := Function.update (rq_with_current s cpu c) p rest })
              (Call.arch_vcpu_switch sv.2 next regs)
          else
            set_sched sv.1 cpu
              { sv.1.sched cpu with rq := Function.update (rq_with_current s cpu c) p rest })
          cpu next (s.vcpus next).time_slice tstamp) := by
    simp only [vmm_scheduler_next, hcur, hsv, hdq]
  generalize hT : set_sched sv.1 cpu
      { sv.1.sched cpu with rq := Function.update (rq_with_current s cpu c) p rest } = T
    at hnext
  have hTrq : (T.sched cpu).rq = Function.update (rq_with_current s cpu c) p rest := by
    rw [← hT]; simp [set_sched]
  have hTv : T.vcpus = sv.1.vcpus := by rw [← hT]; rfl
  have hTt : T.trace = s.trace := by rw [← hT]; exact f2
  generalize hX : (if next ≠ c then emit T (Call.arch_vcpu_switch sv.2 next regs) else T) = X
    at hnext
  have hXrq : (X.sched cpu).rq = Function.update (rq_with_current s cpu c) p rest := by
    rw [← hX]; split <;> exact hTrq
  have hXv : X.vcpus = sv.1.vcpus := by
    rw [← hX]; split <;> exact hTv
  have hXt : X.trace
      = s.trace ++ (if next ≠ c then [Call.arch_vcpu_switch sv.2 next regs] else []) := by
    rw [← hX]
    split
    · simp [emit, hTt]
    · simp [hTt]
  obtain ⟨i1, i2, i3, i4⟩ := install_next_sched X cpu next (s.vcpus next).time_slice tstamp
  have hnd := hdup.1 p
  rw [hR, List.nodup_cons] at hnd
  have hrq1 : ∀ q, ((install_next X cpu next (s.vcpus next).time_slice tstamp).sched cpu).rq q
      = if q = p then rest else rq_with_current s cpu c q := by
    intro q
    rw [i1, hXrq, Function.update_apply]
  refine ⟨_, next, rest, hnext, hR, hp3, i2, install_next_state _ _ _ _ _, fun q => ?_,
    fun hrun hcn => ?_, ?_, i3⟩
  · rw [hrq1]
    split
    · exact hnd.1
    · next hq =>
      intro hmem
      exact hq (hdup.2 q p next hmem (by rw [hR]; exact List.mem_cons_self _ _))
  · obtain ⟨g1, g2⟩ := f5 hrun
    have hcR : c ∈ rq_with_current s cpu c (s.vcpus c).priority := by
      simp [rq_with_current, hrun, vmm_schedalgo_rq_enqueue]
    refine ⟨?_, ?_, fun q hq => ?_, ?_⟩
    · rw [install_next_vcpus _ _ _ _ _ _ hcn, hXv]
      exact g1
    · rw [hrq1]
      split
      · next hq =>
        have hcount : (next :: rest).count c = 1 := by
          rw [← hR, ← hq]
          exact List.count_eq_one_of_mem (hdup.1 _) hcR
        rw [List.count_cons_of_ne hcn] at hcount
        exact hcount
      · exact List.count_eq_one_of_mem (hdup.1 _) hcR
    · rw [hrq1]
      split
      · next hqp =>
        intro hmem
        exact hq (hdup.2 q _ c (by rw [hqp, hR]; exact List.mem_cons_of_mem _ hmem) hcR)
      · intro hmem
        exact hq (hdup.2 q _ c hmem hcR)
    · rw [install_next_vcpus _ _ _ _ _ _ hcn, hXv]
      exact g2
  · rw [i4, hXt, f3]

/-- C28, witness: in `ex_yield_requested` the RUNNING current VCPU 1 is appended behind the
READY VCPU 2 in band 5, no VCPU is queued twice, and `vmm_scheduler_next` makes VCPU 2
current. -/
theorem scheduler_next_postcondition_witness :
    (ex_yield_requested.sched 0).current_vcpu = some 1
      ∧ highest_band (rq_with_current ex_yield_requested 0 1) ex_config.VMM_VCPU_MAX_PRIORITY
          = some 5
      ∧ rq_with_current ex_yield_requested 0 1 5 = [2, 1]
      ∧ ∃ s1 next rest, vmm_scheduler_next ex_config ex_yield_requested 0 (some 0) 50 = some s1
          ∧ rq_with_current ex_yield_requested 0 1 5 = next :: rest
          ∧ (s1.sched 0).current_vcpu = some next :=
  ⟨rfl, by decide, by decide,
    let ⟨s1, next, rest, e1, e2, _, e3, _⟩ :=
      scheduler_next_postcondition ex_config ex_yield_requested 0 1 (some 0) 50 5 rfl
        (by decide)
        ⟨fun q => by
            by_cases h5 : q = 5
            · subst h5; decide
            · by_cases h0 : q = 0
              · subst h0; decide
              · simp [rq_with_current, ex_yield_requested, ex_system, ex_in_irq, ex_ctrl, ex_rq,
                  ex_vcpu, set_vcpu, set_sched, vmm_schedalgo_rq_enqueue,
                  Function.update_apply, h5, h0],
          fun q q1 w hq hq1 => by
            have key : ∀ k, w ∈ rq_with_current ex_yield_requested 0 1 k →
                (k = 5 ∧ (w = 2 ∨ w = 1)) ∨ (k = 0 ∧ w = 0) := by
              intro k hk
              by_cases h5 : k = 5
              · subst h5
                have : rq_with_current ex_yield_requested 0 1 5 = [2, 1] := by decide
                rw [this] at hk
                simp at hk
                exact Or.inl ⟨rfl, hk⟩
              · by_cases h0 : k = 0
                · subst h0
                  have : rq_with_current ex_yield_requested 0 1 0 = [0] := by decide
                  rw [this] at hk
                  simp at hk
                  exact Or.inr ⟨rfl, hk⟩
                · simp [rq_with_current, ex_yield_requested, ex_system, ex_in_irq, ex_ctrl,
                    ex_rq, ex_vcpu, set_vcpu, set_sched, vmm_schedalgo_rq_enqueue,
                    Function.update_apply, h5, h0] at hk
            rcases key q hq with ⟨a, b⟩ | ⟨a, b⟩ <;> rcases key q1 hq1 with ⟨a1, b1⟩ | ⟨a1, b1⟩ <;>
              omega⟩
    ⟨s1, next, rest, e1, e2, e3⟩⟩

end Xvisor
